import Mathlib

/-!
# Budget-Manager-Pro front end (`webapp/frontend/app.js`): reference cache, gateway and views

A shallow embedding of the client-side script.  Module-level variables, the browser's
`localStorage` and the parts of the document the script touches are fields of `State`;
every function of the script is a Lean function from a state (and, for asynchronous
functions, the outcome of each `fetch` it awaits) to a result and a new state.

Conventions of the embedding.

* `document.getElementById(id)` is `null` exactly when `State.present id` is false.  The
  script's own null checks (`if (!sel) return`, `?.`) are modelled with `present`; an element
  the script dereferences without a check is taken to be in the document, so the attribute
  maps `value`, `text`, `display`, `isOpen` and `selects` are total.
* A `<select>` is single-choice with display size 1 and no disabled option, so that the
  browser keeps one option selected whenever no script has cleared the selection.  The
  selects are the elements the script fills with options; every other form element is an
  input, whose `value` is the text last assigned to it.
* Conversions that belong to the browser and not to the script (the text of a non-integer
  number, locale formatting, `Number(string)`, the message of a runtime `TypeError`,
  `JSON.parse`) are the fields of a parameter `Host`.
* A decoded JSON text (a response body, the claims of a token) is an object with
  primitive-valued properties, array-valued properties whose items are flat records and
  object-valued properties that are flat records, or `null`, or not JSON at all.
* JavaScript numbers are IEEE-754 binary64 values (`JsNum`); arithmetic is rounded to nearest,
  ties to even.  Negative zero is identified with zero.
* An asynchronous function is one step: it takes the outcome of each `fetch` it awaits as an
  argument, and no other handler runs between its statements.  A call that is started
  without `await` is recorded in `State.spawned`; its body, requests included, runs later as
  a separate step.
-/

namespace BudgetManager

/-! ## JavaScript values -/

/-- A JavaScript number: `fin k` is the finite binary64 value `k * 2 ^ (-1074)` (every finite
binary64 value is such a multiple), `nan` is NaN and `inf neg` is plus or minus Infinity. -/
inductive JsNum
  | fin (k : Int)
  | nan
  | inf (neg : Bool)
deriving DecidableEq, Repr

/-- Number of units `2 ^ (-1074)` in one. -/
def unit : Nat := 2 ^ 1074

/-- Largest finite magnitude plus one unit of the last place, `2 ^ 1024`, in units. -/
def overflowBound : Nat := 2 ^ 2098

/-- Auxiliary loop of `bitLen`, with fuel. -/
def bitLenAux : Nat → Nat → Nat
  | 0, _ => 0
  | f + 1, m => if m = 0 then 0 else bitLenAux f (m / 2) + 1

/-- Number of binary digits of `n` (zero for zero). -/
def bitLen (n : Nat) : Nat := bitLenAux n n

/-- Nearest binary64 value to `(n / d) * 2 ^ (-1074)` for `d > 0`: 53 significant bits, ties
to even, gradual underflow, overflow to Infinity. -/
def JsNum.round (n : Int) (d : Nat) : JsNum :=
  let a := n.natAbs
  let q0 := a / d
  let s := bitLen q0 - 53
  let m := d * 2 ^ s
  let q := a / m
  let r := a % m
  let up := if 2 * r < m then q else if m < 2 * r then q + 1 else if q % 2 = 0 then q else q + 1
  let mag := up * 2 ^ s
  if overflowBound ≤ mag then .inf (decide (n < 0))
  else .fin (if n < 0 then -(mag : Int) else (mag : Int))

/-- The number denoted by the decimal literal `n / d` (for example `ofRatio 13333 100` is the
number written `133.33`). -/
def JsNum.ofRatio (n : Int) (d : Nat) : JsNum := JsNum.round (n * unit) d

/-- The number denoted by an integer literal. -/
def JsNum.ofInt (n : Int) : JsNum := JsNum.ofRatio n 1

/-- Exact rational value of a finite number. -/
def JsNum.toRat : JsNum → ℚ
  | .fin k => (k : ℚ) / (unit : ℚ)
  | _ => 0

/-- Whether the number is finite. -/
def JsNum.isFinite : JsNum → Bool
  | .fin _ => true
  | _ => false

/-- The number zero. -/
def JsNum.zero : JsNum := .fin 0

/-- The number one. -/
def JsNum.one : JsNum := .fin unit

/-- The number one hundred. -/
def JsNum.hundred : JsNum := .fin (100 * unit)

/-- The number twenty. -/
def JsNum.twenty : JsNum := .fin (20 * unit)

/-- The operator `x + y` on numbers. -/
def JsNum.add : JsNum → JsNum → JsNum
  | .fin a, .fin b => JsNum.round (a + b) 1
  | .nan, _ => .nan
  | _, .nan => .nan
  | .inf n, .inf m => if n = m then .inf n else .nan
  | .inf n, .fin _ => .inf n
  | .fin _, .inf m => .inf m

/-- The operator `x * y` on numbers. -/
def JsNum.mul : JsNum → JsNum → JsNum
  | .fin a, .fin b => JsNum.round (a * b) unit
  | .nan, _ => .nan
  | _, .nan => .nan
  | .inf n, .inf m => .inf (n != m)
  | .inf n, .fin b => if b = 0 then .nan else .inf (n != decide (b < 0))
  | .fin a, .inf m => if a = 0 then .nan else .inf (decide (a < 0) != m)

/-- The operator `x / y` on numbers.  (A zero divisor counts as positive zero.) -/
def JsNum.div : JsNum → JsNum → JsNum
  | .fin a, .fin b =>
    if b = 0 then (if a = 0 then .nan else .inf (decide (a < 0)))
    else JsNum.round (if b < 0 then -(a * unit) else a * unit) b.natAbs
  | .nan, _ => .nan
  | _, .nan => .nan
  | .inf _, .inf _ => .nan
  | .inf n, .fin b => .inf (n != decide (b < 0))
  | .fin _, .inf _ => .fin 0

/-- `Math.round(x)`: the integer nearest to `x`, a tie going to the larger one. -/
def JsNum.mathRound : JsNum → JsNum
  | .fin k => .fin ((k + (unit / 2 : Nat)) / (unit : Int) * (unit : Int))
  | .nan => .nan
  | .inf n => .inf n

/-- Truthiness of a number: neither zero nor NaN. -/
def JsNum.truthy : JsNum → Bool
  | .fin k => k != 0
  | .nan => false
  | .inf _ => true

/-- The operator `x || y` on numbers. -/
def JsNum.or (x y : JsNum) : JsNum := if x.truthy then x else y

/-- White space and line terminators, as skipped by `parseFloat`, `parseInt` and `trim`. -/
def isJsSpace (c : Char) : Bool :=
  let n := c.toNat
  (9 ≤ n && n ≤ 13) || n == 32 || n == 160 || n == 5760 || (8192 ≤ n && n ≤ 8202)
    || n == 8232 || n == 8233 || n == 8239 || n == 8287 || n == 12288 || n == 65279

/-- `str.trim()`. -/
def jsTrim (str : String) : String :=
  String.mk (((str.toList.dropWhile isJsSpace).reverse.dropWhile isJsSpace).reverse)

/-- The natural number written by a sequence of decimal digits. -/
def digitsValue (ds : List Char) : Nat :=
  ds.foldl (fun n c => 10 * n + (c.toNat - 48)) 0

/-- The exponent part of a decimal literal at the head of `cs` (`e` or `E`, an optional sign
and at least one digit), as a power of ten; zero when there is none. -/
def exponentPart (cs : List Char) : Int :=
  match cs with
  | e :: r =>
    if e = 'e' ∨ e = 'E' then
      match r with
      | '-' :: ds => -((digitsValue (ds.takeWhile Char.isDigit) : Nat) : Int)
      | '+' :: ds => ((digitsValue (ds.takeWhile Char.isDigit) : Nat) : Int)
      | ds => ((digitsValue (ds.takeWhile Char.isDigit) : Nat) : Int)
    else 0
  | [] => 0

/-- The number `sign * mant * 10 ^ e10`, rounded to binary64. -/
def decimalValue (neg : Bool) (mant : Nat) (e10 : Int) : JsNum :=
  let m : Int := if neg then -(mant : Int) else (mant : Int)
  match e10 with
  | .ofNat k => JsNum.round (m * (10 ^ k : Nat) * unit) 1
  | .negSucc k => JsNum.round (m * unit) (10 ^ (k + 1))

/-- `parseFloat(str)`: leading white space is skipped and the longest prefix that is a decimal
literal (optional sign; `Infinity`, or digits with an optional fraction and exponent) is
converted; NaN when there is no such prefix. -/
def parseFloat (str : String) : JsNum :=
  let cs := str.toList.dropWhile isJsSpace
  let neg := decide (cs.head? = some '-')
  let cs1 := if cs.head? = some '-' ∨ cs.head? = some '+' then cs.tail else cs
  if "Infinity".toList.isPrefixOf cs1 then .inf neg
  else
    let intDs := cs1.takeWhile Char.isDigit
    let r1 := cs1.dropWhile Char.isDigit
    let fracDs := if r1.head? = some '.' then r1.tail.takeWhile Char.isDigit else []
    let r2 := if r1.head? = some '.' then r1.tail.dropWhile Char.isDigit else r1
    if intDs = [] ∧ fracDs = [] then .nan
    else decimalValue neg (digitsValue (intDs ++ fracDs)) (exponentPart r2 - fracDs.length)

/-- The value of a hexadecimal digit. -/
def hexDigit (c : Char) : Option Nat :=
  if c.isDigit then some (c.toNat - 48)
  else if 'a' ≤ c ∧ c ≤ 'f' then some (c.toNat - 87)
  else if 'A' ≤ c ∧ c ≤ 'F' then some (c.toNat - 55)
  else none

/-- `parseInt(str)` without radix: leading white space is skipped; after an optional sign the
digits are hexadecimal when they follow `0x` or `0X`, decimal otherwise; NaN when there is no
digit. -/
def parseInt (str : String) : JsNum :=
  let cs := str.toList.dropWhile isJsSpace
  let neg := decide (cs.head? = some '-')
  let cs1 := if cs.head? = some '-' ∨ cs.head? = some '+' then cs.tail else cs
  if "0x".toList.isPrefixOf cs1 ∨ "0X".toList.isPrefixOf cs1 then
    let ds := (cs1.drop 2).takeWhile (fun c => (hexDigit c).isSome)
    if ds = [] then .nan
    else decimalValue neg (ds.foldl (fun n c => 16 * n + (hexDigit c).getD 0) 0) 0
  else
    let ds := cs1.takeWhile Char.isDigit
    if ds = [] then .nan else decimalValue neg (digitsValue ds) 0

/-- A primitive JavaScript value, as found in the properties of a decoded JSON record. -/
inductive JVal
  | undefined
  | null
  | bool (b : Bool)
  | num (x : JsNum)
  | str (s : String)
deriving DecidableEq, Repr

/-- JavaScript truthiness (`ToBoolean`). -/
def JVal.truthy : JVal → Bool
  | .undefined => false
  | .null => false
  | .bool b => b
  | .num (.fin k) => k != 0
  | .num .nan => false
  | .num (.inf _) => true
  | .str s => s != ""

/-- Strict equality `===` on primitive values. -/
def JVal.strictEq : JVal → JVal → Bool
  | .undefined, .undefined => true
  | .null, .null => true
  | .bool a, .bool b => a == b
  | .num .nan, .num _ => false
  | .num _, .num .nan => false
  | .num a, .num b => a == b
  | .str a, .str b => a == b
  | _, _ => false

/-- The operator `a || b`. -/
def JVal.or (a b : JVal) : JVal := if a.truthy then a else b

/-- A decoded JSON record: property names with primitive values, in order. -/
abbrev Record := List (String × JVal)

/-- Property read `r[key]`; a missing property is `undefined`. -/
def Record.get (r : Record) (key : String) : JVal := (r.lookup key).getD .undefined

/-- A decoded JSON object: its primitive-valued properties, its array-valued properties
(each an ordered sequence of records) and its object-valued properties (each a record). -/
structure Payload where
  fields : Record
  lists : List (String × List Record)
  objects : List (String × Record)
deriving DecidableEq, Repr

/-- Property read of a primitive-valued property of a payload.  (The properties the script
reads this way, such as `error`, `success` and `exp`, are read among the primitive-valued
properties only: an object or an array under such a name is read as `undefined`.) -/
def Payload.get (p : Payload) (key : String) : JVal := Record.get p.fields key

/-- The idiom `data[key] || []` for an array-valued property. -/
def Payload.listOr (p : Payload) (key : String) : List Record := (p.lists.lookup key).getD []

/-- The idiom `data[key] || {}` for an object-valued property. -/
def Payload.objectOr (p : Payload) (key : String) : Record := (p.objects.lookup key).getD []

/-- The object without properties.  Every property read of it gives `undefined`, as does
every property read of a number, a string or a boolean. -/
def noProps : Payload := ⟨[], [], []⟩

/-- What `res.json()` and `JSON.parse` yield: a failure with the parser's message when the
text is not JSON, the value `null`, one of the falsy values `0`, `false` and `""`, or an
object.  (A truthy JSON number, string or boolean and an array pass every truthiness test
and have none of the properties the script reads: they are represented by the object without
properties.) -/
inductive Body
  | invalid (message : String)
  | null
  | falsy
  | obj (p : Payload)
deriving DecidableEq, Repr

/-- Conversions supplied by the browser that the script relies on but that are not part of
the repository: the text of a non-integer number, locale formatting, the message of a
`TypeError` raised by the runtime, `JSON.parse`, and the text of the property a plain object
inherits under a given name, if it inherits one (`inheritedText "toString"`, say). -/
structure Host where
  fractionToString : JsNum → String
  stringToNumber : String → JsNum
  toLocaleStringFr : JsNum → Nat → Option Nat → String
  typeErrorMessage : String
  jsonParse : String → Body
  inheritedText : String → Option String

/-- `String(x)` for a number: decimal digits for an integer below `2 ^ 53` in magnitude (whose
shortest round-trip text is its exact decimal writing), the fixed names for the non-finite
values, and the host's shortest round-trip text otherwise. -/
def JsNum.toJsString (h : Host) : JsNum → String
  | .nan => "NaN"
  | .inf false => "Infinity"
  | .inf true => "-Infinity"
  | .fin k =>
    if k % (unit : Int) = 0 ∧ (k / (unit : Int)).natAbs < 2 ^ 53 then toString (k / (unit : Int))
    else h.fractionToString (.fin k)

/-- `String(x)`, also the conversion applied by template literals and by `+` with a string. -/
def JVal.toJsString (h : Host) : JVal → String
  | .undefined => "undefined"
  | .null => "null"
  | .bool true => "true"
  | .bool false => "false"
  | .num x => x.toJsString h
  | .str s => s

/-- A thrown value: an error object whose message is known (`new Error(message)`, or a
rejection whose message the environment supplies), or a `TypeError` raised by the runtime. -/
inductive JsError
  | error (message : String)
  | typeError
deriving DecidableEq, Repr

/-- Equality of outcomes is decidable. -/
instance decEqExcept {ε α : Type} [DecidableEq ε] [DecidableEq α] : DecidableEq (Except ε α)
  | .ok a, .ok b =>
    if hab : a = b then isTrue (by rw [hab]) else isFalse (fun he => hab (by injection he))
  | .error a, .error b =>
    if hab : a = b then isTrue (by rw [hab]) else isFalse (fun he => hab (by injection he))
  | .ok _, .error _ => isFalse (fun he => by injection he)
  | .error _, .ok _ => isFalse (fun he => by injection he)

/-- The property `e.message`. -/
def JsError.message (h : Host) : JsError → String
  | .error m => m
  | .typeError => h.typeErrorMessage

/-- What an awaited `apiFetch` resolves to: the decoded body of a 2xx response, which is
`null`, one of the falsy values `0`, `false` and `""`, or an object. -/
inductive Data
  | null
  | falsy
  | obj (p : Payload)
deriving DecidableEq, Repr

/-! ## The document, the storage and the module-level variables -/

/-- One `<option>` of a select: its `value` and its text. -/
structure SelectOption where
  value : String
  label : String
deriving DecidableEq, Repr

/-- A `<select>` element: its options in document order and the index of the selected one
(`none` when no option is selected, as after assigning a value no option carries). -/
structure Select where
  options : List SelectOption
  selected : Option Nat
deriving DecidableEq, Repr

/-- The property `sel.value`: the value of the selected option, or the empty string. -/
def Select.value (sel : Select) : String :=
  match sel.selected with
  | none => ""
  | some i => ((sel.options.get? i).map SelectOption.value).getD ""

/-- The assignment `sel.value = v`: selects the first option whose value is `v`, and leaves
no option selected when there is none. -/
def Select.setValue (sel : Select) (v : String) : Select :=
  let i := sel.options.findIdx (fun o => o.value == v)
  { sel with selected := if i < sel.options.length then some i else none }

/-- A request handed to `fetch`. -/
structure Request where
  url : String
  method : String
  headers : List (String × String)
  body : Option Record
deriving DecidableEq, Repr

/-- The second argument of `apiFetch`, as far as `fetch` reads it. -/
structure FetchOpts where
  method : Option String
  body : Option Record
  headers : Option (List (String × String))
deriving DecidableEq, Repr

/-- The outcome of one `fetch`: a rejection (network failure) with its message, or a response
with its status and what decoding its body gives. -/
inductive FetchResult
  | failed (message : String)
  | response (status : Nat) (body : Body)
deriving DecidableEq, Repr

/-- Functions of the script that may be started without being awaited. -/
inductive Call
  | initRefs
  | loadDashboard
  | loadNotifications
  | loadAllLignes
  | loadBudget
  | loadBC
  | loadContrats
  | loadProjets
  | loadTaches
  | loadFournisseurs
  | loadContacts
  | ficheProjet (id : JVal)
  | switchProjTab (tabId : String)
deriving DecidableEq, Repr

/-- The variable `_refs`: the reference snapshot.  The object literal that initialises it has
the five keys `fournisseurs, entites, projets, lignes, contrats`; `applications` is absent until
`initRefs` assigns it. -/
structure Refs where
  fournisseurs : List Record
  entites : List Record
  projets : List Record
  lignes : List Record
  applications : Option (List Record)
  contrats : List Record
deriving DecidableEq, Repr

/-- Property read `_refs[key]` as a sequence; `none` is `undefined`. -/
def Refs.get (r : Refs) (key : String) : Option (List Record) :=
  if key = "fournisseurs" then some r.fournisseurs
  else if key = "entites" then some r.entites
  else if key = "projets" then some r.projets
  else if key = "lignes" then some r.lignes
  else if key = "applications" then r.applications
  else if key = "contrats" then some r.contrats
  else none

/-- The variable `_cache`: the entity list caches kept in one object. -/
structure Cache where
  projets : List Record
  taches : List Record
  contrats : List Record
  contacts : List Record
  fournisseurs : List Record
deriving DecidableEq, Repr

/-- Everything the script reads and writes. -/
structure State where
  /-- `localStorage`. -/
  storage : String → Option String
  /-- Whether `document.getElementById(id)` finds an element. -/
  present : String → Bool
  /-- The property `value` of input elements. -/
  value : String → String
  /-- The properties `textContent` and `innerHTML`. -/
  text : String → String
  /-- The property `style.display`. -/
  display : String → String
  /-- The property `style.background`. -/
  background : String → String
  /-- Whether the class list holds `open`. -/
  isOpen : String → Bool
  /-- The select elements. -/
  selects : String → Select
  currentBudgetId : JVal
  currentBcId : JVal
  currentContratId : JVal
  refs : Refs
  cache : Cache
  lignesSelectId : JVal
  lignesCache : List Record
  budgetsList : List Record
  /-- Requests handed to `fetch`, oldest first. -/
  requests : List Request
  /-- Values passed to `console.warn`, oldest first. -/
  warnings : List JsError
  /-- Calls started without `await`, oldest first. -/
  spawned : List Call

/-- Functional update of one entry of a map. -/
def upd {α : Type} (f : String → α) (k : String) (v : α) : String → α :=
  fun x => if x = k then v else f x

/-! ## Session holder -/

/-- The constant `API`. -/
def API : String := "/api"

/-- The constant `TOKEN_KEY`. -/
def TOKEN_KEY : String := "bmp_jwt"

/-- `getToken()`. -/
def getToken (s : State) : Option String := s.storage TOKEN_KEY

/-- `setToken(t)`. -/
def setToken (s : State) (t : String) : State := { s with storage := upd s.storage TOKEN_KEY (some t) }

/-- `removeToken()`. -/
def removeToken (s : State) : State := { s with storage := upd s.storage TOKEN_KEY none }

/-- `showLoginOverlay()`. -/
def showLoginOverlay (s : State) : State :=
  { s with display := upd s.display "login-overlay" "flex", value := upd s.value "login-pass" "" }

/-- `hideLoginOverlay()`. -/
def hideLoginOverlay (s : State) : State :=
  { s with display := upd s.display "login-overlay" "none" }

/-! ## Utilities -/

/-- `showMsg(text, ok)`: fills and shows the banner `msg`.  (The timer that hides it three
seconds later is a later event and is not part of this step.) -/
def showMsg (s : State) (text : String) (ok : Bool) : State :=
  { s with
    text := upd s.text "msg" text
    background := upd s.background "msg" (if ok then "#27ae60" else "#c0392b")
    display := upd s.display "msg" "block" }

/-- `openModal(id)`. -/
def openModal (s : State) (id : String) : State := { s with isOpen := upd s.isOpen id true }

/-- `closeModal(id)`. -/
def closeModal (s : State) (id : String) : State := { s with isOpen := upd s.isOpen id false }

/-! ## API gateway -/

/-- `res.ok`: the status is in the range 200 to 299. -/
def statusOk (status : Nat) : Bool := decide (200 ≤ status ∧ status ≤ 299)

/-- The headers `apiFetch` builds: the content type, and the credential when one is stored. -/
def authHeaders (s : State) : List (String × String) :=
  let headers0 : List (String × String) := [("Content-Type", "application/json")]
  match getToken s with
  | some t => if t != "" then headers0 ++ [("Authorization", "Bearer " ++ t)] else headers0
  | none => headers0

/-- The request `fetch(API + path, { headers, ...opts })` issues: the options override the
headers when they carry their own, and the method defaults to `GET`. -/
def requestOf (s : State) (path : String) (opts : FetchOpts) : Request :=
  { url := API ++ path
    method := opts.method.getD "GET"
    headers := opts.headers.getD (authHeaders s)
    body := opts.body }

/-- `apiFetch(path, opts)`, given the outcome `net` of its `fetch`.  On a failing status the
message is `err.error || 'HTTP <status>'`: reading `error` from `null` throws, and reading
it from a falsy body gives `undefined`. -/
def apiFetch (h : Host) (s : State) (path : String) (opts : FetchOpts) (net : FetchResult) :
    Except JsError Data × State :=
  let req := requestOf s path opts
  let s1 := { s with requests := s.requests ++ [req] }
  match net with
  | .failed m => (.error (.error m), s1)
  | .response status body =>
    if status = 401 then
      let s2 := removeToken s1
      let s3 := showLoginOverlay s2
      (.error (.error "Session expirée, veuillez vous reconnecter"), s3)
    else if status = 403 then
      (.error (.error "Accès interdit — droits insuffisants"), s1)
    else if !statusOk status then
      match body with
      | .invalid _ => (.error (.error ("HTTP " ++ toString status)), s1)
      | .null => (.error .typeError, s1)
      | .falsy => (.error (.error ("HTTP " ++ toString status)), s1)
      | .obj err =>
        (.error (.error (((err.get "error").or (.str ("HTTP " ++ toString status))).toJsString h)), s1)
    else
      match body with
      | .invalid m => (.error (.error m), s1)
      | .null => (.ok .null, s1)
      | .falsy => (.ok .falsy, s1)
      | .obj p => (.ok (.obj p), s1)

/-- The value written by `el.textContent = v`: `null` and `undefined` give the empty text. -/
def textContentOf (h : Host) : JVal → String
  | .undefined => ""
  | .null => ""
  | v => v.toJsString h

/-- `Number(v)`. -/
def toNumber (h : Host) : JVal → JsNum
  | .undefined => .nan
  | .null => .fin 0
  | .bool true => .fin unit
  | .bool false => .fin 0
  | .num x => x
  | .str s => h.stringToNumber s

/-- `fmt(n)`. -/
def fmt (h : Host) (n : JVal) : String :=
  if n = .null ∨ n = .undefined ∨ n = .str "" then "-"
  else h.toLocaleStringFr (toNumber h n) 2 (some 2)

/-- The fourth argument of `fillSelect`: a function of the item, or a property name. -/
inductive LabelFn
  | fn (f : Record → JVal)
  | key (k : String)

/-- `typeof labelFn === 'function' ? labelFn(item) : item[labelFn]`. -/
def LabelFn.apply : LabelFn → Record → JVal
  | .fn f, item => f item
  | .key k, item => Record.get item k

/-- The options `fillSelect` creates: one per item, in order, with value `item[valKey]` and the
label as text. -/
def itemOptions (h : Host) (items : List Record) (valKey : String) (labelFn : LabelFn) :
    List SelectOption :=
  items.map fun item =>
    { value := (Record.get item valKey).toJsString h
      label := textContentOf h (labelFn.apply item) }

/-- `fillSelect(selId, items, valKey, labelFn)`.  With no element the call returns at once.
Otherwise the options are removed and the former first option is appended again, which the
browser selects as the only option; `appendChild` throws a `TypeError` when there was no first
option.  The options created for the items are appended unselected. -/
def fillSelect (h : Host) (s : State) (selId : String) (items : List Record) (valKey : String)
    (labelFn : LabelFn) : Except JsError Unit × State :=
  if !s.present selId then (.ok (), s)
  else
    match (s.selects selId).options with
    | [] => (.error .typeError, { s with selects := upd s.selects selId ⟨[], none⟩ })
    | first :: _ =>
      (.ok (), { s with
        selects := upd s.selects selId ⟨first :: itemOptions h items valKey labelFn, some 0⟩ })

/-! ## Reference cache -/

/-- `fLabel` of `initRefs`. -/
def fLabel (f : Record) : JVal := Record.get f "nom"

/-- `eLabel` of `initRefs`. -/
def eLabel (h : Host) (e : Record) : JVal :=
  if (Record.get e "code").truthy then
    .str ((Record.get e "code").toJsString h ++ " – " ++ (Record.get e "nom").toJsString h)
  else Record.get e "nom"

/-- `pLabel` of `initRefs`. -/
def pLabel (h : Host) (p : Record) : JVal :=
  if (Record.get p "code").truthy then
    .str ((Record.get p "code").toJsString h ++ " – " ++ (Record.get p "nom").toJsString h)
  else Record.get p "nom"

/-- `lLabel` of `initRefs`. -/
def lLabel (h : Host) (l : Record) : JVal :=
  let solde := fmt h ((Record.get l "montant_solde").or (.num (.fin 0)))
  .str (((Record.get l "libelle").or
      (.str ("Ligne #" ++ (Record.get l "id").toJsString h))).toJsString h
    ++ " — Solde: " ++ solde ++ " €")

/-- `cLabel` of `initRefs`. -/
def cLabel (h : Host) (c : Record) : JVal :=
  if (Record.get c "numero_contrat").truthy then
    .str ((Record.get c "numero_contrat").toJsString h
      ++ (if (Record.get c "objet").truthy then " – " ++ (Record.get c "objet").toJsString h
          else ""))
  else .str ("Contrat #" ++ (Record.get c "id").toJsString h)

/-- `sLabel` of `initRefs`. -/
def sLabel (h : Host) (s : Record) : JVal :=
  if (Record.get s "code").truthy then
    .str ((Record.get s "code").toJsString h ++ " – " ++ (Record.get s "nom").toJsString h)
  else Record.get s "nom"

/-- The calls of `fillSelect` made by `initRefs`, in source order: the select, the items and
the label function (the value key is `id` throughout). -/
def refFills (h : Host) (r : Refs) (services : List Record) :
    List (String × List Record × LabelFn) :=
  [ ("budget-entite", r.entites, .fn (eLabel h)),
    ("bc-fournisseur", r.fournisseurs, .fn fLabel),
    ("bc-entite", r.entites, .fn (eLabel h)),
    ("bc-filter-entite", r.entites, .fn (eLabel h)),
    ("bc-ligne", r.lignes, .fn (lLabel h)),
    ("contrat-fournisseur", r.fournisseurs, .fn fLabel),
    ("tache-projet", r.projets, .fn (pLabel h)),
    ("tache-filter-projet", r.projets, .fn (pLabel h)),
    ("kanban-filter-projet", r.projets, .fn (pLabel h)),
    ("edit-tache-projet", r.projets, .fn (pLabel h)),
    ("edit-contrat-fournisseur", r.fournisseurs, .fn fLabel),
    ("edit-bc-fournisseur", r.fournisseurs, .fn fLabel),
    ("edit-bc-entite", r.entites, .fn (eLabel h)),
    ("edit-bc-ligne", r.lignes, .fn (lLabel h)),
    ("edit-bc-projet", r.projets, .fn (pLabel h)),
    ("edit-bc-contrat", r.contrats, .fn (cLabel h)),
    ("projet-service", services, .fn (sLabel h)),
    ("edit-projet-service", services, .fn (sLabel h)),
    ("imputer-ligne", r.lignes, .fn (lLabel h)) ]

/-- A sequence of `fillSelect` statements: the first one that throws ends the sequence. -/
def fillAll (h : Host) : State → List (String × List Record × LabelFn) → Except JsError Unit × State
  | s, [] => (.ok (), s)
  | s, (selId, items, labelFn) :: rest =>
    match fillSelect h s selId items "id" labelFn with
    | (.ok _, s1) => fillAll h s1 rest
    | (.error e, s1) => (.error e, s1)

/-- The options of a request without method, body or headers of its own: `apiFetch(path)`. -/
def noOpts : FetchOpts := ⟨none, none, none⟩

/-- The snapshot `initRefs` assigns from the decoded response. -/
def refsOf (data : Payload) : Refs :=
  { fournisseurs := data.listOr "fournisseurs"
    entites := data.listOr "entites"
    projets := data.listOr "projets"
    lignes := data.listOr "lignes"
    applications := some (data.listOr "applications")
    contrats := data.listOr "contrats" }

/-- `console.warn('initRefs:', e)`. -/
def warn (s : State) (e : JsError) : State := { s with warnings := s.warnings ++ [e] }

/-- `initRefs()`, given the outcome `net` of its request.  The whole body is inside
`try ... catch (e) { console.warn(...) }`.  Reading `data.fournisseurs` from `null` throws;
a falsy body has none of the lists, as the object without properties. -/
def initRefs (h : Host) (s : State) (net : FetchResult) : Except JsError Unit × State :=
  match apiFetch h s "/referentiels" noOpts net with
  | (.error e, s1) => (.ok (), warn s1 e)
  | (.ok .null, s1) => (.ok (), warn s1 .typeError)
  | (.ok .falsy, s1) =>
    let s2 := { s1 with refs := refsOf noProps }
    match fillAll h s2 (refFills h s2.refs (noProps.listOr "services")) with
    | (.ok _, s3) => (.ok (), s3)
    | (.error e, s3) => (.ok (), warn s3 e)
  | (.ok (.obj data), s1) =>
    let s2 := { s1 with refs := refsOf data }
    match fillAll h s2 (refFills h s2.refs (data.listOr "services")) with
    | (.ok _, s3) => (.ok (), s3)
    | (.error e, s3) => (.ok (), warn s3 e)

/-! ## Form helpers -/

/-- The operator `a ?? b`. -/
def JVal.nullish (a b : JVal) : JVal := if a = .null ∨ a = .undefined then b else a

/-- The text an input element takes from `el.value = v`: `null` gives the empty text. -/
def inputValueOf (h : Host) : JVal → String
  | .null => ""
  | v => v.toJsString h

/-- The assignment `document.getElementById(id).value = v` on an input element. -/
def setValue (h : Host) (s : State) (id : String) (v : JVal) : State :=
  { s with value := upd s.value id (inputValueOf h v) }

/-- The assignment `document.getElementById(id).value = v` on a select element. -/
def setSelect (h : Host) (s : State) (id : String) (v : JVal) : State :=
  { s with selects := upd s.selects id ((s.selects id).setValue (v.toJsString h)) }

/-- The assignment `document.getElementById(id).textContent = text`. -/
def setText (s : State) (id : String) (text : String) : State :=
  { s with text := upd s.text id text }

/-- `str.substring(0, n)` on the characters of a text: the leading characters that fit in `n`
UTF-16 code units, a character outside the basic plane taking two.  (When such a character
straddles the limit the script keeps its first half, a lone surrogate, which a text made of
characters cannot hold; it is left out.) -/
def takeUnits : Nat → List Char → List Char
  | _, [] => []
  | n, c :: cs =>
    if (if c.toNat < 65536 then 1 else 2) ≤ n then
      c :: takeUnits (n - (if c.toNat < 65536 then 1 else 2)) cs
    else []

/-- `fmtDate(d)`: `String(d).substring(0, 10)`, or `-` for a falsy value. -/
def fmtDate (h : Host) (d : JVal) : String :=
  if !d.truthy then "-" else String.mk (takeUnits 10 (d.toJsString h).toList)

/-- The idiom `fmtDate(v) === '-' ? '' : fmtDate(v)`. -/
def dateField (h : Host) (v : JVal) : JVal :=
  .str (if fmtDate h v = "-" then "" else fmtDate h v)

/-- `array.find(x => x.id === id)`. -/
def findById (items : List Record) (id : JVal) : Option Record :=
  items.find? fun x => (Record.get x "id").strictEq id

/-! ## Budget lines -/

/-- Loose equality `a == b` on primitive values. -/
def JVal.looseEq (h : Host) (a b : JVal) : Bool :=
  match a, b with
  | .undefined, .undefined => true
  | .undefined, .null => true
  | .null, .undefined => true
  | .null, .null => true
  | .undefined, _ => false
  | .null, _ => false
  | _, .undefined => false
  | _, .null => false
  | .str x, .str y => x == y
  | x, y => (JVal.num (toNumber h x)).strictEq (.num (toNumber h y))

/-- The label of a budget in the select of the budget-line form. -/
def budgetLabel (h : Host) (b : Record) : String :=
  (((Record.get b "entite_code").or (Record.get b "entite_nom")).or (.str "?")).toJsString h
    ++ " — " ++ ((Record.get b "nature").or (.str "?")).toJsString h
    ++ " " ++ ((Record.get b "exercice").or (.str "?")).toJsString h

/-- A select rebuilt by `innerHTML = placeholder` followed by one appended option per item,
an option being marked selected when `pick` holds of its item: the last marked option is
the selected one, and the placeholder is when none is marked. -/
def rebuiltSelect (placeholder : SelectOption) (items : List Record)
    (mk : Record → SelectOption) (pick : Record → Bool) : Select :=
  let marked := (List.range items.length).filter fun i => ((items.get? i).map pick).getD false
  ⟨placeholder :: items.map mk, some (match marked.getLast? with | some i => i + 1 | none => 0)⟩

/-- `_fillLigneModal(data)`; `none` stands for the argument `null`. -/
def _fillLigneModal (h : Host) (s : State) (data : Option Record) :
    Except JsError Unit × State :=
  let s1 := { s with
    selects := upd s.selects "edit-ligne-budget"
      (rebuiltSelect ⟨"", "-- Sélectionner un budget --"⟩ s.budgetsList
        (fun b => ⟨(Record.get b "id").toJsString h, budgetLabel h b⟩)
        (fun b => match data with
          | some d => (Record.get d "budget_id").looseEq h (Record.get b "id")
          | none => false)) }
  let s2 := { s1 with
    selects := upd s1.selects "edit-ligne-application"
      (rebuiltSelect ⟨"", "-- Aucune --"⟩ (s1.refs.applications.getD [])
        (fun a => ⟨(Record.get a "id").toJsString h, textContentOf h (Record.get a "nom")⟩)
        (fun a => match data with
          | some d => (Record.get d "application_id").looseEq h (Record.get a "id")
          | none => false)) }
  match fillSelect h s2 "edit-ligne-fournisseur" s2.refs.fournisseurs "id" (.fn fLabel) with
  | (.error e, s3) => (.error e, s3)
  | (.ok _, s3) =>
    match data with
    | some d =>
      let s4 := setValue h s3 "edit-ligne-id" ((Record.get d "id").or (.str ""))
      let s5 := setValue h s4 "edit-ligne-libelle" ((Record.get d "libelle").or (.str ""))
      let s6 := setValue h s5 "edit-ligne-montant-prevu"
        ((Record.get d "montant_prevu").or (.str ""))
      let s7 := setValue h s6 "edit-ligne-montant-vote"
        ((Record.get d "montant_vote").or (.str ""))
      let s8 := setValue h s7 "edit-ligne-note" ((Record.get d "note").or (.str ""))
      let s9 := setValue h s8 "edit-ligne-nature"
        ((Record.get d "nature").or (.str "FONCTIONNEMENT"))
      let s10 := setValue h s9 "edit-ligne-statut" ((Record.get d "statut").or (.str "ACTIF"))
      (.ok (), setSelect h s10 "edit-ligne-fournisseur"
        ((Record.get d "fournisseur_id").or (.str "")))
    | none =>
      let s4 := setValue h s3 "edit-ligne-id" (.str "")
      let s5 := setValue h s4 "edit-ligne-libelle" (.str "")
      let s6 := setValue h s5 "edit-ligne-montant-prevu" (.str "")
      let s7 := setValue h s6 "edit-ligne-montant-vote" (.str "")
      let s8 := setValue h s7 "edit-ligne-note" (.str "")
      let s9 := setValue h s8 "edit-ligne-nature" (.str "FONCTIONNEMENT")
      let s10 := setValue h s9 "edit-ligne-statut" (.str "ACTIF")
      let s11 := setSelect h s10 "edit-ligne-fournisseur" (.str "")
      let filterBudget := (s11.selects "lignes-filter-budget").value
      (.ok (), if filterBudget != "" then setSelect h s11 "edit-ligne-budget" (.str filterBudget)
               else s11)

/-- `editLigne(ligneId)`. -/
def editLigne (h : Host) (s : State) (ligneId : JVal) : Except JsError Unit × State :=
  match findById s.lignesCache ligneId with
  | none => (.ok (), showMsg s "Rechargez la liste avant de modifier" false)
  | some data =>
    let s1 := setText s "edit-ligne-titre"
      ("Modifier — " ++ ((Record.get data "libelle").or
        (.str ("Ligne #" ++ ligneId.toJsString h))).toJsString h)
    match _fillLigneModal h s1 (some data) with
    | (.error e, s2) => (.error e, s2)
    | (.ok _, s2) => (.ok (), openModal s2 "modal-edit-ligne")

/-! ## Contracts, projects, tasks, suppliers, contacts: edit forms -/

/-- `editContrat(id)`. -/
def editContrat (h : Host) (s : State) (id : JVal) : Except JsError Unit × State :=
  match findById s.cache.contrats id with
  | none => (.ok (), showMsg s "Données non chargées, rechargez" false)
  | some data =>
    let s1 := setValue h s "edit-contrat-id" (Record.get data "id")
    let s2 := setValue h s1 "edit-contrat-numero" ((Record.get data "numero_contrat").or (.str ""))
    let s3 := setValue h s2 "edit-contrat-objet" ((Record.get data "objet").or (.str ""))
    let s4 := setSelect h s3 "edit-contrat-fournisseur"
      ((Record.get data "fournisseur_id").or (.str ""))
    let s5 := setValue h s4 "edit-contrat-montant"
      ((Record.get data "montant_total_ht").or (.str ""))
    let s6 := setValue h s5 "edit-contrat-debut" (dateField h (Record.get data "date_debut"))
    let s7 := setValue h s6 "edit-contrat-fin" (dateField h (Record.get data "date_fin"))
    let s8 := setValue h s7 "edit-contrat-statut" ((Record.get data "statut").or (.str "ACTIF"))
    (.ok (), openModal s8 "modal-edit-contrat")

/-- The last six input fields `editProjet` fills, each with `data[key] || ''`, in source
order. -/
def projetTextFields : List (String × String) :=
  [ ("edit-projet-objectifs", "objectifs"), ("edit-projet-enjeux", "enjeux"),
    ("edit-projet-gains", "gains"), ("edit-projet-risques", "risques"),
    ("edit-projet-contraintes", "contraintes"), ("edit-projet-solutions", "solutions") ]

/-- `editProjet(id)`. -/
def editProjet (h : Host) (s : State) (id : JVal) : Except JsError Unit × State :=
  match findById s.cache.projets id with
  | none => (.ok (), showMsg s "Données projet non chargées, rechargez" false)
  | some data =>
    let s1 := setValue h s "edit-projet-id" (Record.get data "id")
    let s2 := setValue h s1 "edit-projet-code" ((Record.get data "code").or (.str ""))
    let s3 := setValue h s2 "edit-projet-nom" ((Record.get data "nom").or (.str ""))
    let s4 := setValue h s3 "edit-projet-description"
      ((Record.get data "description").or (.str ""))
    let s5 := setValue h s4 "edit-projet-type" ((Record.get data "type_projet").or (.str ""))
    let s6 := setValue h s5 "edit-projet-phase" ((Record.get data "phase").or (.str ""))
    let s7 := setValue h s6 "edit-projet-statut" ((Record.get data "statut").or (.str "ACTIF"))
    let s8 := setValue h s7 "edit-projet-priorite" ((Record.get data "priorite").or (.str ""))
    let s9 := setSelect h s8 "edit-projet-service" ((Record.get data "service_id").or (.str ""))
    let s10 := setValue h s9 "edit-projet-budget-initial"
      ((Record.get data "budget_initial").or (.str ""))
    let s11 := setValue h s10 "edit-projet-budget" ((Record.get data "budget_estime").or (.str ""))
    let s12 := setValue h s11 "edit-projet-budget-actuel"
      ((Record.get data "budget_actuel").or (.str ""))
    let s13 := setValue h s12 "edit-projet-avancement"
      ((Record.get data "avancement").nullish (.str ""))
    let s14 := setValue h s13 "edit-projet-debut" (dateField h (Record.get data "date_debut"))
    let s15 := setValue h s14 "edit-projet-fin" (dateField h (Record.get data "date_fin_prevue"))
    let s16 := setValue h s15 "edit-projet-fin-reelle"
      (dateField h (Record.get data "date_fin_reelle"))
    let s17 := projetTextFields.foldl
      (fun st f => setValue h st f.1 ((Record.get data f.2).or (.str ""))) s16
    (.ok (), openModal s17 "modal-edit-projet")

/-- The part of `editTache` that fills the form from the task and opens the modal.  The
expression `data.date_echeance.split('T')[0]` throws a `TypeError` when the due date is a
truthy value that is not a string. -/
def editTacheFill (h : Host) (s : State) (data : Record) : Except JsError Unit × State :=
  let s1 := setValue h s "edit-tache-id" (Record.get data "id")
  let s2 := setValue h s1 "edit-tache-titre" ((Record.get data "titre").or (.str ""))
  let s3 := setSelect h s2 "edit-tache-projet" ((Record.get data "projet_id").or (.str ""))
  let s4 := setValue h s3 "edit-tache-statut" ((Record.get data "statut").or (.str "A faire"))
  let s5 := setValue h s4 "edit-tache-priorite" ((Record.get data "priorite").or (.str ""))
  let ech : Except JsError String :=
    if (Record.get data "date_echeance").truthy then
      match Record.get data "date_echeance" with
      | .str d => .ok (String.mk (d.toList.takeWhile (fun c => c != 'T')))
      | _ => .error .typeError
    else .ok ""
  match ech with
  | .error e => (.error e, s5)
  | .ok ech =>
    let s6 := setValue h s5 "edit-tache-echeance" (.str ech)
    let s7 := setValue h s6 "edit-tache-heures"
      ((Record.get data "estimation_heures").nullish (.str ""))
    let s8 := setValue h s7 "edit-tache-avancement"
      ((Record.get data "avancement").nullish (.str ""))
    (.ok (), openModal s8 "modal-edit-tache")

/-- `editTache(id)`, given the outcome `net` of the request it issues when the task is not in
the cache.  The second test `if (!data)` catches a response body that is `null` or falsy. -/
def editTache (h : Host) (s : State) (id : JVal) (net : FetchResult) :
    Except JsError Unit × State :=
  match findById s.cache.taches id with
  | some data => editTacheFill h s data
  | none =>
    match apiFetch h s ("/tache/" ++ id.toJsString h) noOpts net with
    | (.error _, s1) => (.ok (), showMsg s1 "Tâche introuvable" false)
    | (.ok .null, s1) => (.ok (), showMsg s1 "Tâche introuvable" false)
    | (.ok .falsy, s1) => (.ok (), showMsg s1 "Tâche introuvable" false)
    | (.ok (.obj data), s1) => editTacheFill h s1 data.fields

/-- `editFournisseur(id)`. -/
def editFournisseur (h : Host) (s : State) (id : JVal) : Except JsError Unit × State :=
  match findById s.cache.fournisseurs id with
  | none => (.ok (), showMsg s "Données non chargées, rechargez" false)
  | some data =>
    let s1 := setValue h s "edit-fournisseur-id" (Record.get data "id")
    let s2 := setValue h s1 "edit-fournisseur-nom" ((Record.get data "nom").or (.str ""))
    let s3 := setValue h s2 "edit-fournisseur-contact"
      ((Record.get data "contact_principal").or (.str ""))
    let s4 := setValue h s3 "edit-fournisseur-email" ((Record.get data "email").or (.str ""))
    let s5 := setValue h s4 "edit-fournisseur-telephone"
      ((Record.get data "telephone").or (.str ""))
    let s6 := setValue h s5 "edit-fournisseur-adresse" ((Record.get data "adresse").or (.str ""))
    let s7 := setValue h s6 "edit-fournisseur-ville" ((Record.get data "ville").or (.str ""))
    (.ok (), openModal s7 "modal-edit-fournisseur")

/-- `editContact(id)`. -/
def editContact (h : Host) (s : State) (id : JVal) : Except JsError Unit × State :=
  match findById s.cache.contacts id with
  | none => (.ok (), showMsg s "Données non chargées, rechargez" false)
  | some data =>
    let s1 := setValue h s "edit-contact-id" (Record.get data "id")
    let s2 := setValue h s1 "edit-contact-nom" ((Record.get data "nom").or (.str ""))
    let s3 := setValue h s2 "edit-contact-prenom" ((Record.get data "prenom").or (.str ""))
    let s4 := setValue h s3 "edit-contact-fonction" ((Record.get data "fonction").or (.str ""))
    let s5 := setValue h s4 "edit-contact-type" ((Record.get data "type").or (.str ""))
    let s6 := setValue h s5 "edit-contact-telephone" ((Record.get data "telephone").or (.str ""))
    let s7 := setValue h s6 "edit-contact-email" ((Record.get data "email").or (.str ""))
    let s8 := setValue h s7 "edit-contact-organisation"
      ((Record.get data "organisation").or (.str ""))
    (.ok (), openModal s8 "modal-edit-contact")

/-! ## Mutating actions -/

/-- The idiom `value || null` on the text of a form field. -/
def strOrNull (v : String) : JVal := if v = "" then .null else .str v

/-- A call started without `await`. -/
def spawn (s : State) (c : Call) : State := { s with spawned := s.spawned ++ [c] }

/-- The body shared by the mutating actions that guard their request:
`try { const res = await apiFetch(...); if (res.success) { ... } else showMsg(res.error ||
'Erreur', false); } catch (e) { showMsg(e.message, false); }`, given what `apiFetch` gave and
the statements of the success branch.  Reading `res.success` from `null` throws; a falsy
body has neither `success` nor `error`. -/
def guardedResult (h : Host) (r : Except JsError Data × State) (onSuccess : Payload → State → State) :
    State :=
  match r with
  | (.error e, s1) => showMsg s1 (e.message h) false
  | (.ok .null, s1) => showMsg s1 (JsError.typeError.message h) false
  | (.ok .falsy, s1) => showMsg s1 "Erreur" false
  | (.ok (.obj res), s1) =>
    if (res.get "success").truthy then onSuccess res s1
    else showMsg s1 (textContentOf h ((res.get "error").or (.str "Erreur"))) false

/-- `openImputer(bcId)`. -/
def openImputer (h : Host) (s : State) (bcId : JVal) : State :=
  let s1 := { s with currentBcId := bcId }
  let s2 := setSelect h s1 "imputer-ligne" (.str "")
  let s3 := setText s2 "imputer-info" ""
  openModal s3 "modal-imputer-bc"

/-- `confirmImputer()`, given the outcome `net` of its request. -/
def confirmImputer (h : Host) (s : State) (net : FetchResult) : Except JsError Unit × State :=
  let ligneId := (s.selects "imputer-ligne").value
  if ligneId = "" then (.ok (), showMsg s "Sélectionnez une ligne budgétaire" false)
  else
    (.ok (), guardedResult h
      (apiFetch h s ("/bon_commande/" ++ s.currentBcId.toJsString h ++ "/imputer")
        ⟨some "POST", some [("ligne_id", .num (parseInt ligneId))], none⟩ net)
      (fun _ s1 =>
        let s2 := showMsg s1 "BC imputé sur la ligne budgétaire" true
        let s3 := closeModal s2 "modal-imputer-bc"
        let s4 := spawn s3 .loadBC
        spawn s4 .initRefs))

/-- The constant `ttc` of `updateTtcPreview` and of `saveBC`:
`Math.round(ht * (1 + tva / 100) * 100) / 100`. -/
def ttcOf (ht tva : JsNum) : JsNum :=
  (((ht.mul (JsNum.one.add (tva.div .hundred))).mul .hundred).mathRound).div .hundred

/-- The constant `ttc` computed by `updateTtcPreview` from the two form fields. -/
def previewTtc (s : State) : JsNum :=
  ttcOf ((parseFloat (s.value "edit-bc-montant-ht")).or .zero)
    ((parseFloat (s.value "edit-bc-tva")).or .zero)

/-- `updateTtcPreview()`. -/
def updateTtcPreview (h : Host) (s : State) : State :=
  let ttc := previewTtc s
  let s1 := setText s "edit-bc-ttc-preview" (h.toLocaleStringFr ttc 2 none ++ " €")
  setValue h s1 "edit-bc-montant-ttc" (.num ttc)

/-- The object `body` of `saveBC`. -/
def saveBCBody (s : State) : Record :=
  let ht := (parseFloat (s.value "edit-bc-montant-ht")).or .zero
  let tva := (parseFloat (s.value "edit-bc-tva")).or .twenty
  [ ("numero_bc", .str (s.value "edit-bc-numero")),
    ("objet", .str (s.value "edit-bc-objet")),
    ("statut", .str (s.value "edit-bc-statut")),
    ("fournisseur_id", strOrNull (s.selects "edit-bc-fournisseur").value),
    ("entite_id", strOrNull (s.selects "edit-bc-entite").value),
    ("ligne_budgetaire_id", strOrNull (s.selects "edit-bc-ligne").value),
    ("projet_id", strOrNull (s.selects "edit-bc-projet").value),
    ("contrat_id", strOrNull (s.selects "edit-bc-contrat").value),
    ("montant_ht", .num ht),
    ("montant_ttc", .num (ttcOf ht tva)) ]

/-- `saveBC()`, given the outcome `net` of its request. -/
def saveBC (h : Host) (s : State) (net : FetchResult) : Except JsError Unit × State :=
  let id := parseInt (s.value "edit-bc-id")
  let body := saveBCBody s
  if !(Record.get body "numero_bc").truthy then
    (.ok (), showMsg s "Le N° BC est obligatoire" false)
  else if !(Record.get body "objet").truthy then
    (.ok (), showMsg s "L'objet est obligatoire" false)
  else
    (.ok (), guardedResult h
      (apiFetch h s ("/bon_commande/" ++ id.toJsString h) ⟨some "PUT", some body, none⟩ net)
      (fun _ s1 =>
        let s2 := showMsg s1 "BC mis à jour" true
        let s3 := closeModal s2 "modal-edit-bc"
        let s4 := spawn s3 .loadBC
        spawn s4 .initRefs))

/-- The object `body` of `saveContrat`. -/
def saveContratBody (s : State) : Record :=
  [ ("numero_contrat", .str (s.value "edit-contrat-numero")),
    ("objet", .str (s.value "edit-contrat-objet")),
    ("fournisseur_id", strOrNull (s.selects "edit-contrat-fournisseur").value),
    ("montant_total_ht", strOrNull (s.value "edit-contrat-montant")),
    ("date_debut", strOrNull (s.value "edit-contrat-debut")),
    ("date_fin", strOrNull (s.value "edit-contrat-fin")),
    ("statut", .str (s.value "edit-contrat-statut")) ]

/-- `saveContrat()`, given the outcome `net` of its request. -/
def saveContrat (h : Host) (s : State) (net : FetchResult) : Except JsError Unit × State :=
  let id := s.value "edit-contrat-id"
  let body := saveContratBody s
  if !(Record.get body "numero_contrat").truthy then
    (.ok (), showMsg s "Le N° contrat est obligatoire" false)
  else if !(Record.get body "objet").truthy then
    (.ok (), showMsg s "L'objet est obligatoire" false)
  else
    (.ok (), guardedResult h
      (apiFetch h s ("/contrat/" ++ id) ⟨some "PUT", some body, none⟩ net)
      (fun _ s1 =>
        let s2 := showMsg s1 "Contrat mis à jour" true
        let s3 := closeModal s2 "modal-edit-contrat"
        spawn s3 .loadContrats))

/-- The object `body` of `saveLigne`. -/
def saveLigneBody (s : State) : Record :=
  [ ("budget_id", .num (parseInt (s.selects "edit-ligne-budget").value)),
    ("libelle", .str (jsTrim (s.value "edit-ligne-libelle"))),
    ("application_id", strOrNull (s.selects "edit-ligne-application").value),
    ("fournisseur_id", strOrNull (s.selects "edit-ligne-fournisseur").value),
    ("montant_prevu", .num ((parseFloat (s.value "edit-ligne-montant-prevu")).or .zero)),
    ("montant_vote", .num ((parseFloat (s.value "edit-ligne-montant-vote")).or .zero)),
    ("nature", .str (s.value "edit-ligne-nature")),
    ("note", strOrNull (jsTrim (s.value "edit-ligne-note"))),
    ("statut", .str (s.value "edit-ligne-statut")) ]

/-- The options `fetch` reads when the second argument of `apiFetch` is a string, as in
`apiFetch(url, method, body)`: spreading a string yields its characters under the keys `0`,
`1`, ..., so there is no method, no body and no headers; the third argument is not read. -/
def optsOfString (_method : String) : FetchOpts := ⟨none, none, none⟩

/-- `saveLigne()`, given the outcome `net` of its request.  The request is awaited outside any
`try`, so a rejection of `apiFetch` rejects `saveLigne`. -/
def saveLigne (h : Host) (s : State) (net : FetchResult) : Except JsError Unit × State :=
  let id := s.value "edit-ligne-id"
  let budgetId := (s.selects "edit-ligne-budget").value
  let libelle := jsTrim (s.value "edit-ligne-libelle")
  if budgetId = "" then (.ok (), showMsg s "Sélectionnez un budget" false)
  else if libelle = "" then (.ok (), showMsg s "Le libellé est obligatoire" false)
  else
    let url := if id != "" then "/ligne/" ++ id else "/ligne"
    let method := if id != "" then "PUT" else "POST"
    match apiFetch h s url (optsOfString method) net with
    | (.error e, s1) => (.error e, s1)
    | (.ok .null, s1) => (.error .typeError, s1)
    | (.ok .falsy, s1) => (.ok (), showMsg s1 "Erreur lors de l'enregistrement" false)
    | (.ok (.obj res), s1) =>
      if (res.get "success").truthy then
        let s2 := showMsg s1 (if id != "" then "Ligne mise à jour" else "Ligne créée") true
        let s3 := closeModal s2 "modal-edit-ligne"
        let s4 := spawn s3 .loadAllLignes
        (.ok (), spawn s4 .loadBudget)
      else
        (.ok (), showMsg s1
          (textContentOf h ((res.get "error").or (.str "Erreur lors de l'enregistrement"))) false)

/-- `saveMembreEquipe(projetId)`, given the outcome `net` of its request.  The request is
awaited outside any `try`.  What follows it, `await ficheProjet(projetId);
switchProjTab('equipe')`, is recorded as calls still to run. -/
def saveMembreEquipe (h : Host) (s : State) (projetId : JVal) (net : FetchResult) :
    Except JsError Unit × State :=
  let inputId := "new-membre-label-" ++ projetId.toJsString h
  let label := if s.present inputId then jsTrim (s.value inputId) else ""
  if label = "" then (.ok (), s)
  else
    match apiFetch h s ("/projet/" ++ projetId.toJsString h ++ "/equipe")
        ⟨some "POST", some [("membre_label", .str label)], none⟩ net with
    | (.error e, s1) => (.error e, s1)
    | (.ok _, s1) => (.ok (), spawn (spawn s1 (.ficheProjet projetId)) (.switchProjTab "equipe"))

/-- `deleteMembreEquipe(projetId, membreId)`, given the answer to the `confirm` dialog and the
outcome `net` of its request.  The request is awaited outside any `try`. -/
def deleteMembreEquipe (h : Host) (s : State) (projetId membreId : JVal) (confirmed : Bool)
    (net : FetchResult) : Except JsError Unit × State :=
  if !confirmed then (.ok (), s)
  else
    match apiFetch h s
        ("/projet/" ++ projetId.toJsString h ++ "/equipe/" ++ membreId.toJsString h)
        ⟨some "DELETE", none, none⟩ net with
    | (.error e, s1) => (.error e, s1)
    | (.ok _, s1) => (.ok (), spawn (spawn s1 (.ficheProjet projetId)) (.switchProjTab "equipe"))

/-- A bound on quotients (in units) under which rounding cannot overflow. -/
def rangeBound : Nat := 2 ^ 2000

/-! ## The TTC amount as the specification words it -/

/-- The exact amount `ht × (1 + vat/100)`, in cents, for the finite non-negative numbers of
`ht` and `tva` units. -/
def exactCents (ht tva : Nat) : ℚ :=
  (ht : ℚ) / (unit : ℚ) * (1 + (tva : ℚ) / (unit : ℚ) / 100) * 100


/-- Stated from the specification: `round(ht × (1 + vat/100), 2 decimal places)` on exact
amounts, in cents, a half cent going up. -/
def specTtcCents (ht vat : ℚ) : ℤ := ⌊ht * (1 + vat / 100) * 100 + 1 / 2⌋

/-- Stated from the specification: the same rounding with a half cent going to the even
cent (banker's rounding). -/
def specTtcCentsEven (ht vat : ℚ) : ℤ :=
  let x := ht * (1 + vat / 100) * 100
  if x - ⌊x⌋ < 1 / 2 then ⌊x⌋
  else if 1 / 2 < x - ⌊x⌋ then ⌊x⌋ + 1
  else if ⌊x⌋ % 2 = 0 then ⌊x⌋ else ⌊x⌋ + 1

/-- The selects `initRefs` fills, in source order. -/
def refSelectIds : List String :=
  [ "budget-entite", "bc-fournisseur", "bc-entite", "bc-filter-entite", "bc-ligne",
    "contrat-fournisseur", "tache-projet", "tache-filter-projet", "kanban-filter-projet",
    "edit-tache-projet", "edit-contrat-fournisseur", "edit-bc-fournisseur", "edit-bc-entite",
    "edit-bc-ligne", "edit-bc-projet", "edit-bc-contrat", "projet-service",
    "edit-projet-service", "imputer-ligne" ]

/-- Every select of the list that is in the document has a first option. -/
def SelectsReady (s : State) (ids : List String) : Prop :=
  ∀ id ∈ ids, s.present id = true → (s.selects id).options ≠ []

/-- The seven categories of the consolidated reference endpoint. -/
def refCategories : List String :=
  ["fournisseurs", "entites", "projets", "lignes", "applications", "contrats", "services"]

/-! ## Session start -/

/-- `str.split(sep)` for a one-character separator: the text between the separators, in
order; a text without separator is its own single segment. -/
def jsSplit (sep : Char) : List Char → List (List Char)
  | [] => [[]]
  | c :: cs =>
    if c = sep then [] :: jsSplit sep cs
    else
      match jsSplit sep cs with
      | [] => [[c]]
      | seg :: rest => (c :: seg) :: rest

/-- `str.replace(/a/g, b)` for single characters. -/
def replaceAll (a b : Char) (cs : List Char) : List Char :=
  cs.map fun c => if c = a then b else c

/-- ASCII whitespace, which `atob` removes: tab, line feed, form feed, carriage return and
space. -/
def isAsciiWhitespace (c : Char) : Bool :=
  let n := c.toNat
  n == 9 || n == 10 || n == 12 || n == 13 || n == 32

/-- The value of a character of the base64 alphabet. -/
def base64Value (c : Char) : Option Nat :=
  let n := c.toNat
  if 65 ≤ n ∧ n ≤ 90 then some (n - 65)
  else if 97 ≤ n ∧ n ≤ 122 then some (n - 71)
  else if 48 ≤ n ∧ n ≤ 57 then some (n + 4)
  else if n = 43 then some 62
  else if n = 47 then some 63
  else none

/-- Removal of one or two trailing `=` from a text whose length is a multiple of four. -/
def stripPadding (cs : List Char) : List Char :=
  if cs.length % 4 = 0 then
    match cs.reverse with
    | '=' :: '=' :: rest => rest.reverse
    | '=' :: rest => rest.reverse
    | _ => cs
  else cs

/-- The bytes written by a sequence of six-bit values: three bytes for each group of four
values, one byte for two remaining values and two bytes for three remaining values (the
unused low bits are discarded). -/
def base64Bytes : List Nat → List Nat
  | a :: b :: c :: d :: rest =>
    (a * 4 + b / 16) :: (b % 16 * 16 + c / 4) :: (c % 4 * 64 + d) :: base64Bytes rest
  | [a, b, c] => [a * 4 + b / 16, b % 16 * 16 + c / 4]
  | [a, b] => [a * 4 + b / 16]
  | _ => []

/-- `atob(data)`, the forgiving base64 decoding of the browser: `none` stands for the
`InvalidCharacterError` it throws, and the result has one character per decoded byte. -/
def atob (data : List Char) : Option (List Char) :=
  let cs := stripPadding (data.filter fun c => !isAsciiWhitespace c)
  if cs.length % 4 = 1 then none
  else (cs.mapM base64Value).map fun vs => (base64Bytes vs).map Char.ofNat

/-- The body of the `try` block of `decodeToken`: the second segment of the token, with `-`
and `_` replaced by `+` and `/`, decoded by `atob` and parsed as JSON.  Calling `replace` on
the missing segment of a token without dot throws a `TypeError`. -/
def decodeTokenBody (h : Host) (t : String) : Except JsError Data :=
  match (jsSplit '.' t.toList)[1]? with
  | none => .error .typeError
  | some seg =>
    match atob (replaceAll '_' '/' (replaceAll '-' '+' seg)) with
    | none => .error (.error "InvalidCharacterError")
    | some text =>
      match h.jsonParse (String.mk text) with
      | .invalid m => .error (.error m)
      | .null => .ok .null
      | .falsy => .ok .falsy
      | .obj p => .ok (.obj p)

/-- `decodeToken(t)`: whatever the `try` block throws is caught and gives `null`. -/
def decodeToken (h : Host) (t : String) : Data :=
  match decodeTokenBody h t with
  | .ok d => d
  | .error _ => .null

/-- The number one thousand. -/
def JsNum.thousand : JsNum := .fin (1000 * unit)

/-- The operator `x > y` on numbers: false as soon as one side is NaN. -/
def JsNum.gt : JsNum → JsNum → Bool
  | .nan, _ => false
  | _, .nan => false
  | .inf true, _ => false
  | .inf false, .inf false => false
  | .inf false, _ => true
  | .fin _, .inf neg => neg
  | .fin a, .fin b => decide (b < a)

/-- `applyRoleUI(user)`: shows the name and the role of the user and the user panel, and
shows the administration entry of the navigation, when the document has one, to
administrators only. -/
def applyRoleUI (h : Host) (s : State) (user : Payload) : State :=
  let s1 := setText s "user-name"
    (jsTrim (((user.get "prenom").or (.str "")).toJsString h ++ " "
      ++ ((user.get "nom").or (.str "")).toJsString h))
  let s2 := setText s1 "user-role-badge" (textContentOf h (user.get "role"))
  let s3 := { s2 with display := upd s2.display "user-info" "flex" }
  if s3.present "nav-admin" then
    { s3 with
      display := upd s3.display "nav-admin"
        (if (user.get "role").strictEq (.str "admin") then "" else "none") }
  else s3

/-- The statements at the end of the script, run once when the page loads, at the time `now`
(`Date.now()`).  With a stored credential that decodes to claims whose `exp * 1000` exceeds
`now`, the login gate is hidden, the user panel is filled and `initRefs` is started, to be
followed by `loadDashboard` and `loadNotifications` when it has settled; with any other
non-empty credential the credential is removed and the login gate is shown; with no credential
(or the empty text, which is falsy) the login gate is shown. -/
def startup (h : Host) (s : State) (now : JsNum) : State :=
  match getToken s with
  | none => showLoginOverlay s
  | some t =>
    if t = "" then showLoginOverlay s
    else
      match decodeToken h t with
      | .null => showLoginOverlay (removeToken s)
      | .falsy => showLoginOverlay (removeToken s)
      | .obj payload =>
        if JsNum.gt (JsNum.mul (toNumber h (payload.get "exp")) JsNum.thousand) now then
          let s1 := hideLoginOverlay s
          let s2 := applyRoleUI h s1 payload
          spawn (spawn (spawn s2 .initRefs) .loadDashboard) .loadNotifications
        else showLoginOverlay (removeToken s)

/-! ## Purchase orders -/

/-- The part of `apiFetch` that follows the `await fetch(...)`: the classification of the
response. -/
def settle (h : Host) (s1 : State) (net : FetchResult) : Except JsError Data × State :=
  match net with
  | .failed m => (.error (.error m), s1)
  | .response status body =>
    if status = 401 then
      let s2 := removeToken s1
      let s3 := showLoginOverlay s2
      (.error (.error "Session expirée, veuillez vous reconnecter"), s3)
    else if status = 403 then
      (.error (.error "Accès interdit — droits insuffisants"), s1)
    else if !statusOk status then
      match body with
      | .invalid _ => (.error (.error ("HTTP " ++ toString status)), s1)
      | .null => (.error .typeError, s1)
      | .falsy => (.error (.error ("HTTP " ++ toString status)), s1)
      | .obj err =>
        (.error (.error (((err.get "error").or (.str ("HTTP " ++ toString status))).toJsString h)), s1)
    else
      match body with
      | .invalid m => (.error (.error m), s1)
      | .null => (.ok .null, s1)
      | .falsy => (.ok .falsy, s1)
      | .obj p => (.ok (.obj p), s1)

/-- The UTF-8 bytes of a character. -/
def utf8Bytes (c : Char) : List Nat :=
  let n := c.toNat
  if n < 128 then [n]
  else if n < 2048 then [192 + n / 64, 128 + n % 64]
  else if n < 65536 then [224 + n / 4096, 128 + n / 64 % 64, 128 + n % 64]
  else [240 + n / 262144, 128 + n / 4096 % 64, 128 + n / 64 % 64, 128 + n % 64]

/-- An upper-case hexadecimal digit. -/
def hexChar (n : Nat) : Char := if n < 10 then Char.ofNat (48 + n) else Char.ofNat (55 + n)

/-- The form encoding of one byte: `+` for a space, the byte itself for a letter, a digit,
`*`, `-`, `.` and `_`, and `%` with two hexadecimal digits otherwise. -/
def formEncodeByte (b : Nat) : List Char :=
  if b = 32 then ['+']
  else if (48 ≤ b ∧ b ≤ 57) ∨ (65 ≤ b ∧ b ≤ 90) ∨ (97 ≤ b ∧ b ≤ 122)
      ∨ b = 42 ∨ b = 45 ∨ b = 46 ∨ b = 95 then [Char.ofNat b]
  else ['%', hexChar (b / 16), hexChar (b % 16)]

/-- The form encoding of a text, as `URLSearchParams` serialises names and values. -/
def formEncode (str : String) : String :=
  String.mk ((str.toList.map fun c => ((utf8Bytes c).map formEncodeByte).flatten).flatten)

/-- The text of a `URLSearchParams` object: `name=value` pairs joined by `&`. -/
def urlSearchParams (params : List (String × String)) : String :=
  "&".intercalate (params.map fun p => formEncode p.1 ++ "=" ++ formEncode p.2)

/-- The value read by `document.getElementById(id)?.value` on an input: `none` stands for
`undefined`. -/
def optionalValue (s : State) (id : String) : Option String :=
  if s.present id then some (s.value id) else none

/-- The parameters `loadBC` sets: the status filter, the entity filter and the search text,
each when its element exists and its value is not empty. -/
def bcParams (s : State) : List (String × String) :=
  let statut := optionalValue s "bc-filter-statut"
  let entite := if s.present "bc-filter-entite" then some (s.selects "bc-filter-entite").value
    else none
  let search := optionalValue s "bc-search"
  (match statut with
    | some v => if v != "" then [("statut", v)] else []
    | none => [])
  ++ (match entite with
    | some v => if v != "" then [("entite_id", v)] else []
    | none => [])
  ++ (match search with
    | some v => if v != "" then [("search", v)] else []
    | none => [])

/-- The own properties of the map of `badge`. -/
def badgeMap : List (String × String) :=
  [ ("BROUILLON", "bg-brouillon"), ("EN_ATTENTE", "bg-en-attente"), ("VALIDE", "bg-valide"),
    ("IMPUTE", "bg-impute"), ("SOLDE", "bg-solde"), ("ANNULE", "bg-annule"),
    ("ACTIF", "bg-actif"), ("RECONDUIT", "bg-valide"), ("EXPIRE", "bg-expire"),
    ("RESILIE", "bg-annule"), ("TERMINE", "bg-solde"), ("VOTE", "bg-vote"),
    ("En cours", "bg-en-cours"), ("Terminé", "bg-termine"), ("Planifié", "bg-en-attente"),
    ("Suspendu", "bg-annule"), ("A faire", "bg-brouillon"), ("Bloqué", "bg-annule"),
    ("En attente", "bg-en-attente"), ("HAUTE", "bg-expire"), ("NORMALE", "bg-valide"),
    ("BASSE", "bg-impute") ]

/-- `badge(statut)`. -/
def badge (h : Host) (statut : JVal) : String :=
  if !statut.truthy then "<span class=\"badge bg-default\">-</span>"
  else
    let cls := match badgeMap.lookup (statut.toJsString h) with
      | some c => c
      | none => (h.inheritedText (statut.toJsString h)).getD "bg-default"
    "<span class=\"badge " ++ cls ++ "\">" ++ statut.toJsString h ++ "</span>"

/-- The status keys of the KPI bar of `loadBC`, in order. -/
def statutKeys : List String :=
  ["BROUILLON", "EN_ATTENTE", "VALIDE", "IMPUTE", "SOLDE", "ANNULE"]

/-- The HTML `loadBC` writes into the KPI bar from the statistics. -/
def kpiBar (h : Host) (stats : Payload) : String :=
  let t := stats.objectOr "_total"
  "<span>Total: <strong class=\"kpi-num\">"
    ++ ((Record.get t "count").or (.num (.fin 0))).toJsString h ++ "</strong></span>"
    ++ String.join (statutKeys.map fun k =>
      let v := stats.objectOr k
      if (Record.get v "count").truthy then
        "<span>" ++ k ++ ": <strong class=\"kpi-num\">" ++ (Record.get v "count").toJsString h
          ++ "</strong></span>"
      else "")
    ++ "<span>Montant total: <strong class=\"kpi-num\">"
    ++ fmt h ((Record.get t "total").or (.num (.fin 0))) ++ " €</strong></span>"

/-- The table row `loadBC` writes for one purchase order: its cells, and the buttons
`Fiche` and `Modifier`, `Valider` for a draft or pending order, `Imputer` for a validated
order and `Suppr.` unless the order is charged or settled. -/
def bcRow (h : Host) (b : Record) : String :=
  let id := (Record.get b "id").toJsString h
  let statut := Record.get b "statut"
  "\n            <tr>\n                <td>" ++ id
    ++ "</td>\n                <td><strong>"
    ++ ((Record.get b "numero_bc").or (.str "-")).toJsString h
    ++ "</strong></td>\n                <td>"
    ++ ((Record.get b "objet").or (.str "-")).toJsString h
    ++ "</td>\n                <td>"
    ++ ((Record.get b "fournisseur_nom").or (.str "-")).toJsString h
    ++ "</td>\n                <td>"
    ++ ((Record.get b "entite_code").or (.str "-")).toJsString h
    ++ "</td>\n                <td>" ++ fmt h (Record.get b "montant_ht")
    ++ "</td>\n                <td>" ++ fmt h (Record.get b "montant_ttc")
    ++ "</td>\n                <td>" ++ badge h statut
    ++ "</td>\n                <td style=\"white-space:nowrap;\">\n                    "
    ++ "<button class=\"btn btn-info btn-sm\" onclick=\"ficheBc(" ++ id
    ++ ")\">Fiche</button>\n                    "
    ++ "<button class=\"btn btn-sm\" style=\"background:#6c757d;color:#fff;\" onclick=\"editBC("
    ++ id ++ ")\">Modifier</button>\n                    "
    ++ (if statut = .str "BROUILLON" ∨ statut = .str "EN_ATTENTE" then
        "<button class=\"btn btn-warning btn-sm\" onclick=\"validerBc(" ++ id
          ++ ")\">Valider</button>"
      else "")
    ++ "\n                    "
    ++ (if statut.strictEq (.str "VALIDE") then
        "<button class=\"btn btn-success btn-sm\" onclick=\"openImputer(" ++ id
          ++ ")\">Imputer</button>"
      else "")
    ++ "\n                    "
    ++ (if ¬ (statut = .str "IMPUTE" ∨ statut = .str "SOLDE") then
        "<button class=\"btn btn-danger btn-sm\" onclick=\"deleteBC(" ++ id
          ++ ")\">Suppr.</button>"
      else "")
    ++ "\n                </td>\n            </tr>"

/-- `loadBC()`, given the outcomes of its two requests.  Both requests are issued before
either response is awaited (`Promise.all`), so both carry the headers of the state at the
call.  The responses are then classified; the effects of the two classifications do not
depend on their order.  With both payloads at hand the KPI bar is written from the
statistics and the table body from every item of `data.list`, in order; any failure, a
`null` payload included, ends in the banner `Erreur chargement BC`.  A falsy payload is read
as the object without properties. -/
def loadBC (h : Host) (s : State) (netList netStats : FetchResult) : State :=
  let path := "/bon_commande?" ++ urlSearchParams (bcParams s)
  let s0 := { s with
    requests := s.requests ++ [requestOf s path noOpts, requestOf s "/bon_commande/stats" noOpts] }
  match settle h s0 netList with
  | (r1, s1) =>
    match settle h s1 netStats with
    | (r2, s2) =>
      match r1, r2 with
      | .ok data, .ok stats =>
        match stats with
        | .null => showMsg s2 "Erreur chargement BC" false
        | .falsy =>
          let s3 := setText s2 "bc-kpi-bar" (kpiBar h noProps)
          match data with
          | .null => showMsg s3 "Erreur chargement BC" false
          | .falsy => setText s3 "bc-tbody" (String.join ((noProps.listOr "list").map (bcRow h)))
          | .obj d => setText s3 "bc-tbody" (String.join ((d.listOr "list").map (bcRow h)))
        | .obj st =>
          let s3 := setText s2 "bc-kpi-bar" (kpiBar h st)
          match data with
          | .null => showMsg s3 "Erreur chargement BC" false
          | .falsy => setText s3 "bc-tbody" (String.join ((noProps.listOr "list").map (bcRow h)))
          | .obj d => setText s3 "bc-tbody" (String.join ((d.listOr "list").map (bcRow h)))
      | _, _ => showMsg s2 "Erreur chargement BC" false

/-! ## Selection slots, dialogs and the change listener -/

/-- `openVoterBudget(id, montantActuel)`. -/
def openVoterBudget (h : Host) (s : State) (id montantActuel : JVal) : State :=
  let s1 := { s with currentBudgetId := id }
  let s2 := setValue h s1 "voter-montant" (montantActuel.or (.str ""))
  openModal s2 "modal-voter-budget"

/-- `openReconduire(id)`. -/
def openReconduire (h : Host) (s : State) (id : JVal) : State :=
  let s1 := { s with currentContratId := id }
  let s2 := setValue h s1 "reconduire-date" (.str "")
  openModal s2 "modal-reconduire"

/-- The click listener installed on every `.modal-overlay` element, for the overlay with the
given id: a click whose target is the overlay itself (`onOverlay`) removes the class `open`;
a click inside the dialog does nothing. -/
def overlayClick (s : State) (overlayId : String) (onOverlay : Bool) : State :=
  if onOverlay then { s with isOpen := upd s.isOpen overlayId false } else s

/-- The readout of a budget line in the allocation dialog. -/
def imputerReadout (h : Host) (ligne : Record) : String :=
  "Voté: <strong>" ++ fmt h (Record.get ligne "montant_vote")
    ++ " €</strong> —\n                Engagé: <strong>"
    ++ fmt h (Record.get ligne "montant_engage")
    ++ " €</strong> —\n                Solde: <strong>"
    ++ fmt h (Record.get ligne "montant_solde") ++ " €</strong>"

/-- The readout of a budget line in the purchase-order edit form. -/
def editBcReadout (h : Host) (ligne : Record) : String :=
  "Voté: <strong>" ++ fmt h (Record.get ligne "montant_vote") ++ " €</strong> — "
    ++ "Engagé: <strong>" ++ fmt h (Record.get ligne "montant_engage") ++ " €</strong> — "
    ++ "Solde: <strong>" ++ fmt h (Record.get ligne "montant_solde") ++ " €</strong>"

/-- `_refs.lignes.find(l => String(l.id) === String(ligneId))`. -/
def findLigne (h : Host) (s : State) (ligneId : String) : Option Record :=
  s.refs.lignes.find? fun l => (Record.get l "id").toJsString h == ligneId

/-- The `change` listener of the document, for an event whose target has the given id.  The
targets it reacts to are the selects `imputer-ligne` and `edit-bc-ligne`. -/
def onChange (h : Host) (s : State) (targetId : String) : State :=
  let s1 :=
    if targetId = "imputer-ligne" then
      match findLigne h s (s.selects targetId).value with
      | some ligne => setText s "imputer-info" (imputerReadout h ligne)
      | none => setText s "imputer-info" ""
    else s
  if targetId = "edit-bc-ligne" then
    match findLigne h s1 (s1.selects targetId).value with
    | some ligne => setText s1 "edit-bc-ligne-info" (editBcReadout h ligne)
    | none => setText s1 "edit-bc-ligne-info" ""
  else s1

/-! ## Purchase orders: creation -/

/-- The number written `1.2`. -/
def JsNum.onePointTwo : JsNum := JsNum.ofRatio 12 10

/-- The object `body` of `addBC`. -/
def addBCBody (s : State) : Record :=
  let montant_ht := (parseFloat (s.value "bc-montant-ht")).or .zero
  [ ("numero_bc", .str (s.value "bc-numero")),
    ("objet", .str (s.value "bc-objet")),
    ("fournisseur_id", strOrNull (s.selects "bc-fournisseur").value),
    ("entite_id", strOrNull (s.selects "bc-entite").value),
    ("ligne_budgetaire_id", strOrNull (s.selects "bc-ligne").value),
    ("montant_ht", .num montant_ht),
    ("montant_ttc",
      .num ((((montant_ht.mul JsNum.onePointTwo).mul .hundred).mathRound).div .hundred)),
    ("statut", .str (s.value "bc-statut")) ]

/-- `addBC()`, given the outcome `net` of its request. -/
def addBC (h : Host) (s : State) (net : FetchResult) : Except JsError Unit × State :=
  let body := addBCBody s
  if !(Record.get body "numero_bc").truthy then
    (.ok (), showMsg s "Le N° BC est obligatoire" false)
  else if !(Record.get body "objet").truthy then
    (.ok (), showMsg s "L'objet est obligatoire" false)
  else
    (.ok (), guardedResult h
      (apiFetch h s "/bon_commande" ⟨some "POST", some body, none⟩ net)
      (fun _ s1 => spawn (showMsg s1 "BC ajouté" true) .loadBC))

/-! ## Purchase orders: the actions of a row -/

/-- The cells of a purchase-order row and its buttons `Fiche` and `Modifier`: the part of the
row that precedes the conditional buttons. -/
def bcRowHead (h : Host) (b : Record) : String :=
  let id := (Record.get b "id").toJsString h
  let statut := Record.get b "statut"
  "\n            <tr>\n                <td>" ++ id
    ++ "</td>\n                <td><strong>"
    ++ ((Record.get b "numero_bc").or (.str "-")).toJsString h
    ++ "</strong></td>\n                <td>"
    ++ ((Record.get b "objet").or (.str "-")).toJsString h
    ++ "</td>\n                <td>"
    ++ ((Record.get b "fournisseur_nom").or (.str "-")).toJsString h
    ++ "</td>\n                <td>"
    ++ ((Record.get b "entite_code").or (.str "-")).toJsString h
    ++ "</td>\n                <td>" ++ fmt h (Record.get b "montant_ht")
    ++ "</td>\n                <td>" ++ fmt h (Record.get b "montant_ttc")
    ++ "</td>\n                <td>" ++ badge h statut
    ++ "</td>\n                <td style=\"white-space:nowrap;\">\n                    "
    ++ "<button class=\"btn btn-info btn-sm\" onclick=\"ficheBc(" ++ id
    ++ ")\">Fiche</button>\n                    "
    ++ "<button class=\"btn btn-sm\" style=\"background:#6c757d;color:#fff;\" onclick=\"editBC("
    ++ id ++ ")\">Modifier</button>\n                    "

/-- The button `Valider` of a purchase-order row, or the empty text. -/
def bcValider (h : Host) (b : Record) : String :=
  if Record.get b "statut" = .str "BROUILLON" ∨ Record.get b "statut" = .str "EN_ATTENTE" then
    "<button class=\"btn btn-warning btn-sm\" onclick=\"validerBc("
      ++ (Record.get b "id").toJsString h ++ ")\">Valider</button>"
  else ""

/-- The button `Imputer` of a purchase-order row, or the empty text. -/
def bcImputer (h : Host) (b : Record) : String :=
  if (Record.get b "statut").strictEq (.str "VALIDE") then
    "<button class=\"btn btn-success btn-sm\" onclick=\"openImputer("
      ++ (Record.get b "id").toJsString h ++ ")\">Imputer</button>"
  else ""

/-- The button `Suppr.` of a purchase-order row, or the empty text. -/
def bcSuppr (h : Host) (b : Record) : String :=
  if ¬ (Record.get b "statut" = .str "IMPUTE" ∨ Record.get b "statut" = .str "SOLDE") then
    "<button class=\"btn btn-danger btn-sm\" onclick=\"deleteBC("
      ++ (Record.get b "id").toJsString h ++ ")\">Suppr.</button>"
  else ""

/-- What an action that only shows a message leaves behind: no request, no call started, the
caches, the snapshot, the selection slots, the modals and the storage as they were, and the
banner showing `msg`. -/
def MessageOnly (s s2 : State) (msg : String) : Prop :=
  s2.requests = s.requests ∧ s2.spawned = s.spawned ∧ s2.cache = s.cache ∧ s2.refs = s.refs
    ∧ s2.lignesCache = s.lignesCache ∧ s2.budgetsList = s.budgetsList
    ∧ s2.currentBudgetId = s.currentBudgetId ∧ s2.currentBcId = s.currentBcId
    ∧ s2.currentContratId = s.currentContratId ∧ s2.isOpen = s.isOpen
    ∧ s2.storage = s.storage ∧ s2.selects = s.selects
    ∧ s2.text "msg" = msg ∧ s2.display "msg" = "block"

/-! ## List views -/

/-- The idiom `v || '-'` inside a template. -/
def orDash (h : Host) (v : JVal) : String := (v.or (.str "-")).toJsString h

/-- The idiom `v != null ? v + suffix : '-'` inside a template. -/
def withUnit (h : Host) (v : JVal) (suffix : String) : String :=
  if v = .null ∨ v = .undefined then "-" else v.toJsString h ++ suffix

/-- The own properties of the map of `alerteBadge`. -/
def alerteMap : List (String × String) :=
  [ ("EXPIRE", "bg-expire"), ("CRITIQUE", "bg-critique"), ("ATTENTION", "bg-attention"),
    ("INFO", "bg-info"), ("OK", "bg-ok") ]

/-- `alerteBadge(niveau)`. -/
def alerteBadge (h : Host) (niveau : JVal) : String :=
  let cls := match alerteMap.lookup (niveau.toJsString h) with
    | some c => c
    | none => (h.inheritedText (niveau.toJsString h)).getD "bg-default"
  "<span class=\"badge " ++ cls ++ "\">" ++ (niveau.or (.str "OK")).toJsString h ++ "</span>"

/-- The constant `niveau` of a contract row: `c.niveau_alerte || 'OK'`. -/
def contratNiveau (c : Record) : JVal := (Record.get c "niveau_alerte").or (.str "OK")

/-- The constant `rowCls` of a contract row. -/
def contratRowClass (niveau : JVal) : String :=
  if niveau.strictEq (.str "EXPIRE") then "alerte-expire"
  else if niveau.strictEq (.str "CRITIQUE") then "alerte-critique"
  else if niveau.strictEq (.str "ATTENTION") then "alerte-attention"
  else if niveau.strictEq (.str "INFO") then "alerte-info"
  else ""

/-- The constant `jours` of a contract row: the remaining days, in red when negative, or `-`
when there are none. -/
def contratJours (h : Host) (c : Record) : String :=
  let j := Record.get c "jours_restants"
  if j = .null ∨ j = .undefined then "-"
  else if JsNum.gt .zero (toNumber h j) then
    "<span style=\"color:#c0392b\">" ++ j.toJsString h ++ " j.</span>"
  else j.toJsString h ++ " j."

/-- The table row `loadTaches` writes for one task. -/
def tacheRow (h : Host) (t : Record) : String :=
  "\n            <tr>\n                <td>"
    ++ (Record.get t "id").toJsString h
    ++ "</td>\n                <td><strong>"
    ++ orDash h (Record.get t "titre")
    ++ "</strong></td>\n                <td>"
    ++ orDash h (Record.get t "projet_nom")
    ++ "</td>\n                <td>"
    ++ badge h (Record.get t "statut")
    ++ "</td>\n                <td>"
    ++ badge h (Record.get t "priorite")
    ++ "</td>\n                <td>"
    ++ fmtDate h (Record.get t "date_echeance")
    ++ "</td>\n                <td>"
    ++ withUnit h (Record.get t "estimation_heures") " h"
    ++ "</td>\n                <td>"
    ++ withUnit h (Record.get t "avancement") " %"
    ++ "</td>\n                <td style=\"white-space:nowrap;\">\n                    <button class=\"btn btn-warning btn-sm\" onclick=\"editTache("
    ++ (Record.get t "id").toJsString h
    ++ ")\">Éditer</button>\n                    <button class=\"btn btn-danger btn-sm\" onclick=\"deleteTache("
    ++ (Record.get t "id").toJsString h
    ++ ")\">Suppr.</button>\n                </td>\n            </tr>"

/-- The table row `loadProjets` writes for one project. -/
def projetRow (h : Host) (p : Record) : String :=
  "\n            <tr>\n                <td>"
    ++ (Record.get p "id").toJsString h
    ++ "</td>\n                <td>"
    ++ orDash h (Record.get p "code")
    ++ "</td>\n                <td><strong>"
    ++ orDash h (Record.get p "nom")
    ++ "</strong></td>\n                <td style=\"font-size:.8em;\">"
    ++ orDash h (Record.get p "type_projet")
    ++ "</td>\n                <td style=\"font-size:.8em;\">"
    ++ orDash h (Record.get p "phase")
    ++ "</td>\n                <td>"
    ++ badge h (Record.get p "statut")
    ++ "</td>\n                <td>"
    ++ badge h (Record.get p "priorite")
    ++ "</td>\n                <td style=\"font-size:.8em;\">"
    ++ orDash h ((Record.get p "service_code").or (Record.get p "service_nom"))
    ++ "</td>\n                <td>"
    ++ fmt h (Record.get p "budget_estime")
    ++ "</td>\n                <td>"
    ++ withUnit h (Record.get p "avancement") " %"
    ++ "</td>\n                <td>"
    ++ fmtDate h (Record.get p "date_debut")
    ++ "</td>\n                <td>"
    ++ fmtDate h (Record.get p "date_fin_prevue")
    ++ "</td>\n                <td style=\"white-space:nowrap;\">\n                    <button class=\"btn btn-info btn-sm\" onclick=\"ficheProjet("
    ++ (Record.get p "id").toJsString h
    ++ ")\">Fiche</button>\n                    <button class=\"btn btn-warning btn-sm\" onclick=\"editProjet("
    ++ (Record.get p "id").toJsString h
    ++ ")\">Éditer</button>\n                    <button class=\"btn btn-danger btn-sm\" onclick=\"deleteProjet("
    ++ (Record.get p "id").toJsString h
    ++ ")\">Suppr.</button>\n                </td>\n            </tr>"

/-- The table row `loadFournisseurs` writes for one supplier. -/
def fournisseurRow (h : Host) (f : Record) : String :=
  "\n            <tr>\n                <td>"
    ++ (Record.get f "id").toJsString h
    ++ "</td>\n                <td><strong>"
    ++ orDash h (Record.get f "nom")
    ++ "</strong></td>\n                <td>"
    ++ orDash h (Record.get f "contact_principal")
    ++ "</td>\n                <td>"
    ++ orDash h (Record.get f "email")
    ++ "</td>\n                <td>"
    ++ orDash h (Record.get f "telephone")
    ++ "</td>\n                <td>"
    ++ orDash h (Record.get f "ville")
    ++ "</td>\n                <td>"
    ++ ((Record.get f "nb_contrats").or (.num (.fin 0))).toJsString h
    ++ "</td>\n                <td>"
    ++ ((Record.get f "nb_bc").or (.num (.fin 0))).toJsString h
    ++ "</td>\n                <td>"
    ++ fmt h (Record.get f "montant_total")
    ++ "</td>\n                <td>"
    ++ badge h ((Record.get f "statut").or (.str "ACTIF"))
    ++ "</td>\n                <td style=\"white-space:nowrap;\">\n                    <button class=\"btn btn-warning btn-sm\" onclick=\"editFournisseur("
    ++ (Record.get f "id").toJsString h
    ++ ")\">Éditer</button>\n                    <button class=\"btn btn-danger btn-sm\" onclick=\"deleteFournisseur("
    ++ (Record.get f "id").toJsString h
    ++ ")\">Suppr.</button>\n                </td>\n            </tr>"

/-- The table row `loadContacts` writes for one contact. -/
def contactRow (h : Host) (c : Record) : String :=
  "\n            <tr>\n                <td>"
    ++ (Record.get c "id").toJsString h
    ++ "</td>\n                <td>"
    ++ orDash h (Record.get c "nom")
    ++ "</td>\n                <td>"
    ++ orDash h (Record.get c "prenom")
    ++ "</td>\n                <td>"
    ++ orDash h (Record.get c "fonction")
    ++ "</td>\n                <td>"
    ++ badge h (Record.get c "type")
    ++ "</td>\n                <td>"
    ++ orDash h (Record.get c "telephone")
    ++ "</td>\n                <td>"
    ++ orDash h (Record.get c "email")
    ++ "</td>\n                <td>"
    ++ orDash h ((Record.get c "organisation").or (Record.get c "service_nom"))
    ++ "</td>\n                <td style=\"white-space:nowrap;\">\n                    <button class=\"btn btn-warning btn-sm\" onclick=\"editContact("
    ++ (Record.get c "id").toJsString h
    ++ ")\">Éditer</button>\n                    <button class=\"btn btn-danger btn-sm\" onclick=\"deleteContact("
    ++ (Record.get c "id").toJsString h
    ++ ")\">Suppr.</button>\n                </td>\n            </tr>"

/-- The table row `loadContrats` writes for one contract. -/
def contratRow (h : Host) (c : Record) : String :=
  "<tr class=\""
    ++ contratRowClass (contratNiveau c)
    ++ "\">\n                <td>"
    ++ (Record.get c "id").toJsString h
    ++ "</td>\n                <td><strong>"
    ++ orDash h (Record.get c "numero_contrat")
    ++ "</strong></td>\n                <td>"
    ++ orDash h (Record.get c "objet")
    ++ "</td>\n                <td>"
    ++ orDash h (Record.get c "fournisseur_nom")
    ++ "</td>\n                <td>"
    ++ fmt h (Record.get c "montant_total_ht")
    ++ "</td>\n                <td>"
    ++ fmtDate h (Record.get c "date_debut")
    ++ "</td>\n                <td>"
    ++ fmtDate h (Record.get c "date_fin")
    ++ "</td>\n                <td>"
    ++ contratJours h c
    ++ "</td>\n                <td>"
    ++ badge h (Record.get c "statut")
    ++ "</td>\n                <td style=\"font-size:.78em;\">"
    ++ orDash h (Record.get c "type_contrat")
    ++ "</td>\n                <td>"
    ++ alerteBadge h (contratNiveau c)
    ++ "</td>\n                <td style=\"white-space:nowrap;\">\n                    <button class=\"btn btn-info btn-sm\" onclick=\"ficheContrat("
    ++ (Record.get c "id").toJsString h
    ++ ")\">Fiche</button>\n                    <button class=\"btn btn-warning btn-sm\" onclick=\"editContrat("
    ++ (Record.get c "id").toJsString h
    ++ ")\">Éditer</button>\n                    "
    ++ (if Record.get c "statut" = .str "ACTIF" ∨ Record.get c "statut" = .str "RECONDUIT" then
        "<button class=\"btn btn-sm\" style=\"background:#6c757d;color:#fff;\" onclick=\"openReconduire("
          ++ (Record.get c "id").toJsString h ++ ")\">Reconduire</button>"
      else "")
    ++ "\n                    <button class=\"btn btn-danger btn-sm\" onclick=\"deleteContrat("
    ++ (Record.get c "id").toJsString h
    ++ ")\">Suppr.</button>\n                </td>\n            </tr>"

/-- `loadContrats()`, given the outcome `net` of its request.  Reading `data.list` from `null`
throws; a falsy body has no list. -/
def loadContrats (h : Host) (s : State) (net : FetchResult) : State :=
  match apiFetch h s "/contrat" noOpts net with
  | (.ok .falsy, s1) =>
    let s2 := { s1 with cache := { s1.cache with contrats := noProps.listOr "list" } }
    setText s2 "contrats-tbody" (String.join (s2.cache.contrats.map (contratRow h)))
  | (.ok (.obj data), s1) =>
    let s2 := { s1 with cache := { s1.cache with contrats := data.listOr "list" } }
    setText s2 "contrats-tbody" (String.join (s2.cache.contrats.map (contratRow h)))
  | (_, s1) => showMsg s1 "Erreur chargement contrats" false

/-- `loadProjets()`, given the outcome `net` of its request.  Reading `data.list` from `null`
throws; a falsy body has no list. -/
def loadProjets (h : Host) (s : State) (net : FetchResult) : State :=
  match apiFetch h s "/projet" noOpts net with
  | (.ok .falsy, s1) =>
    let s2 := { s1 with cache := { s1.cache with projets := noProps.listOr "list" } }
    setText s2 "projets-tbody" (String.join (s2.cache.projets.map (projetRow h)))
  | (.ok (.obj data), s1) =>
    let s2 := { s1 with cache := { s1.cache with projets := data.listOr "list" } }
    setText s2 "projets-tbody" (String.join (s2.cache.projets.map (projetRow h)))
  | (_, s1) => showMsg s1 "Erreur chargement projets" false

/-- `loadFournisseurs()`, given the outcome `net` of its request.  Reading `data.list` from `null`
throws; a falsy body has no list. -/
def loadFournisseurs (h : Host) (s : State) (net : FetchResult) : State :=
  match apiFetch h s "/fournisseur" noOpts net with
  | (.ok .falsy, s1) =>
    let s2 := { s1 with cache := { s1.cache with fournisseurs := noProps.listOr "list" } }
    setText s2 "fournisseurs-tbody" (String.join (s2.cache.fournisseurs.map (fournisseurRow h)))
  | (.ok (.obj data), s1) =>
    let s2 := { s1 with cache := { s1.cache with fournisseurs := data.listOr "list" } }
    setText s2 "fournisseurs-tbody" (String.join (s2.cache.fournisseurs.map (fournisseurRow h)))
  | (_, s1) => showMsg s1 "Erreur chargement fournisseurs" false

/-- The parameters `loadContacts` sets: the type filter and the search text, each when its
element exists and its value is not empty. -/
def contactParams (s : State) : List (String × String) :=
  (match optionalValue s "contact-filter-type" with
    | some v => if v != "" then [("type", v)] else []
    | none => [])
  ++ (match optionalValue s "contact-search" with
    | some v => if v != "" then [("search", v)] else []
    | none => [])

/-- `loadContacts()`, given the outcome `net` of its request.  Reading `data.list` from `null`
throws; a falsy body has no list. -/
def loadContacts (h : Host) (s : State) (net : FetchResult) : State :=
  match apiFetch h s ("/contact?" ++ urlSearchParams (contactParams s)) noOpts net with
  | (.ok .falsy, s1) =>
    let s2 := { s1 with cache := { s1.cache with contacts := noProps.listOr "list" } }
    setText s2 "contacts-tbody" (String.join (s2.cache.contacts.map (contactRow h)))
  | (.ok (.obj data), s1) =>
    let s2 := { s1 with cache := { s1.cache with contacts := data.listOr "list" } }
    setText s2 "contacts-tbody" (String.join (s2.cache.contacts.map (contactRow h)))
  | (_, s1) => showMsg s1 "Erreur chargement contacts" false

/-- The tasks `loadTaches` renders: those of the list that pass the project filter, when one
is set, and the status filter, when one is set. -/
def filteredTaches (h : Host) (projetId statut : Option String) (list : List Record) :
    List Record :=
  let list1 := match projetId with
    | some v =>
      if v != "" then list.filter fun t => (Record.get t "projet_id").toJsString h == v
      else list
    | none => list
  match statut with
  | some v =>
    if v != "" then list1.filter fun t => (Record.get t "statut").strictEq (.str v) else list1
  | none => list1

/-- `loadTaches()`, given the outcome `net` of its request.  Reading `data.list` from `null`
throws; a falsy body has no list. -/
def loadTaches (h : Host) (s : State) (net : FetchResult) : State :=
  let projetId :=
    if s.present "tache-filter-projet" then some (s.selects "tache-filter-projet").value
    else none
  let statut := optionalValue s "tache-filter-statut"
  match apiFetch h s "/tache" noOpts net with
  | (.ok .falsy, s1) =>
    let s2 := { s1 with cache := { s1.cache with taches := noProps.listOr "list" } }
    setText s2 "taches-tbody"
      (String.join ((filteredTaches h projetId statut s2.cache.taches).map (tacheRow h)))
  | (.ok (.obj data), s1) =>
    let s2 := { s1 with cache := { s1.cache with taches := data.listOr "list" } }
    setText s2 "taches-tbody"
      (String.join ((filteredTaches h projetId statut s2.cache.taches).map (tacheRow h)))
  | (_, s1) => showMsg s1 "Erreur chargement tâches" false

/-- Stated from the specification: a task satisfies every filter that is set, the project
filter by the text of its `projet_id` and the status filter by its `statut`.  A filter is
set when its element exists and its value is not empty. -/
def passesFilters (h : Host) (projetId statut : Option String) (t : Record) : Bool :=
  (match projetId with
    | some v => v == "" || (Record.get t "projet_id").toJsString h == v
    | none => true)
  && (match statut with
    | some v => v == "" || decide (Record.get t "statut" = .str v)
    | none => true)

/-! ## Progress bars -/

/-- The operator `x >= y` on numbers: false as soon as one side is NaN. -/
def JsNum.ge : JsNum → JsNum → Bool
  | .nan, _ => false
  | _, .nan => false
  | .inf false, _ => true
  | .inf true, .inf true => true
  | .inf true, _ => false
  | .fin _, .inf neg => neg
  | .fin a, .fin b => decide (b ≤ a)

/-- `Math.min(x, y)`: NaN as soon as one argument is NaN. -/
def JsNum.min : JsNum → JsNum → JsNum
  | .nan, _ => .nan
  | _, .nan => .nan
  | x, y => if JsNum.gt x y then y else x

/-- The constant `pct` of `progressBar`: `Math.min(Math.round(val / max * 100), 100)`. -/
def pctOf (h : Host) (val max : JVal) : JsNum :=
  JsNum.min ((((toNumber h val).div (toNumber h max)).mul .hundred).mathRound) .hundred

/-- The constant `cls` of `progressBar`. -/
def pctClass (pct : JsNum) : String :=
  if pct.ge (.fin (80 * unit)) then "alert"
  else if pct.ge (.fin (60 * unit)) then "warning"
  else ""

/-- `progressBar(val, max)`. -/
def progressBar (h : Host) (val max : JVal) : String :=
  if !max.truthy || max.looseEq h (.num .zero) then "-"
  else
    let pct := pctOf h val max
    "<div class=\"progress-bar-wrap\" title=\"" ++ pct.toJsString h
      ++ "%\">\n        <div class=\"progress-bar-fill " ++ pctClass pct
      ++ "\" style=\"width:" ++ pct.toJsString h ++ "%\"></div>\n    </div><small>"
      ++ pct.toJsString h ++ "%</small>"

/-- Stated from the specification: the percentage `min(round(100 × val / max), 100)` on exact
numbers, a half going up. -/
def specPct (val max : ℚ) : ℤ := min ⌊100 * val / max + 1 / 2⌋ 100

/-! ## Purchase orders: the edit form -/

/-- The operator `-x` on numbers. -/
def JsNum.neg : JsNum → JsNum
  | .fin k => .fin (-k)
  | .nan => .nan
  | .inf n => .inf (!n)

/-- The operator `x - y` on numbers. -/
def JsNum.sub (x y : JsNum) : JsNum := x.add y.neg

/-- The number ten. -/
def JsNum.ten : JsNum := .fin (10 * unit)

/-- The constant `tva` of `editBC`, from the constants `ht` and `ttc`:
`ht > 0 ? Math.round((ttc / ht - 1) * 1000) / 10 : 20`. -/
def derivedTva (ht ttc : JsNum) : JsNum :=
  if ht.gt .zero then (((ttc.div ht).sub .one).mul .thousand).mathRound.div .ten
  else .twenty

/-- The helper `setVal(id, val)` of `editBC`, on a select: `if (el) el.value = val || ''`. -/
def setValIfPresent (h : Host) (s : State) (id : String) (val : JVal) : State :=
  if s.present id then setSelect h s id (val.or (.str "")) else s

/-- The part of `editBC` that fills the form from the purchase order and opens the modal. -/
def editBCFill (h : Host) (s : State) (id : JVal) (bc : Record) : State :=
  let s1 := setValue h s "edit-bc-id" (Record.get bc "id")
  let s2 := setValue h s1 "edit-bc-numero" ((Record.get bc "numero_bc").or (.str ""))
  let s3 := setValue h s2 "edit-bc-statut" ((Record.get bc "statut").or (.str "BROUILLON"))
  let s4 := setValue h s3 "edit-bc-objet" ((Record.get bc "objet").or (.str ""))
  let s5 := setValue h s4 "edit-bc-montant-ht" ((Record.get bc "montant_ht").or (.str ""))
  let ht := (parseFloat ((Record.get bc "montant_ht").toJsString h)).or .zero
  let ttc := (parseFloat ((Record.get bc "montant_ttc").toJsString h)).or .zero
  let tva := derivedTva ht ttc
  let s6 := setValue h s5 "edit-bc-tva" (.num tva)
  let s7 := setValue h s6 "edit-bc-montant-ttc" (.num ttc)
  let s8 := setText s7 "edit-bc-ttc-preview" (h.toLocaleStringFr ttc 2 none ++ " €")
  let s9 := setValIfPresent h s8 "edit-bc-fournisseur" (Record.get bc "fournisseur_id")
  let s10 := setValIfPresent h s9 "edit-bc-entite" (Record.get bc "entite_id")
  let s11 := setValIfPresent h s10 "edit-bc-ligne" (Record.get bc "ligne_budgetaire_id")
  let s12 := setValIfPresent h s11 "edit-bc-projet" (Record.get bc "projet_id")
  let s13 := setValIfPresent h s12 "edit-bc-contrat" (Record.get bc "contrat_id")
  let s14 := setText s13 "edit-bc-ligne-info"
    (if (Record.get bc "ligne_budgetaire_id").truthy ∧ (Record.get bc "ligne_libelle").truthy
      then "Ligne : " ++ (Record.get bc "ligne_libelle").toJsString h else "")
  let s15 := setText s14 "edit-bc-titre"
    ("Modifier le BC — "
      ++ ((Record.get bc "numero_bc").or (.str ("#" ++ id.toJsString h))).toJsString h)
  openModal s15 "modal-edit-bc"

/-- `editBC(id)`, given the outcome `net` of its request.  Reading `bc.id` from `null` throws;
a falsy body is read as the object without properties. -/
def editBC (h : Host) (s : State) (id : JVal) (net : FetchResult) : State :=
  match apiFetch h s ("/bon_commande/" ++ id.toJsString h) noOpts net with
  | (.ok .falsy, s1) => editBCFill h s1 id noProps.fields
  | (.ok (.obj bc), s1) => editBCFill h s1 id bc.fields
  | (_, s1) => showMsg s1 "Erreur chargement BC" false

/-! ## Sample data -/

/-- A host whose number conversions are constant (they are not consulted on integers and
strings) and whose `JSON.parse` knows the claims of the two sample tokens and `null`. -/
def sampleHost : Host :=
  { fractionToString := fun _ => ""
    stringToNumber := fun _ => .nan
    toLocaleStringFr := fun _ _ _ => ""
    typeErrorMessage := "TypeError"
    jsonParse := fun text =>
      if text = "\x7b\"exp\":2000000000,\"role\":\"admin\",\"prenom\":\"Ada\",\"nom\":\"Martin\"\x7d" then
        .obj ⟨[("exp", .num (JsNum.ofInt 2000000000)), ("role", .str "admin"),
          ("prenom", .str "Ada"), ("nom", .str "Martin")], [], []⟩
      else if text = "\x7b\"exp\":1000000000,\"role\":\"admin\"\x7d" then
        .obj ⟨[("exp", .num (JsNum.ofInt 1000000000)), ("role", .str "admin")], [], []⟩
      else if text = "null" then .null
      else .invalid "Unexpected token"
    inheritedText := fun _ => none }

/-- The state at page load: empty storage, the initial values of the module-level variables,
and a document in which every select holds its placeholder option only. -/
def startState : State :=
  { storage := fun _ => none
    present := fun _ => true
    value := fun _ => ""
    text := fun _ => ""
    display := fun _ => ""
    background := fun _ => ""
    isOpen := fun _ => false
    selects := fun _ => ⟨[⟨"", "-- Choisir --"⟩], some 0⟩
    currentBudgetId := .null
    currentBcId := .null
    currentContratId := .null
    refs := ⟨[], [], [], [], none, []⟩
    cache := ⟨[], [], [], [], []⟩
    lignesSelectId := .null
    lignesCache := []
    budgetsList := []
    requests := []
    warnings := []
    spawned := [] }

/-- The document at page load, after contract 7 has been chosen in the select
`edit-bc-contrat`. -/
def contratSevenChosen : State :=
  { startState with
    selects := upd startState.selects "edit-bc-contrat"
      ⟨[⟨"", "-- Aucun --"⟩, ⟨"7", "C-7"⟩], some 1⟩ }

/-- A response of the reference endpoint whose contracts are contract 7 alone. -/
def contratSevenOnly : Payload :=
  ⟨[], [("contrats", [[("id", .num (JsNum.ofInt 7)), ("numero_contrat", .str "C-7")]])], []⟩

/-- A response of the reference endpoint whose contracts are contract 8 alone. -/
def contratEightOnly : Payload :=
  ⟨[], [("contrats", [[("id", .num (JsNum.ofInt 8)), ("numero_contrat", .str "C-8")]])], []⟩

/-- The task 5 as the server returns it. -/
def tacheFive : Payload :=
  ⟨[("id", .num (JsNum.ofInt 5)), ("titre", .str "Recette")], [], []⟩

/-- The page after `openImputer(12)` and the choice of budget line 3 in the allocation
dialog. -/
def imputerOpen : State :=
  { startState with
    currentBcId := .num (JsNum.ofInt 12)
    isOpen := upd startState.isOpen "modal-imputer-bc" true
    selects := upd startState.selects "imputer-ligne"
      ⟨[⟨"", "-- Choisir --"⟩, ⟨"3", "Licences — Solde: 1 500,00 €"⟩], some 1⟩ }

/-- The answer of a mutating endpoint on success: an object whose `success` is `true`. -/
def successPayload : Payload := ⟨[("success", .bool true)], [], []⟩

/-- The budget-line form open on a new line: budget 3 chosen, label `Licences`. -/
def ligneFormFilled : State :=
  { startState with
    value := upd startState.value "edit-ligne-libelle" "Licences"
    isOpen := upd startState.isOpen "modal-edit-ligne" true
    selects := upd startState.selects "edit-ligne-budget"
      ⟨[⟨"", "-- Sélectionner un budget --"⟩, ⟨"3", "DSI — FONCTIONNEMENT 2025"⟩], some 1⟩ }

/-- The contract form open on contract 42 with its number and object filled. -/
def contratFormFilled : State :=
  { startState with
    value := upd (upd (upd startState.value "edit-contrat-id" "42")
      "edit-contrat-numero" "C-42") "edit-contrat-objet" "Maintenance"
    isOpen := upd startState.isOpen "modal-edit-contrat" true }

/-- The project sheet of project 4 with `Alice` typed in the new-member field. -/
def membreFormFilled : State :=
  { startState with value := upd startState.value "new-membre-label-4" "Alice" }

/-- The body of an error response carrying a message. -/
def refusedBody : Body := .obj ⟨[("error", .str "Budget clôturé")], [], []⟩

/-- The purchase-order edit form with HT `9` and VAT `5.5`. -/
def bcFormNine : State :=
  { startState with
    value := upd (upd startState.value "edit-bc-montant-ht" "9") "edit-bc-tva" "5.5" }

/-- The purchase-order edit form with HT `100` and VAT `20`. -/
def bcFormHundred : State :=
  { startState with
    value := upd (upd startState.value "edit-bc-montant-ht" "100") "edit-bc-tva" "20" }

/-- The purchase-order edit form with HT `133.33` and VAT `5.5`. -/
def bcFormDecimal : State :=
  { startState with
    value := upd (upd startState.value "edit-bc-montant-ht" "133.33") "edit-bc-tva" "5.5" }

/-- A response of the reference endpoint that carries one service and nothing else. -/
def servicesOnly : Payload :=
  ⟨[], [("services", [[("id", .str "1"), ("code", .str "DSI"), ("nom", .str "Informatique")]])],
    []⟩

/-- The budget-line form open on the existing line 7: budget 3 chosen, label `Licences`. -/
def ligneFormEdit : State :=
  { ligneFormFilled with value := upd ligneFormFilled.value "edit-ligne-id" "7" }

/-- The page with the credential `abc` in the storage. -/
def loggedIn : State :=
  { startState with storage := upd startState.storage TOKEN_KEY (some "abc") }

/-- A contract record with a number and an object. -/
def contratFull : Record :=
  [("id", .num (JsNum.ofInt 7)), ("numero_contrat", .str "C-2024-01"), ("objet", .str "Maintenance")]

/-- A contract record with a number and an empty object. -/
def contratNumberOnly : Record :=
  [("id", .num (JsNum.ofInt 7)), ("numero_contrat", .str "C-2024-01"), ("objet", .str "")]

/-- A contract record with an object and no number. -/
def contratObjectOnly : Record :=
  [("id", .num (JsNum.ofInt 7)), ("numero_contrat", .null), ("objet", .str "Maintenance")]

/-- An entity record with a code and a name. -/
def entiteCoded : Record :=
  [("id", .num (JsNum.ofInt 1)), ("code", .str "DSI"), ("nom", .str "Direction SI")]

/-- An entity record whose code is empty. -/
def entiteUncoded : Record :=
  [("id", .num (JsNum.ofInt 2)), ("code", .str ""), ("nom", .str "Mairie")]

/-- A token whose claims are `exp` 2000000000, the role `admin` and the name Ada Martin. -/
def tokenFresh : String :=
  "eyJhbGciOiJIUzI1NiIsInR5cCI6IkpXVCJ9.eyJleHAiOjIwMDAwMDAwMDAsInJvbGUiOiJhZG1pbiIsInByZW5vbSI6IkFkYSIsIm5vbSI6Ik1hcnRpbiJ9.sig"

/-- A token whose claims are `exp` 1000000000 and the role `admin`. -/
def tokenExpired : String :=
  "eyJhbGciOiJIUzI1NiIsInR5cCI6IkpXVCJ9.eyJleHAiOjEwMDAwMDAwMDAsInJvbGUiOiJhZG1pbiJ9.sig"

/-- The claims of `tokenFresh`. -/
def claimsFresh : Payload :=
  ⟨[("exp", .num (JsNum.ofInt 2000000000)), ("role", .str "admin"), ("prenom", .str "Ada"),
    ("nom", .str "Martin")], [], []⟩

/-- The claims of `tokenExpired`. -/
def claimsExpired : Payload :=
  ⟨[("exp", .num (JsNum.ofInt 1000000000)), ("role", .str "admin")], [], []⟩

/-- The page with the credential `tokenFresh` in the storage. -/
def sessionFresh : State :=
  { startState with storage := upd startState.storage TOKEN_KEY (some tokenFresh) }

/-- The page with the credential `tokenExpired` in the storage. -/
def sessionExpired : State :=
  { startState with storage := upd startState.storage TOKEN_KEY (some tokenExpired) }

/-- A time of the year 2026, in milliseconds: 1 780 000 000 000. -/
def nowSample : JsNum := JsNum.ofInt 1780000000000

/-- The purchase-order view with the status filter `VALIDE` and the search text `serveur`. -/
def bcFiltered : State :=
  { startState with
    value := upd (upd startState.value "bc-filter-statut" "VALIDE") "bc-search" "serveur" }

/-- A draft purchase order for licences. -/
def bcDraft : Record :=
  [("id", .num (JsNum.ofInt 1)), ("numero_bc", .str "BC-1"), ("objet", .str "Licences"),
    ("statut", .str "BROUILLON")]

/-- A response of the list endpoint whose list is the draft order alone. -/
def bcListDraft : Payload := ⟨[], [("list", [bcDraft])], []⟩

/-- A response of the statistics endpoint without counters. -/
def bcStatsEmpty : Payload := ⟨[], [], []⟩

/-- The purchase-order edit form of order 4 with HT `100` and VAT `0`. -/
def bcFormZeroVat : State :=
  { startState with
    value := upd (upd (upd (upd (upd startState.value "edit-bc-id" "4") "edit-bc-numero" "BC-4")
      "edit-bc-objet" "Licences") "edit-bc-montant-ht" "100") "edit-bc-tva" "0" }

/-- A budget line with id 3 and its three amounts. -/
def ligneThree : Record :=
  [("id", .num (JsNum.ofInt 3)), ("libelle", .str "Licences"),
    ("montant_vote", .num (JsNum.ofInt 2000)), ("montant_engage", .num (JsNum.ofInt 500)),
    ("montant_solde", .num (JsNum.ofInt 1500))]

/-- The allocation dialog with line 3 chosen, the snapshot holding that line. -/
def imputerChosen : State :=
  { imputerOpen with refs := { imputerOpen.refs with lignes := [ligneThree] } }

/-- A validated purchase order. -/
def bcValide : Record :=
  [("id", .num (JsNum.ofInt 2)), ("numero_bc", .str "BC-2"), ("statut", .str "VALIDE")]

/-- A charged purchase order. -/
def bcImpute : Record :=
  [("id", .num (JsNum.ofInt 3)), ("numero_bc", .str "BC-3"), ("statut", .str "IMPUTE")]

/-- A response of a list endpoint whose list is the sample contract alone. -/
def contratList : Payload := ⟨[], [("list", [contratFull])], []⟩

/-- A task of project 1, still to do. -/
def tacheOne : Record :=
  [("id", .num (JsNum.ofInt 1)), ("titre", .str "Recette"), ("projet_id", .num (JsNum.ofInt 1)),
    ("statut", .str "A faire")]

/-- A task of project 2, done. -/
def tacheTwo : Record :=
  [("id", .num (JsNum.ofInt 2)), ("titre", .str "Cadrage"), ("projet_id", .num (JsNum.ofInt 2)),
    ("statut", .str "Terminé")]

/-- A response of the task endpoint with the two sample tasks. -/
def tacheList : Payload := ⟨[], [("list", [tacheOne, tacheTwo])], []⟩

/-- The task view with project 1 chosen in the project filter and no status filter. -/
def tachesOfProjectOne : State :=
  { startState with
    selects := upd startState.selects "tache-filter-projet"
      ⟨[⟨"", "-- Tous --"⟩, ⟨"1", "P1 – Refonte"⟩], some 1⟩ }

/-- A project with id 1. -/
def projetOne : Record :=
  [("id", .num (JsNum.ofInt 1)), ("code", .str "P1"), ("nom", .str "Refonte")]

/-- A supplier with id 2. -/
def fournisseurTwo : Record := [("id", .num (JsNum.ofInt 2)), ("nom", .str "Dell")]

/-- A contact with id 4. -/
def contactFour : Record := [("id", .num (JsNum.ofInt 4)), ("nom", .str "Durand")]

/-- The page after every list has been loaded: each cache holds records, none of them with
id 5. -/
def cachesLoaded : State :=
  { startState with
    cache :=
      { projets := [projetOne]
        taches := [tacheOne, tacheTwo]
        contrats := [contratFull]
        contacts := [contactFour]
        fournisseurs := [fournisseurTwo] }
    lignesCache := [ligneThree] }

/-- A task with id 5 whose due date is a number instead of a date text. -/
def tacheFiveNumericDate : Payload :=
  ⟨[("id", .num (JsNum.ofInt 5)), ("titre", .str "Recette"),
    ("date_echeance", .num (JsNum.ofInt 20260101))], [], []⟩

/-- Purchase order 4 as stored after a save with HT `100` and VAT `20`: TTC `120`. -/
def bcStoredHundred : Payload :=
  ⟨[("id", .num (JsNum.ofInt 4)), ("numero_bc", .str "BC-4"), ("objet", .str "Licences"),
    ("montant_ht", .num (JsNum.ofInt 100)), ("montant_ttc", .num (JsNum.ofInt 120))], [], []⟩

/-- Purchase order 8 as stored after a save with HT `100` and VAT `0`: TTC `100`. -/
def bcStoredZeroVat : Payload :=
  ⟨[("id", .num (JsNum.ofInt 8)), ("numero_bc", .str "BC-8"), ("objet", .str "Formation"),
    ("montant_ht", .num (JsNum.ofInt 100)), ("montant_ttc", .num (JsNum.ofInt 100))], [], []⟩

/-! ## Theorems -/

/-! ### Frame and effect of `fillSelect` sequences -/

/-- The state after `fillSelect` differs from the state before in `selects` only. -/
theorem fillSelect_frame (h : Host) (s : State) (selId : String) (items : List Record)
    (valKey : String) (labelFn : LabelFn) :
    (fillSelect h s selId items valKey labelFn).2
      = { s with selects := (fillSelect h s selId items valKey labelFn).2.selects } := by
  unfold fillSelect
  split
  · rfl
  · split <;> rfl

/-- A select other than the one filled is unchanged. -/
theorem fillSelect_selects_of_ne (h : Host) (s : State) (selId : String) (items : List Record)
    (valKey : String) (labelFn : LabelFn) (id : String) (hne : id ≠ selId) :
    (fillSelect h s selId items valKey labelFn).2.selects id = s.selects id := by
  unfold fillSelect
  split
  · rfl
  · split <;> simp [upd, hne]

/-- The state after a sequence of `fillSelect` differs from the state before in `selects`
only. -/
theorem fillAll_frame (h : Host) (l : List (String × List Record × LabelFn)) :
    ∀ s : State, (fillAll h s l).2 = { s with selects := (fillAll h s l).2.selects } := by
  induction l with
  | nil => intro s; rfl
  | cons x rest ih =>
    intro s
    obtain ⟨id, items, lab⟩ := x
    have hf := fillSelect_frame h s id items "id" lab
    simp only [fillAll]
    rcases hres : fillSelect h s id items "id" lab with ⟨r, s1⟩
    rw [hres] at hf
    cases r with
    | error e => exact hf
    | ok u =>
      simp only []
      rw [ih s1]
      simp only [] at hf
      rw [hf]


/-- `fillSelect` leaves the set of elements of the document unchanged. -/
theorem fillSelect_present (h : Host) (s : State) (selId : String) (items : List Record)
    (valKey : String) (labelFn : LabelFn) :
    (fillSelect h s selId items valKey labelFn).2.present = s.present := by
  rw [fillSelect_frame]

/-- A sequence of `fillSelect` leaves the set of elements of the document unchanged. -/
theorem fillAll_present (h : Host) (l : List (String × List Record × LabelFn)) (s : State) :
    (fillAll h s l).2.present = s.present := by
  rw [fillAll_frame]

/-- A sequence of `fillSelect` leaves the reference snapshot unchanged. -/
theorem fillAll_refs (h : Host) (l : List (String × List Record × LabelFn)) (s : State) :
    (fillAll h s l).2.refs = s.refs := by
  rw [fillAll_frame]

/-- Filling a select that is in the document and has a first option succeeds and leaves that
first option, selected, followed by one option per item. -/
theorem fillSelect_self (h : Host) (s : State) (selId : String) (items : List Record)
    (valKey : String) (labelFn : LabelFn) (hp : s.present selId = true)
    (hne : (s.selects selId).options ≠ []) :
    (fillSelect h s selId items valKey labelFn).1 = .ok ()
      ∧ (fillSelect h s selId items valKey labelFn).2.selects selId
          = ⟨(s.selects selId).options.take 1 ++ itemOptions h items valKey labelFn, some 0⟩ := by
  unfold fillSelect
  simp only [hp, Bool.not_true, Bool.false_eq_true, if_false]
  split
  · next hnil => exact absurd hnil hne
  · next first rest hcons => simp [upd, hcons]

/-- A select that is not in the document is left as it is by `fillSelect`. -/
theorem fillSelect_absent (h : Host) (s : State) (selId : String) (items : List Record)
    (valKey : String) (labelFn : LabelFn) (hp : s.present selId = false) :
    fillSelect h s selId items valKey labelFn = (.ok (), s) := by
  simp [fillSelect, hp]

/-- A select that a sequence of `fillSelect` does not name is unchanged. -/
theorem fillAll_selects_of_not_mem (h : Host) (id : String)
    (l : List (String × List Record × LabelFn)) :
    ∀ s : State, id ∉ l.map Prod.fst → (fillAll h s l).2.selects id = s.selects id := by
  induction l with
  | nil => intro s _; rfl
  | cons x rest ih =>
    intro s hid
    obtain ⟨id0, items, lab⟩ := x
    simp only [List.map_cons, List.mem_cons, not_or] at hid
    have h1 := fillSelect_selects_of_ne h s id0 items "id" lab id hid.1
    simp only [fillAll]
    rcases hres : fillSelect h s id0 items "id" lab with ⟨r, s1⟩
    rw [hres] at h1
    cases r with
    | error e => exact h1
    | ok u =>
      simp only []
      rw [ih s1 hid.2]
      exact h1

/-- A sequence of `fillSelect` over distinct selects, each of which has a first option when it
is in the document, succeeds, and leaves in every select it names the retained first option,
selected, followed by one option per item. -/
theorem fillAll_spec (h : Host) (l : List (String × List Record × LabelFn)) :
    ∀ s : State, (l.map Prod.fst).Nodup →
      (∀ id ∈ l.map Prod.fst, s.present id = true → (s.selects id).options ≠ []) →
      (fillAll h s l).1 = .ok ()
        ∧ ∀ id items lab, (id, items, lab) ∈ l → s.present id = true →
            (fillAll h s l).2.selects id
              = ⟨(s.selects id).options.take 1 ++ itemOptions h items "id" lab, some 0⟩ := by
  induction l with
  | nil => intro s _ _; exact ⟨rfl, fun _ _ _ hm => absurd hm (List.not_mem_nil _)⟩
  | cons x rest ih =>
    intro s hnd hready
    obtain ⟨id0, items0, lab0⟩ := x
    simp only [List.map_cons, List.nodup_cons] at hnd
    have hrest : ∀ s1 : State, s1.present = s.present →
        (∀ id, id ≠ id0 → s1.selects id = s.selects id) →
        ∀ id ∈ rest.map Prod.fst, s1.present id = true → (s1.selects id).options ≠ [] := by
      intro s1 hp hs id hid hpid
      have hne : id ≠ id0 := fun he => hnd.1 (he ▸ hid)
      rw [hs id hne]
      apply hready id (List.mem_cons_of_mem _ hid)
      rw [← hp]; exact hpid
    by_cases hp0 : s.present id0 = true
    · have hne0 : (s.selects id0).options ≠ [] :=
        hready id0 (List.mem_cons_self _ _) hp0
      obtain ⟨hok, hsel⟩ := fillSelect_self h s id0 items0 "id" lab0 hp0 hne0
      have hpres := fillSelect_present h s id0 items0 "id" lab0
      have hothers := fun id (hne : id ≠ id0) =>
        fillSelect_selects_of_ne h s id0 items0 "id" lab0 id hne
      simp only [fillAll]
      rcases hres : fillSelect h s id0 items0 "id" lab0 with ⟨r, s1⟩
      rw [hres] at hok hsel hpres
      simp only [hres] at hothers
      simp only [] at hok hsel hpres hothers
      subst hok
      simp only []
      obtain ⟨ihok, ihsel⟩ := ih s1 hnd.2 (hrest s1 hpres hothers)
      refine ⟨ihok, ?_⟩
      intro id items lab hm hpid
      rcases List.mem_cons.mp hm with heq | hm'
      · injection heq with h1 h2
        injection h2 with h2 h3
        subst h1 h2 h3
        rw [fillAll_selects_of_not_mem h _ rest s1 hnd.1]
        exact hsel
      · have hid : id ∈ rest.map Prod.fst := List.mem_map_of_mem Prod.fst hm'
        have hne : id ≠ id0 := fun he => hnd.1 (he ▸ hid)
        rw [ihsel id items lab hm' (by rw [hpres]; exact hpid), hothers id hne]
    · have hp0' : s.present id0 = false := by simpa using hp0
      simp only [fillAll, fillSelect_absent h s id0 items0 "id" lab0 hp0']
      obtain ⟨ihok, ihsel⟩ := ih s hnd.2 (hrest s rfl (fun _ _ => rfl))
      refine ⟨ihok, ?_⟩
      intro id items lab hm hpid
      rcases List.mem_cons.mp hm with heq | hm'
      · injection heq with h1 h2
        subst h1
        exact absurd hpid hp0
      · exact ihsel id items lab hm' hpid

/-- Writing back the value an entry already has leaves a map unchanged. -/
theorem upd_self {α : Type} (f : String → α) (k : String) (v : α) (hv : f k = v) :
    upd f k v = f := by
  funext x
  unfold upd
  split
  · next hx => rw [hx, hv]
  · rfl

/-- Repeating a sequence of `fillSelect` over distinct selects on the state it produced (or
on any state with the same document) changes no select and ends the same way. -/
theorem fillAll_idem (h : Host) (l : List (String × List Record × LabelFn)) :
    ∀ s t : State, (l.map Prod.fst).Nodup →
      t.present = (fillAll h s l).2.present → t.selects = (fillAll h s l).2.selects →
      (fillAll h t l).2.selects = t.selects ∧ (fillAll h t l).1 = (fillAll h s l).1 := by
  induction l with
  | nil => intro s t _ _ _; exact ⟨rfl, rfl⟩
  | cons x rest ih =>
    intro s t hnd hp hs
    obtain ⟨id0, items0, lab0⟩ := x
    simp only [List.map_cons, List.nodup_cons] at hnd
    rw [fillAll_present] at hp
    by_cases hp0 : s.present id0 = true
    · have hpt : t.present id0 = true := by rw [hp]; exact hp0
      cases hopt : (s.selects id0).options with
      | nil =>
        have hfs : fillSelect h s id0 items0 "id" lab0
            = (.error .typeError, { s with selects := upd s.selects id0 ⟨[], none⟩ }) := by
          simp [fillSelect, hp0, hopt]
        simp only [fillAll, hfs] at hs ⊢
        have ht0 : t.selects id0 = ⟨[], none⟩ := by rw [hs]; simp [upd]
        have hft : fillSelect h t id0 items0 "id" lab0
            = (.error .typeError, { t with selects := upd t.selects id0 ⟨[], none⟩ }) := by
          simp [fillSelect, hpt, ht0]
        simp only [hft]
        exact ⟨upd_self _ _ _ ht0, trivial⟩
      | cons first others =>
        have hfs : fillSelect h s id0 items0 "id" lab0
            = (.ok (), { s with
                selects := upd s.selects id0 ⟨first :: itemOptions h items0 "id" lab0, some 0⟩ }) := by
          simp [fillSelect, hp0, hopt]
        simp only [fillAll, hfs] at hs ⊢
        have ht0 : t.selects id0 = ⟨first :: itemOptions h items0 "id" lab0, some 0⟩ := by
          rw [hs, fillAll_selects_of_not_mem h id0 rest _ hnd.1]; simp [upd]
        have hft : fillSelect h t id0 items0 "id" lab0
            = (.ok (), { t with
                selects := upd t.selects id0 ⟨first :: itemOptions h items0 "id" lab0, some 0⟩ }) := by
          simp [fillSelect, hpt, ht0]
        simp only [hft]
        rw [upd_self _ _ _ ht0]
        exact ih _ _ hnd.2 (by rw [fillAll_present]; exact hp) hs
    · have hp0' : s.present id0 = false := by simpa using hp0
      have hpt : t.present id0 = false := by rw [hp]; exact hp0'
      simp only [fillAll, fillSelect_absent h s id0 items0 "id" lab0 hp0'] at hs ⊢
      simp only [fillSelect_absent h t id0 items0 "id" lab0 hpt]
      exact ih s t hnd.2 (by rw [fillAll_present]; exact hp) hs

/-! ### The gateway and the reference refresh -/

/-- The selects named by the `fillSelect` calls of `initRefs`. -/
theorem refFills_ids (h : Host) (r : Refs) (services : List Record) :
    (refFills h r services).map Prod.fst = refSelectIds := rfl

/-- The selects filled by `initRefs` are pairwise distinct. -/
theorem refSelectIds_nodup : refSelectIds.Nodup := by
  simp [refSelectIds]

/-- A 2xx status is neither 401 nor 403. -/
theorem statusOk_ne (status : Nat) (hok : statusOk status = true) :
    status ≠ 401 ∧ status ≠ 403 := by
  simp only [statusOk, decide_eq_true_eq] at hok
  omega

/-- A 2xx response whose body is an object makes `apiFetch` return that object; the only
change of state is the request logged. -/
theorem apiFetch_ok (h : Host) (s : State) (path : String) (opts : FetchOpts) (status : Nat)
    (p : Payload) (hok : statusOk status = true) :
    apiFetch h s path opts (.response status (.obj p))
      = (.ok (.obj p), { s with requests := s.requests ++ [requestOf s path opts] }) := by
  obtain ⟨h1, h3⟩ := statusOk_ne status hok
  simp [apiFetch, h1, h3, hok]

/-- `apiFetch` never writes the reference snapshot, the warnings or the selects. -/
theorem apiFetch_frame (h : Host) (s : State) (path : String) (opts : FetchOpts)
    (net : FetchResult) :
    (apiFetch h s path opts net).2.refs = s.refs
      ∧ (apiFetch h s path opts net).2.warnings = s.warnings
      ∧ (apiFetch h s path opts net).2.selects = s.selects
      ∧ (apiFetch h s path opts net).2.present = s.present := by
  unfold apiFetch
  cases net with
  | failed m => exact ⟨rfl, rfl, rfl, rfl⟩
  | response status body =>
    simp only []
    split
    · exact ⟨rfl, rfl, rfl, rfl⟩
    · split
      · exact ⟨rfl, rfl, rfl, rfl⟩
      · split
        · cases body <;> exact ⟨rfl, rfl, rfl, rfl⟩
        · cases body <;> exact ⟨rfl, rfl, rfl, rfl⟩

/-- On a 2xx response with an object body `initRefs` replaces the snapshot and then runs its
`fillSelect` statements. -/
theorem initRefs_ok (h : Host) (s : State) (status : Nat) (p : Payload)
    (hok : statusOk status = true) :
    initRefs h s (.response status (.obj p))
      = match fillAll h
            { s with
              requests := s.requests ++ [requestOf s "/referentiels" noOpts]
              refs := refsOf p }
            (refFills h (refsOf p) (p.listOr "services")) with
        | (.ok _, s3) => (.ok (), s3)
        | (.error e, s3) => (.ok (), warn s3 e) := by
  simp only [initRefs, apiFetch_ok h s _ _ status p hok]

/-- The state `initRefs` reaches on a 2xx response with an object body: the snapshot is the
one decoded from the response, the selects are those left by the `fillSelect` statements, and
the call itself does not fail. -/
theorem initRefs_ok_state (h : Host) (s : State) (status : Nat) (p : Payload)
    (hok : statusOk status = true) :
    (initRefs h s (.response status (.obj p))).1 = .ok ()
      ∧ (initRefs h s (.response status (.obj p))).2.refs = refsOf p
      ∧ (initRefs h s (.response status (.obj p))).2.present = s.present
      ∧ (initRefs h s (.response status (.obj p))).2.selects
          = (fillAll h
              { s with
                requests := s.requests ++ [requestOf s "/referentiels" noOpts]
                refs := refsOf p }
              (refFills h (refsOf p) (p.listOr "services"))).2.selects := by
  rw [initRefs_ok h s status p hok]
  have hr := fillAll_refs h (refFills h (refsOf p) (p.listOr "services"))
    { s with
      requests := s.requests ++ [requestOf s "/referentiels" noOpts]
      refs := refsOf p }
  have hp := fillAll_present h (refFills h (refsOf p) (p.listOr "services"))
    { s with
      requests := s.requests ++ [requestOf s "/referentiels" noOpts]
      refs := refsOf p }
  rcases hres : fillAll h
    { s with
      requests := s.requests ++ [requestOf s "/referentiels" noOpts]
      refs := refsOf p }
    (refFills h (refsOf p) (p.listOr "services")) with ⟨r, s3⟩
  rw [hres] at hr hp
  cases r with
  | error e => exact ⟨rfl, hr, hp, rfl⟩
  | ok u => exact ⟨rfl, hr, hp, rfl⟩

/-- On a successful refresh of a document whose selects have their first option, every
select named by a `fillSelect` statement of `initRefs` and present in the document ends with
its former first option, selected, followed by one option per item. -/
theorem initRefs_fills (h : Host) (s : State) (status : Nat) (p : Payload)
    (hok : statusOk status = true) (hready : SelectsReady s refSelectIds)
    (id : String) (items : List Record) (lab : LabelFn)
    (hm : (id, items, lab) ∈ refFills h (refsOf p) (p.listOr "services"))
    (hp : s.present id = true) :
    (initRefs h s (.response status (.obj p))).2.selects id
      = ⟨(s.selects id).options.take 1 ++ itemOptions h items "id" lab, some 0⟩ := by
  rw [(initRefs_ok_state h s status p hok).2.2.2]
  have hspec := fillAll_spec h (refFills h (refsOf p) (p.listOr "services"))
    { s with
      requests := s.requests ++ [requestOf s "/referentiels" noOpts]
      refs := refsOf p }
    (by rw [refFills_ids]; exact refSelectIds_nodup)
    (by rw [refFills_ids]; exact hready)
  exact hspec.2 id items lab hm hp

/-- Every select of `refSelectIds` is named by a `fillSelect` statement of `initRefs`. -/
theorem refFills_of_mem (h : Host) (r : Refs) (services : List Record) (id : String)
    (hid : id ∈ refSelectIds) :
    ∃ items lab, (id, items, lab) ∈ refFills h r services := by
  rw [← refFills_ids h r services] at hid
  obtain ⟨x, hx, rfl⟩ := List.mem_map.mp hid
  exact ⟨x.2.1, x.2.2, hx⟩

/-- The document of `contratSevenChosen` has a first option in every select. -/
theorem contratSevenChosen_ready : SelectsReady contratSevenChosen refSelectIds := by
  intro id _ _
  simp only [contratSevenChosen, startState, upd]
  split <;> simp

/-- The text of the number 7 is `7`. -/
theorem seven_toJsString : (JVal.num (JsNum.ofInt 7)).toJsString sampleHost = "7" := by
  decide!

/-- The text of the number 8 is `8`. -/
theorem eight_toJsString : (JVal.num (JsNum.ofInt 8)).toJsString sampleHost = "8" := by
  decide!

/-! ### Cache lookups -/

/-- `find` returns nothing when no record of the list has the id. -/
theorem findById_eq_none (items : List Record) (id : JVal)
    (habs : ∀ r ∈ items, (Record.get r "id").strictEq id = false) :
    findById items id = none := by
  unfold findById
  rw [List.find?_eq_none]
  intro r hr
  simp [habs r hr]

/-- `showMsg` writes the banner and nothing else. -/
theorem showMsg_frame (s : State) (text : String) (ok : Bool) :
    (showMsg s text ok).isOpen = s.isOpen ∧ (showMsg s text ok).requests = s.requests
      ∧ (showMsg s text ok).text "msg" = text ∧ (showMsg s text ok).display "msg" = "block"
      ∧ (showMsg s text ok).spawned = s.spawned ∧ (showMsg s text ok).refs = s.refs
      ∧ (showMsg s text ok).cache = s.cache ∧ (showMsg s text ok).lignesCache = s.lignesCache :=
  ⟨rfl, rfl, by simp [showMsg, upd], by simp [showMsg, upd], rfl, rfl, rfl, rfl⟩

/-- `apiFetch` logs exactly one request and leaves the banner, the modals, the caches and the
pending calls as they are. -/
theorem apiFetch_logs_request (h : Host) (s : State) (path : String) (opts : FetchOpts)
    (net : FetchResult) :
    (apiFetch h s path opts net).2.requests = s.requests ++ [requestOf s path opts]
      ∧ (apiFetch h s path opts net).2.text = s.text
      ∧ (apiFetch h s path opts net).2.background = s.background
      ∧ (apiFetch h s path opts net).2.display "msg" = s.display "msg"
      ∧ (apiFetch h s path opts net).2.isOpen = s.isOpen
      ∧ (apiFetch h s path opts net).2.spawned = s.spawned
      ∧ (apiFetch h s path opts net).2.cache = s.cache
      ∧ (apiFetch h s path opts net).2.lignesCache = s.lignesCache := by
  unfold apiFetch
  cases net with
  | failed m => exact ⟨rfl, rfl, rfl, rfl, rfl, rfl, rfl, rfl⟩
  | response status body =>
    simp only []
    split
    · exact ⟨rfl, rfl, rfl, by simp [showLoginOverlay, removeToken, upd], rfl, rfl, rfl, rfl⟩
    · split
      · exact ⟨rfl, rfl, rfl, rfl, rfl, rfl, rfl, rfl⟩
      · split
        · cases body <;> exact ⟨rfl, rfl, rfl, rfl, rfl, rfl, rfl, rfl⟩
        · cases body <;> exact ⟨rfl, rfl, rfl, rfl, rfl, rfl, rfl, rfl⟩

/-! ### Mutating actions that guard their request -/

/-- When the request of a guarded action fails with `e`, the action shows the banner with the
message of `e`, leaves every modal as it is and starts nothing. -/
theorem guardedResult_failure (h : Host) (r : Except JsError Data × State) (e : JsError)
    (onSuccess : Payload → State → State) (hfail : r.1 = .error e) :
    (guardedResult h r onSuccess).text "msg" = e.message h
      ∧ (guardedResult h r onSuccess).background "msg" = "#c0392b"
      ∧ (guardedResult h r onSuccess).display "msg" = "block"
      ∧ (guardedResult h r onSuccess).isOpen = r.2.isOpen
      ∧ (guardedResult h r onSuccess).spawned = r.2.spawned := by
  obtain ⟨r1, s1⟩ := r
  simp only [] at hfail
  subst hfail
  simp [guardedResult, showMsg, upd]

/-- When the request of a guarded action gets a 2xx object without truthy `success`, the
action shows the banner with the `error` field of the object, or `Erreur` when that field is
falsy, and leaves every modal as it is. -/
theorem guardedResult_refused (h : Host) (s1 : State) (res : Payload)
    (onSuccess : Payload → State → State) (hno : (res.get "success").truthy = false) :
    (guardedResult h (.ok (.obj res), s1) onSuccess).text "msg"
        = textContentOf h ((res.get "error").or (.str "Erreur"))
      ∧ (guardedResult h (.ok (.obj res), s1) onSuccess).isOpen = s1.isOpen := by
  simp [guardedResult, hno, showMsg, upd]

/-- `saveBC`, `confirmImputer` and `saveContrat`, once their form is valid, return normally
whatever the outcome of the request; when the gateway call fails with `e` the banner carries
the message of `e` and the modals are as before. -/
theorem guarded_actions_surface_failure (h : Host) (s : State) (net : FetchResult) :
    (saveBC h s net).1 = .ok () ∧ (confirmImputer h s net).1 = .ok ()
      ∧ (saveContrat h s net).1 = .ok ()
      ∧ (∀ e, (s.selects "imputer-ligne").value ≠ "" →
          (apiFetch h s ("/bon_commande/" ++ s.currentBcId.toJsString h ++ "/imputer")
            ⟨some "POST", some [("ligne_id", .num (parseInt (s.selects "imputer-ligne").value))],
              none⟩ net).1 = .error e →
          (confirmImputer h s net).2.text "msg" = e.message h
            ∧ (confirmImputer h s net).2.isOpen = s.isOpen)
      ∧ (∀ e, s.value "edit-contrat-numero" ≠ "" → s.value "edit-contrat-objet" ≠ "" →
          (apiFetch h s ("/contrat/" ++ s.value "edit-contrat-id")
            ⟨some "PUT", some (saveContratBody s), none⟩ net).1 = .error e →
          (saveContrat h s net).2.text "msg" = e.message h
            ∧ (saveContrat h s net).2.isOpen = s.isOpen)
      ∧ (∀ e, s.value "edit-bc-numero" ≠ "" → s.value "edit-bc-objet" ≠ "" →
          (apiFetch h s ("/bon_commande/" ++ (parseInt (s.value "edit-bc-id")).toJsString h)
            ⟨some "PUT", some (saveBCBody s), none⟩ net).1 = .error e →
          (saveBC h s net).2.text "msg" = e.message h
            ∧ (saveBC h s net).2.isOpen = s.isOpen) := by
  refine ⟨?_, ?_, ?_, ?_, ?_, ?_⟩
  · unfold saveBC; simp only []; split
    · rfl
    · split <;> rfl
  · unfold confirmImputer; simp only []; split <;> rfl
  · unfold saveContrat; simp only []; split
    · rfl
    · split <;> rfl
  · intro e hsel hfail
    have hg := guardedResult_failure h _ e
      (fun _ s1 => spawn (spawn (closeModal (showMsg s1 "BC imputé sur la ligne budgétaire" true)
        "modal-imputer-bc") .loadBC) .initRefs) hfail
    have hf := (apiFetch_logs_request h s ("/bon_commande/" ++ s.currentBcId.toJsString h ++ "/imputer")
      ⟨some "POST", some [("ligne_id", .num (parseInt (s.selects "imputer-ligne").value))],
        none⟩ net).2.2.2.2.1
    simp only [confirmImputer, hsel, if_false]
    exact ⟨hg.1, by rw [hg.2.2.2.1, hf]⟩
  · intro e hnum hobj hfail
    have hg := guardedResult_failure h _ e
      (fun _ s1 => spawn (closeModal (showMsg s1 "Contrat mis à jour" true)
        "modal-edit-contrat") .loadContrats) hfail
    have hf := (apiFetch_logs_request h s ("/contrat/" ++ s.value "edit-contrat-id")
      ⟨some "PUT", some (saveContratBody s), none⟩ net).2.2.2.2.1
    have h1 : (Record.get (saveContratBody s) "numero_contrat").truthy = true := by
      simp [saveContratBody, Record.get, List.lookup, JVal.truthy, hnum]
    have h2 : (Record.get (saveContratBody s) "objet").truthy = true := by
      simp [saveContratBody, Record.get, List.lookup, JVal.truthy, hobj]
    simp only [saveContrat, h1, h2, Bool.not_true, Bool.false_eq_true, if_false]
    exact ⟨hg.1, by rw [hg.2.2.2.1, hf]⟩
  · intro e hnum hobj hfail
    have hg := guardedResult_failure h _ e
      (fun _ s1 => spawn (spawn (closeModal (showMsg s1 "BC mis à jour" true)
        "modal-edit-bc") .loadBC) .initRefs) hfail
    have hf := (apiFetch_logs_request h s
      ("/bon_commande/" ++ (parseInt (s.value "edit-bc-id")).toJsString h)
      ⟨some "PUT", some (saveBCBody s), none⟩ net).2.2.2.2.1
    have h1 : (Record.get (saveBCBody s) "numero_bc").truthy = true := by
      simp [saveBCBody, Record.get, List.lookup, JVal.truthy, hnum]
    have h2 : (Record.get (saveBCBody s) "objet").truthy = true := by
      simp [saveBCBody, Record.get, List.lookup, JVal.truthy, hobj]
    simp only [saveBC, h1, h2, Bool.not_true, Bool.false_eq_true, if_false]
    exact ⟨hg.1, by rw [hg.2.2.2.1, hf]⟩

/-! ### Error of binary64 rounding -/
/-- The loop of `bitLen`, with enough fuel, counts at least one digit of a positive number and
the power of two below that count is at most the number. -/
theorem bitLenAux_spec : ∀ (f m : Nat), m ≤ f → m ≠ 0 →
    1 ≤ bitLenAux f m ∧ 2 ^ (bitLenAux f m - 1) ≤ m := by
  intro f
  induction f with
  | zero => intro m hm hne; omega
  | succ f ih =>
    intro m hm hne
    simp only [bitLenAux, hne, if_false]
    refine ⟨by omega, ?_⟩
    by_cases h2 : m / 2 = 0
    · have : bitLenAux f (m / 2) = 0 := by
        rw [h2]; cases f <;> simp [bitLenAux]
      rw [this]; simp; omega
    · obtain ⟨h1, hp⟩ := ih (m / 2) (by omega) h2
      have : bitLenAux f (m / 2) + 1 - 1 = (bitLenAux f (m / 2) - 1) + 1 := by omega
      rw [this, pow_succ]
      omega

/-- A positive number is at least the power of two given by its digit count less one. -/
theorem bitLen_spec (n : Nat) (hn : n ≠ 0) : 1 ≤ bitLen n ∧ 2 ^ (bitLen n - 1) ≤ n :=
  bitLenAux_spec n n le_rfl hn
/-- The integer chosen by the rounding step is within half a divisor of the dividend. -/
theorem nearest_spec (a m : Nat) (hm : 0 < m) :
    |(((if 2 * (a % m) < m then a / m else if m < 2 * (a % m) then a / m + 1
          else if (a / m) % 2 = 0 then a / m else a / m + 1 : Nat) : ℚ)) * m - a| ≤ (m : ℚ) / 2 := by
  have hdiv : (a : ℚ) = (m : ℚ) * ((a / m : Nat) : ℚ) + ((a % m : Nat) : ℚ) := by
    have := Nat.div_add_mod a m
    exact_mod_cast this.symm
  have hr : ((a % m : Nat) : ℚ) < m := by exact_mod_cast Nat.mod_lt a hm
  have hr0 : (0 : ℚ) ≤ ((a % m : Nat) : ℚ) := by positivity
  rw [abs_le]
  split
  · next h1 =>
    have h1' : (2 : ℚ) * ((a % m : Nat) : ℚ) < m := by exact_mod_cast h1
    constructor <;> nlinarith
  · next h1 =>
    have h1' : (m : ℚ) ≤ 2 * ((a % m : Nat) : ℚ) := by exact_mod_cast Nat.le_of_not_lt h1
    split
    · push_cast; constructor <;> nlinarith
    · next h2 =>
      have h2' : (2 : ℚ) * ((a % m : Nat) : ℚ) ≤ m := by exact_mod_cast Nat.le_of_not_lt h2
      split
      · constructor <;> nlinarith
      · push_cast; constructor <;> nlinarith

/-- The overflow bound is `2 ^ 98` times the range bound. -/
theorem overflowBound_eq : ((overflowBound : Nat) : ℚ) = (rangeBound : ℚ) * 2 ^ 98 := by
  rw [overflowBound, rangeBound, Nat.cast_pow, Nat.cast_pow, Nat.cast_ofNat, ← pow_add]

/-- The range bound is at least one. -/
theorem one_le_rangeBound : (1 : ℚ) ≤ (rangeBound : ℚ) := by
  rw [rangeBound, Nat.cast_pow, Nat.cast_ofNat]; exact one_le_pow₀ (by norm_num)

/-- `JsNum.round` on a non-negative dividend, with its local definitions unfolded. -/
theorem round_eq (a d : Nat) :
    JsNum.round (a : Int) d
      = if overflowBound ≤
            (if 2 * (a % (d * 2 ^ (bitLen (a / d) - 53))) < d * 2 ^ (bitLen (a / d) - 53)
              then a / (d * 2 ^ (bitLen (a / d) - 53))
              else if d * 2 ^ (bitLen (a / d) - 53) < 2 * (a % (d * 2 ^ (bitLen (a / d) - 53)))
                then a / (d * 2 ^ (bitLen (a / d) - 53)) + 1
                else if (a / (d * 2 ^ (bitLen (a / d) - 53))) % 2 = 0
                  then a / (d * 2 ^ (bitLen (a / d) - 53))
                  else a / (d * 2 ^ (bitLen (a / d) - 53)) + 1) * 2 ^ (bitLen (a / d) - 53)
        then .inf false
        else .fin (((if 2 * (a % (d * 2 ^ (bitLen (a / d) - 53))) < d * 2 ^ (bitLen (a / d) - 53)
              then a / (d * 2 ^ (bitLen (a / d) - 53))
              else if d * 2 ^ (bitLen (a / d) - 53) < 2 * (a % (d * 2 ^ (bitLen (a / d) - 53)))
                then a / (d * 2 ^ (bitLen (a / d) - 53)) + 1
                else if (a / (d * 2 ^ (bitLen (a / d) - 53))) % 2 = 0
                  then a / (d * 2 ^ (bitLen (a / d) - 53))
                  else a / (d * 2 ^ (bitLen (a / d) - 53)) + 1) * 2 ^ (bitLen (a / d) - 53) : Nat) : Int) := by
  have hneg : ¬ ((a : Int) < 0) := by omega
  unfold JsNum.round
  simp only [Int.natAbs_ofNat, hneg, if_false, decide_False]

/-- Rounding a non-negative quotient below the overflow range gives a finite number within
one half plus the fraction `2 ^ (-53)` of the quotient (in units of the last subnormal place). -/
theorem round_spec (a d : Nat) (hd : 0 < d) (hX : (a : ℚ) / d ≤ rangeBound) :
    ∃ k : Nat, JsNum.round (a : Int) d = .fin (k : Int)
      ∧ |(k : ℚ) - (a : ℚ) / d| ≤ 1 / 2 + (a : ℚ) / d / 2 ^ 53 := by
  rw [round_eq]
  set s := bitLen (a / d) - 53 with hs
  set m := d * 2 ^ s with hmdef
  have hm : 0 < m := Nat.mul_pos hd (by positivity)
  set up : Nat := (if 2 * (a % m) < m then a / m else if m < 2 * (a % m) then a / m + 1
          else if (a / m) % 2 = 0 then a / m else a / m + 1) with hup
  have hnear := nearest_spec a m hm
  rw [← hup] at hnear
  have hdq : (0 : ℚ) < d := by exact_mod_cast hd
  have hmq : (m : ℚ) = d * 2 ^ s := by rw [hmdef]; push_cast; ring
  -- distance of the magnitude to the exact quotient
  have hdist : |((up * 2 ^ s : Nat) : ℚ) - (a : ℚ) / d| ≤ 2 ^ s / 2 := by
    have e1 : ((up * 2 ^ s : Nat) : ℚ) - (a : ℚ) / d = ((up : ℚ) * m - a) / d := by
      rw [hmq]; push_cast; field_simp; ring
    rw [e1, abs_div, abs_of_pos hdq, div_le_iff₀ hdq]
    calc |(up : ℚ) * m - a| ≤ (m : ℚ) / 2 := hnear
      _ = 2 ^ s / 2 * d := by rw [hmq]; ring
  -- half a unit of the last place is at most the relative bound
  have hulp : (2 : ℚ) ^ s / 2 ≤ 1 / 2 + (a : ℚ) / d / 2 ^ 53 := by
    have hX0 : (0 : ℚ) ≤ (a : ℚ) / d := div_nonneg (Nat.cast_nonneg _) (Nat.cast_nonneg _)
    have hX1 : (0 : ℚ) ≤ (a : ℚ) / d / 2 ^ 53 := div_nonneg hX0 (by norm_num)
    by_cases hs0 : s = 0
    · rw [hs0]; simp only [pow_zero]; linarith
    · have hq0 : a / d ≠ 0 := by
        intro h0
        apply hs0
        rw [hs, h0]
        simp [bitLen, bitLenAux]
      obtain ⟨-, hp⟩ := bitLen_spec (a / d) hq0
      have hexp : bitLen (a / d) - 1 = s + 52 := by omega
      rw [hexp] at hp
      have hp' : (2 : ℚ) ^ (s + 52) ≤ ((a / d : Nat) : ℚ) := by exact_mod_cast hp
      have hfl : ((a / d : Nat) : ℚ) ≤ (a : ℚ) / d := Nat.cast_div_le
      have hpow : (2 : ℚ) ^ (s + 52) = 2 ^ s / 2 * 2 ^ 53 := by rw [pow_add]; ring
      have h53 : (0 : ℚ) < 2 ^ 53 := by norm_num
      have : (2 : ℚ) ^ s / 2 ≤ (a : ℚ) / d / 2 ^ 53 := by
        rw [le_div_iff₀ h53]; linarith
      linarith
  have hfinal := hdist.trans hulp
  have hno : ¬ overflowBound ≤ up * 2 ^ s := by
    intro hov
    have hov' : ((overflowBound : Nat) : ℚ) ≤ ((up * 2 ^ s : Nat) : ℚ) := by exact_mod_cast hov
    have hb := (abs_le.mp hfinal).2
    have hX0 : (0 : ℚ) ≤ (a : ℚ) / d := div_nonneg (Nat.cast_nonneg _) (Nat.cast_nonneg _)
    have h53 : (a : ℚ) / d / 2 ^ 53 ≤ (a : ℚ) / d := div_le_self hX0 (by norm_num)
    have h98 : (4 : ℚ) ≤ 2 ^ 98 := by norm_num
    have h1 := one_le_rangeBound
    rw [overflowBound_eq] at hov'
    clear hov
    generalize (rangeBound : ℚ) = B at hX h1 hov'
    generalize ((up * 2 ^ s : Nat) : ℚ) = M at hb hov'
    generalize (a : ℚ) / d = X at hX hb hX0 h53
    nlinarith
  rw [if_neg hno]
  exact ⟨up * 2 ^ s, rfl, hfinal⟩
/-- Accumulated error of the four rounded operations of `ht * (1 + tva / 100) * 100`. -/
theorem chain_bound (H a t1 t2 t3 t4 η : ℚ) (hH : 0 ≤ H) (hH' : H ≤ 2 ^ 40)
    (ha : 0 ≤ a) (hη : 0 ≤ η) (hη' : η ≤ 1 / 2 ^ 200)
    (h1 : |t1 - a| ≤ η + a / 2 ^ 53)
    (h2 : |t2 - (1 + t1)| ≤ η + (1 + t1) / 2 ^ 53)
    (h3 : |t3 - H * t2| ≤ η + H * t2 / 2 ^ 53)
    (h4 : |t4 - t3 * 100| ≤ η + t3 * 100 / 2 ^ 53) :
    |t4 - H * (1 + a) * 100| ≤ (H * (1 + a) * 100 + 1) / 2 ^ 50 := by
  rw [abs_le] at h1 h2 h3 h4 ⊢
  obtain ⟨h1l, h1u⟩ := h1
  obtain ⟨h2l, h2u⟩ := h2
  obtain ⟨h3l, h3u⟩ := h3
  obtain ⟨h4l, h4u⟩ := h4
  -- bounds on t2 relative to 1 + a
  have hB : ∀ x : ℚ, x / 2 ^ 53 = x * (1 / 2 ^ 53) := fun x => by ring
  have hu : (1 : ℚ) / 2 ^ 53 = 1 / 9007199254740992 := by norm_num
  have h200 : (1 : ℚ) / 2 ^ 200 ≤ 1 / 2 ^ 100 := by
    apply one_div_le_one_div_of_le (by norm_num); exact pow_le_pow_right₀ (by norm_num) (by norm_num)
  have h100 : (1 : ℚ) / 2 ^ 100 = 1 / 1267650600228229401496703205376 := by norm_num
  have hη2 : η ≤ 1 / 1267650600228229401496703205376 := by linarith
  rw [hB] at h1l h1u h2l h2u h3l h3u h4l h4u
  rw [hu] at h1l h1u h2l h2u h3l h3u h4l h4u
  set Q := H * (1 + a) with hQ
  have hQ0 : 0 ≤ Q := mul_nonneg hH (by linarith)
  -- t2 = (1 + a) + e with |e| ≤ 3 η + 3 (1 + a) / 2^53
  have he_u : t2 - (1 + a) ≤ 3 * η + 3 * (1 + a) * (1 / 9007199254740992) := by linarith
  have he_l : -(3 * η + 3 * (1 + a) * (1 / 9007199254740992)) ≤ t2 - (1 + a) := by linarith
  have hP_u : H * t2 - Q ≤ 3 * (η * H) + 3 * Q * (1 / 9007199254740992) := by
    have := mul_le_mul_of_nonneg_left he_u hH
    rw [hQ]; linarith
  have hP_l : -(3 * (η * H) + 3 * Q * (1 / 9007199254740992)) ≤ H * t2 - Q := by
    have := mul_le_mul_of_nonneg_left he_l hH
    rw [hQ]; linarith
  have hηH : η * H ≤ η * 2 ^ 40 := mul_le_mul_of_nonneg_left hH' hη
  have hηH0 : 0 ≤ η * H := mul_nonneg hη hH
  have h40 : (2 : ℚ) ^ 40 = 1099511627776 := by norm_num
  rw [h40] at hηH
  have h50 : (H * (1 + a) * 100 + 1) / 2 ^ 50 = (Q * 100 + 1) * (1 / 1125899906842624) := by
    rw [hQ]; norm_num; ring
  rw [h50]
  have hgoal : H * (1 + a) * 100 = Q * 100 := by rw [hQ]
  rw [hgoal]
  constructor <;> linarith

/-- The number of units in one, as a rational. -/
theorem unit_cast : (unit : ℚ) = 2 ^ 1074 := by
  rw [unit, Nat.cast_pow, Nat.cast_ofNat]

/-- The range bound, as a rational. -/
theorem rangeBound_cast : (rangeBound : ℚ) = 2 ^ 2000 := by
  rw [rangeBound, Nat.cast_pow, Nat.cast_ofNat]

/-- One is a positive number of units. -/
theorem unit_pos : (0 : ℚ) < (unit : ℚ) := by
  rw [unit_cast]; exact pow_pos (by norm_num) _

/-- Values up to `2 ^ 100` are below the range bound. -/
theorem unit_range : (2 : ℚ) ^ 100 * (unit : ℚ) ≤ (rangeBound : ℚ) := by
  rw [unit_cast, rangeBound_cast, ← pow_add]
  exact pow_le_pow_right₀ (by norm_num) (by norm_num)

/-- Half a unit is at most `2 ^ (-200)`. -/
theorem unit_large : (1 : ℚ) / (2 * (unit : ℚ)) ≤ 1 / 2 ^ 200 := by
  apply one_div_le_one_div_of_le (by norm_num)
  have : (2 : ℚ) ^ 200 ≤ (unit : ℚ) := by
    rw [unit_cast]; exact pow_le_pow_right₀ (by norm_num) (by norm_num)
  have := unit_pos
  linarith

/-- Rounding a non-negative quotient whose value is `v` (in units of one) gives a finite
number within half a unit of the last place of `v`. -/
theorem round_val (n d : Nat) (hd : 0 < d) (v : ℚ) (hv : (n : ℚ) / d = v * (unit : ℚ))
    (hvb : v ≤ 2 ^ 100) :
    ∃ k : Nat, JsNum.round (n : Int) d = .fin (k : Int)
      ∧ |(k : ℚ) / (unit : ℚ) - v| ≤ 1 / (2 * (unit : ℚ)) + v / 2 ^ 53 := by
  have hU := unit_pos
  have hX : (n : ℚ) / d ≤ (rangeBound : ℚ) := by
    rw [hv]
    exact (mul_le_mul_of_nonneg_right hvb hU.le).trans unit_range
  obtain ⟨k, hk, hb⟩ := round_spec n d hd hX
  refine ⟨k, hk, ?_⟩
  rw [hv] at hb
  have e1 : (k : ℚ) / (unit : ℚ) - v = ((k : ℚ) - v * (unit : ℚ)) / (unit : ℚ) := by
    field_simp; ring
  rw [e1, abs_div, abs_of_pos hU, div_le_iff₀ hU]
  calc |(k : ℚ) - v * (unit : ℚ)| ≤ 1 / 2 + v * (unit : ℚ) / 2 ^ 53 := hb
    _ = (1 / (2 * (unit : ℚ)) + v / 2 ^ 53) * (unit : ℚ) := by field_simp; ring


/-- Scaling the dividend and the divisor by the same factor does not change the rounding. -/
theorem round_scale (a d c : Nat) (hc : 0 < c) :
    JsNum.round ((a * c : Nat) : Int) (d * c) = JsNum.round (a : Int) d := by
  rw [round_eq, round_eq]
  have h1 : a * c / (d * c) = a / d := Nat.mul_div_mul_right a d hc
  rw [h1]
  generalize bitLen (a / d) - 53 = s
  have hm : d * c * 2 ^ s = (d * 2 ^ s) * c := by ring
  rw [hm]
  generalize d * 2 ^ s = m
  have hq : a * c / (m * c) = a / m := Nat.mul_div_mul_right a m hc
  have hr : a * c % (m * c) = a % m * c := Nat.mul_mod_mul_right c a m
  rw [hq, hr]
  have c1 : 2 * (a % m * c) < m * c ↔ 2 * (a % m) < m := by
    rw [← Nat.mul_assoc]; exact Nat.mul_lt_mul_right hc
  have c2 : m * c < 2 * (a % m * c) ↔ m < 2 * (a % m) := by
    rw [← Nat.mul_assoc]; exact Nat.mul_lt_mul_right hc
  simp only [c1, c2]

/-- Flooring division after adding half the divisor rounds to the nearest integer, a tie
going up. -/
theorem floor_half (k U H : Nat) (hU : U = 2 * H) (hH : 0 < H) :
    (((k + H) / U : Nat) : ℚ) ≤ (k : ℚ) / (U : ℚ) + 1 / 2
      ∧ (k : ℚ) / (U : ℚ) + 1 / 2 < (((k + H) / U : Nat) : ℚ) + 1 := by
  have hUpos : 0 < U := by omega
  have hUq : (0 : ℚ) < (U : ℚ) := by exact_mod_cast hUpos
  have hHq : (H : ℚ) = (U : ℚ) / 2 := by
    have : (U : ℚ) = 2 * (H : ℚ) := by exact_mod_cast hU
    linarith
  have e : (k : ℚ) / (U : ℚ) + 1 / 2 = ((k : ℚ) + (U : ℚ) / 2) / (U : ℚ) := by
    have hhalf : (U : ℚ) / 2 / (U : ℚ) = 1 / 2 := by
      rw [div_div, mul_comm, ← div_div, div_self hUq.ne']
    rw [add_div, hhalf]
  rw [e]
  constructor
  · have h := @Nat.cast_div_le ℚ _ (k + H) U
    rw [Nat.cast_add, hHq] at h
    exact h
  · have hdm := Nat.div_add_mod (k + H) U
    have hmod := Nat.mod_lt (k + H) hUpos
    have h2 : k + H < ((k + H) / U + 1) * U := by nlinarith
    have h3 : ((k : ℚ) + (H : ℚ)) < ((((k + H) / U : Nat) : ℚ) + 1) * (U : ℚ) := by
      exact_mod_cast h2
    rw [div_lt_iff₀ hUq, ← hHq]
    exact h3

/-- One is an even number of units. -/
theorem unit_even : unit = 2 * (unit / 2) ∧ 0 < unit / 2 := by
  decide!

/-- `Math.round` of a finite non-negative number is the floor of the number plus one half. -/
theorem mathRound_nat (k : Nat) :
    ∃ N : Nat, JsNum.mathRound (.fin (k : Int)) = .fin ((N * unit : Nat) : Int)
      ∧ (N : ℚ) ≤ (k : ℚ) / (unit : ℚ) + 1 / 2
      ∧ (k : ℚ) / (unit : ℚ) + 1 / 2 < (N : ℚ) + 1 := by
  obtain ⟨he, hh⟩ := unit_even
  refine ⟨(k + unit / 2) / unit, ?_, floor_half k unit (unit / 2) he hh⟩
  simp only [JsNum.mathRound, Nat.cast_mul, Int.natCast_div, Nat.cast_add]

/-- Division of a finite non-negative number by one hundred, as a rounding. -/
theorem div_hundred (k : Nat) :
    JsNum.div (.fin (k : Int)) .hundred = JsNum.round (k : Int) 100 := by
  have hU : 0 < unit := by exact_mod_cast unit_pos
  have hne : ¬ ((100 : Int) * (unit : Int) = 0) := by
    have : (0 : Int) < (unit : Int) := by exact_mod_cast hU
    omega
  have hpos : ¬ ((100 : Int) * (unit : Int) < 0) := by
    have : (0 : Int) < (unit : Int) := by exact_mod_cast hU
    omega
  have hab : ((100 : Int) * (unit : Int)).natAbs = 100 * unit := by
    have : ((100 : Int) * (unit : Int)) = ((100 * unit : Nat) : Int) := by push_cast; rfl
    rw [this, Int.natAbs_ofNat]
  simp only [JsNum.div, JsNum.hundred, hne, hpos, if_false, hab]
  have : ((k : Int) * (unit : Int)) = ((k * unit : Nat) : Int) := by push_cast; rfl
  rw [this, round_scale k 100 unit hU]

/-- The amount computed by `ttcOf` from finite non-negative numbers is the number nearest to
`n / 100` for a whole number of cents `n` that differs from the exact amount in cents by at
most one half plus the rounding error of the four floating operations. -/
theorem ttcOf_spec (ht tva : Nat)
    (hht : (ht : ℚ) / (unit : ℚ) ≤ 2 ^ 40) (htva : (tva : ℚ) / (unit : ℚ) ≤ 2 ^ 20) :
    ∃ n : Nat, ttcOf (.fin (ht : Int)) (.fin (tva : Int)) = JsNum.ofRatio (n : Int) 100
      ∧ |(n : ℚ) - (ht : ℚ) / (unit : ℚ) * (1 + (tva : ℚ) / (unit : ℚ) / 100) * 100|
          ≤ 1 / 2
            + ((ht : ℚ) / (unit : ℚ) * (1 + (tva : ℚ) / (unit : ℚ) / 100) * 100 + 1) / 2 ^ 50 := by
  have hU := unit_pos
  have hUn : 0 < unit := by exact_mod_cast hU
  have hη := unit_large
  have hη0 : (0 : ℚ) ≤ 1 / (2 * (unit : ℚ)) :=
    div_nonneg (by norm_num) (by linarith)
  have hηs : (1 : ℚ) / 2 ^ 200 ≤ 1 := by
    rw [div_le_one (by norm_num)]; exact one_le_pow₀ (by norm_num)
  set η : ℚ := 1 / (2 * (unit : ℚ)) with hηdef
  set H : ℚ := (ht : ℚ) / (unit : ℚ) with hH
  set V : ℚ := (tva : ℚ) / (unit : ℚ) with hV
  have hH0 : 0 ≤ H := div_nonneg (Nat.cast_nonneg _) hU.le
  have hV0 : 0 ≤ V := div_nonneg (Nat.cast_nonneg _) hU.le
  have h53 : ∀ x : ℚ, x / 2 ^ 53 = x * (1 / 9007199254740992) := fun x => by norm_num; ring
  -- tva / 100
  obtain ⟨k1, hk1, hb1⟩ := round_val tva 100 (by norm_num) (V / 100)
    (by rw [hV]; field_simp; ring) (by linarith [show (2 : ℚ) ^ 20 ≤ 2 ^ 100 by norm_num])
  set t1 : ℚ := (k1 : ℚ) / (unit : ℚ) with ht1
  have ht10 : 0 ≤ t1 := div_nonneg (Nat.cast_nonneg _) hU.le
  have ht1u : t1 ≤ 2 ^ 21 := by
    have := (abs_le.mp hb1).2
    rw [h53] at this
    norm_num at htva ⊢
    linarith
  -- 1 + tva / 100
  have hadd : JsNum.add .one (.fin (k1 : Int)) = JsNum.round ((unit + k1 : Nat) : Int) 1 := by
    simp only [JsNum.add, JsNum.one]; push_cast; rfl
  obtain ⟨k2, hk2, hb2⟩ := round_val (unit + k1) 1 (by norm_num) (1 + t1)
    (by rw [ht1]; push_cast; field_simp)
    (by linarith [show (2 : ℚ) ^ 21 + 1 ≤ 2 ^ 100 by norm_num])
  set t2 : ℚ := (k2 : ℚ) / (unit : ℚ) with ht2
  have ht20 : 0 ≤ t2 := div_nonneg (Nat.cast_nonneg _) hU.le
  have ht2u : t2 ≤ 2 ^ 23 := by
    have := (abs_le.mp hb2).2
    rw [h53] at this
    norm_num at ht1u ⊢
    linarith
  -- ht * (1 + tva / 100)
  have hmul : JsNum.mul (.fin (ht : Int)) (.fin (k2 : Int))
      = JsNum.round ((ht * k2 : Nat) : Int) unit := by
    simp only [JsNum.mul]; push_cast; rfl
  have hHt2 : H * t2 ≤ 2 ^ 63 := by
    calc H * t2 ≤ 2 ^ 40 * 2 ^ 23 := mul_le_mul hht ht2u ht20 (by norm_num)
      _ = 2 ^ 63 := by norm_num
  obtain ⟨k3, hk3, hb3⟩ := round_val (ht * k2) unit hUn (H * t2)
    (by rw [hH, ht2]; push_cast; field_simp; ring)
    (by linarith [show (2 : ℚ) ^ 63 ≤ 2 ^ 100 by norm_num])
  set t3 : ℚ := (k3 : ℚ) / (unit : ℚ) with ht3
  have ht30 : 0 ≤ t3 := div_nonneg (Nat.cast_nonneg _) hU.le
  have hHt20 : 0 ≤ H * t2 := mul_nonneg hH0 ht20
  have ht3u : t3 ≤ 2 ^ 64 := by
    have := (abs_le.mp hb3).2
    rw [h53] at this
    norm_num at hHt2 ⊢
    linarith
  -- ... * 100
  have hmul2 : JsNum.mul (.fin (k3 : Int)) .hundred
      = JsNum.round ((k3 * (100 * unit) : Nat) : Int) unit := by
    simp only [JsNum.mul, JsNum.hundred]; push_cast; rfl
  obtain ⟨k4, hk4, hb4⟩ := round_val (k3 * (100 * unit)) unit hUn (t3 * 100)
    (by rw [ht3]; push_cast; field_simp; ring)
    (by
      have : (2 : ℚ) ^ 64 * 100 ≤ 2 ^ 100 := by norm_num
      linarith)
  set t4 : ℚ := (k4 : ℚ) / (unit : ℚ) with ht4
  -- accumulated error
  have hchain := chain_bound H (V / 100) t1 t2 t3 t4 η hH0 hht (div_nonneg hV0 (by norm_num))
    hη0 hη
    hb1 hb2 hb3 hb4
  -- Math.round and the final division
  obtain ⟨N, hN, hNl, hNu⟩ := mathRound_nat k4
  refine ⟨N, ?_, ?_⟩
  · simp only [ttcOf]
    rw [div_hundred tva, hk1, hadd, hk2, hmul, hk3, hmul2, hk4, hN, div_hundred (N * unit)]
    simp only [JsNum.ofRatio]
    push_cast
    rfl
  · rw [← ht4] at hNl hNu
    have hc := abs_le.mp hchain
    rw [abs_le]
    constructor <;> linarith [hc.1, hc.2]

/-! ### Gateway failures and labels -/

/-- On a status that is neither 2xx, 401 nor 403, `apiFetch` fails with `HTTP <status>` when
the body does not parse, with the text of the `error` property when the body is an object
whose `error` property is truthy, and with `HTTP <status>` when it is an object whose `error`
property is missing or falsy, or a falsy value. -/
theorem apiFetch_error_message (h : Host) (s : State) (path : String) (opts : FetchOpts)
    (status : Nat) (hok : statusOk status = false) (h401 : status ≠ 401) (h403 : status ≠ 403) :
    (∀ m, (apiFetch h s path opts (.response status (.invalid m))).1
        = .error (.error ("HTTP " ++ toString status)))
      ∧ (∀ err : Payload, (err.get "error").truthy = true →
          (apiFetch h s path opts (.response status (.obj err))).1
            = .error (.error ((err.get "error").toJsString h)))
      ∧ (∀ err : Payload, (err.get "error").truthy = false →
          (apiFetch h s path opts (.response status (.obj err))).1
            = .error (.error ("HTTP " ++ toString status)))
      ∧ (apiFetch h s path opts (.response status .null)).1 = .error .typeError
      ∧ (apiFetch h s path opts (.response status .falsy)).1
        = .error (.error ("HTTP " ++ toString status)) := by
  refine ⟨?_, ?_, ?_, ?_, ?_⟩
  · intro m
    simp [apiFetch, h401, h403, hok]
  · intro err herr
    simp [apiFetch, h401, h403, hok, JVal.or, herr]
  · intro err herr
    simp [apiFetch, h401, h403, hok, JVal.or, herr, JVal.toJsString]
  · simp [apiFetch, h401, h403, hok]
  · simp [apiFetch, h401, h403, hok]

/-- The argument `fmt` receives in `lLabel` is never one of the values it renders as `-`. -/
theorem fmt_or_zero (h : Host) (x : JVal) :
    fmt h (x.or (.num (.fin 0)))
      = h.toLocaleStringFr (if x.truthy then toNumber h x else .fin 0) 2 (some 2) := by
  unfold fmt JVal.or
  by_cases hx : x.truthy = true
  · have hne : ¬ (x = .null ∨ x = .undefined ∨ x = .str "") := by
      rintro (rfl | rfl | rfl) <;> simp [JVal.truthy] at hx
    simp [hx, hne]
  · simp [hx, toNumber]

/-! ### Tokens and session start -/

/-- A text without separator is its own single segment. -/
theorem jsSplit_of_not_mem (sep : Char) (a : List Char) (ha : sep ∉ a) :
    jsSplit sep a = [a] := by
  induction a with
  | nil => rfl
  | cons x xs ih =>
    have hx : x ≠ sep := fun he => ha (by rw [he]; exact List.mem_cons_self _ _)
    have hxs : sep ∉ xs := fun hm => ha (List.mem_cons_of_mem _ hm)
    simp [jsSplit, hx, ih hxs]

/-- The first segment ends at the first separator. -/
theorem jsSplit_append (sep : Char) (a rest : List Char) (ha : sep ∉ a) :
    jsSplit sep (a ++ sep :: rest) = a :: jsSplit sep rest := by
  induction a with
  | nil => simp [jsSplit]
  | cons x xs ih =>
    have hx : x ≠ sep := fun he => ha (by rw [he]; exact List.mem_cons_self _ _)
    have hxs : sep ∉ xs := fun hm => ha (List.mem_cons_of_mem _ hm)
    simp [jsSplit, hx, ih hxs]

/-- The second segment of `a.b.c` is `b`. -/
theorem jsSplit_second (a b c : List Char) (ha : '.' ∉ a) (hb : '.' ∉ b) :
    (jsSplit '.' (a ++ '.' :: (b ++ '.' :: c)))[1]? = some b := by
  rw [jsSplit_append _ a _ ha, jsSplit_append _ b _ hb]
  simp

/-- The claims `decodeToken` returns are a function of the second segment alone. -/
theorem decodeToken_of_segment (h : Host) (t : String) (seg : List Char)
    (hseg : (jsSplit '.' t.toList)[1]? = some seg) :
    decodeToken h t
      = match atob (replaceAll '_' '/' (replaceAll '-' '+' seg)) with
        | none => .null
        | some text =>
          match h.jsonParse (String.mk text) with
          | .invalid _ => .null
          | .null => .null
          | .falsy => .falsy
          | .obj p => .obj p := by
  unfold decodeToken decodeTokenBody
  rw [hseg]
  simp only []
  rcases atob (replaceAll '_' '/' (replaceAll '-' '+' seg)) with _ | text
  · rfl
  · simp only []
    rcases h.jsonParse (String.mk text) with m | _ | _ | p <;> rfl

/-- `applyRoleUI` leaves the storage, the login gate and the pending calls as they are. -/
theorem applyRoleUI_frame (h : Host) (s : State) (user : Payload) :
    (applyRoleUI h s user).storage = s.storage
      ∧ (applyRoleUI h s user).display "login-overlay" = s.display "login-overlay"
      ∧ (applyRoleUI h s user).spawned = s.spawned
      ∧ (applyRoleUI h s user).value = s.value := by
  unfold applyRoleUI setText
  by_cases hp : s.present "nav-admin" = true
  · simp [hp, upd]
  · simp [hp, upd]

/-! ### Purchase orders -/

/-- `apiFetch` is the logging of its request followed by the classification of the
response. -/
theorem apiFetch_eq_settle (h : Host) (s : State) (path : String) (opts : FetchOpts)
    (net : FetchResult) :
    apiFetch h s path opts net
      = settle h { s with requests := s.requests ++ [requestOf s path opts] } net := by
  cases net <;> rfl

/-- A 2xx response with an object body is classified as a success and changes nothing. -/
theorem settle_ok (h : Host) (s : State) (status : Nat) (p : Payload)
    (hok : statusOk status = true) :
    settle h s (.response status (.obj p)) = (.ok (.obj p), s) := by
  have hne := statusOk_ne status hok
  simp [settle, hne.1, hne.2, hok]

/-! ### Validation, dialogs and rows -/

/-- `showMsg` with a failure message is a message-only step. -/
theorem showMsg_messageOnly (s : State) (msg : String) (ok : Bool) :
    MessageOnly s (showMsg s msg ok) msg := by
  refine ⟨rfl, rfl, rfl, rfl, rfl, rfl, rfl, rfl, rfl, rfl, rfl, rfl, ?_, ?_⟩ <;>
    simp [showMsg, upd]

/-- A text that starts with a non-empty text is not empty. -/
theorem append_ne_empty (a b : String) (ha : a ≠ "") : a ++ b ≠ "" := by
  intro he
  have hl := congrArg String.length he
  rw [String.length_append] at hl
  have ha0 : a.length ≠ 0 := fun h0 =>
    ha (String.ext (List.length_eq_zero.mp (show a.data.length = 0 from h0)))
  have : ("" : String).length = 0 := rfl
  omega

/-- When the VAT field parses to a number that is neither zero nor NaN, `saveBC` and
`updateTtcPreview` compute the same TTC. -/
theorem saveBC_ttc_eq_preview (s : State)
    (htva : (parseFloat (s.value "edit-bc-tva")).truthy = true) :
    Record.get (saveBCBody s) "montant_ttc" = .num (previewTtc s) := by
  simp [saveBCBody, previewTtc, Record.get, List.lookup, JsNum.or, htva]

/-! ### List views -/

/-- On a 2xx response with an object body `loadContrats` logs its request, replaces the
contract cache by the list of the response and renders the cache. -/
theorem loadContrats_ok (h : Host) (s : State) (status : Nat) (d : Payload)
    (hok : statusOk status = true) :
    loadContrats h s (.response status (.obj d))
      = setText
          { s with
            requests := s.requests ++ [requestOf s "/contrat" noOpts]
            cache := { s.cache with contrats := d.listOr "list" } }
          "contrats-tbody" (String.join ((d.listOr "list").map (contratRow h))) := by
  simp only [loadContrats, apiFetch_ok h s _ _ status d hok]

/-- On a 2xx response with an object body `loadProjets` logs its request, replaces the
project cache by the list of the response and renders the cache. -/
theorem loadProjets_ok (h : Host) (s : State) (status : Nat) (d : Payload)
    (hok : statusOk status = true) :
    loadProjets h s (.response status (.obj d))
      = setText
          { s with
            requests := s.requests ++ [requestOf s "/projet" noOpts]
            cache := { s.cache with projets := d.listOr "list" } }
          "projets-tbody" (String.join ((d.listOr "list").map (projetRow h))) := by
  simp only [loadProjets, apiFetch_ok h s _ _ status d hok]

/-- On a 2xx response with an object body `loadFournisseurs` logs its request, replaces the
supplier cache by the list of the response and renders the cache. -/
theorem loadFournisseurs_ok (h : Host) (s : State) (status : Nat) (d : Payload)
    (hok : statusOk status = true) :
    loadFournisseurs h s (.response status (.obj d))
      = setText
          { s with
            requests := s.requests ++ [requestOf s "/fournisseur" noOpts]
            cache := { s.cache with fournisseurs := d.listOr "list" } }
          "fournisseurs-tbody" (String.join ((d.listOr "list").map (fournisseurRow h))) := by
  simp only [loadFournisseurs, apiFetch_ok h s _ _ status d hok]

/-- On a 2xx response with an object body `loadContacts` logs its request, replaces the
contact cache by the list of the response and renders the cache. -/
theorem loadContacts_ok (h : Host) (s : State) (status : Nat) (d : Payload)
    (hok : statusOk status = true) :
    loadContacts h s (.response status (.obj d))
      = setText
          { s with
            requests := s.requests
              ++ [requestOf s ("/contact?" ++ urlSearchParams (contactParams s)) noOpts]
            cache := { s.cache with contacts := d.listOr "list" } }
          "contacts-tbody" (String.join ((d.listOr "list").map (contactRow h))) := by
  simp only [loadContacts, apiFetch_ok h s _ _ status d hok]

/-- On a 2xx response with an object body `loadTaches` logs its request, replaces the task
cache by the list of the response and renders the tasks that pass the filters. -/
theorem loadTaches_ok (h : Host) (s : State) (status : Nat) (d : Payload)
    (hok : statusOk status = true) :
    loadTaches h s (.response status (.obj d))
      = setText
          { s with
            requests := s.requests ++ [requestOf s "/tache" noOpts]
            cache := { s.cache with taches := d.listOr "list" } }
          "taches-tbody"
          (String.join ((filteredTaches h
            (if s.present "tache-filter-projet" then some (s.selects "tache-filter-projet").value
              else none)
            (optionalValue s "tache-filter-statut") (d.listOr "list")).map (tacheRow h))) := by
  simp only [loadTaches, apiFetch_ok h s _ _ status d hok]

/-- An edit of a record found in its cache fills the form from that record, opens the modal
and issues no request. -/
theorem edit_served_from_cache (h : Host) (s : State) (id : JVal) (rec : Record) :
    (findById s.cache.contrats id = some rec →
        (editContrat h s id).1 = .ok () ∧ (editContrat h s id).2.requests = s.requests
          ∧ (editContrat h s id).2.isOpen "modal-edit-contrat" = true
          ∧ (editContrat h s id).2.value "edit-contrat-id" = inputValueOf h (Record.get rec "id"))
      ∧ (findById s.cache.projets id = some rec →
        (editProjet h s id).1 = .ok () ∧ (editProjet h s id).2.requests = s.requests
          ∧ (editProjet h s id).2.isOpen "modal-edit-projet" = true
          ∧ (editProjet h s id).2.value "edit-projet-id" = inputValueOf h (Record.get rec "id"))
      ∧ (findById s.cache.fournisseurs id = some rec →
        (editFournisseur h s id).1 = .ok () ∧ (editFournisseur h s id).2.requests = s.requests
          ∧ (editFournisseur h s id).2.isOpen "modal-edit-fournisseur" = true
          ∧ (editFournisseur h s id).2.value "edit-fournisseur-id"
              = inputValueOf h (Record.get rec "id"))
      ∧ (findById s.cache.contacts id = some rec →
        (editContact h s id).1 = .ok () ∧ (editContact h s id).2.requests = s.requests
          ∧ (editContact h s id).2.isOpen "modal-edit-contact" = true
          ∧ (editContact h s id).2.value "edit-contact-id"
              = inputValueOf h (Record.get rec "id")) := by
  refine ⟨?_, ?_, ?_, ?_⟩
  · intro hf
    simp [editContrat, hf, setValue, setSelect, openModal, upd]
  · intro hf
    simp [editProjet, hf, setValue, setSelect, openModal, upd, projetTextFields]
  · intro hf
    simp [editFournisseur, hf, setValue, openModal, upd]
  · intro hf
    simp [editContact, hf, setValue, openModal, upd]

/-- The tasks `loadTaches` renders are the tasks of the list that pass every filter that is
set, in the order of the list. -/
theorem filteredTaches_eq_filter (h : Host) (projetId statut : Option String)
    (list : List Record) :
    filteredTaches h projetId statut list = list.filter (passesFilters h projetId statut) := by
  have hstrict : ∀ (v : JVal) (x : String), v.strictEq (.str x) = decide (v = .str x) := by
    intro v x
    cases v <;> simp [JVal.strictEq]
    rw [Bool.eq_iff_iff]
    simp
  show filteredTaches h projetId statut list
    = list.filter (fun t => passesFilters h projetId statut t)
  rcases projetId with _ | p <;> rcases statut with _ | st
  · simp [filteredTaches, passesFilters]
  · by_cases hst : st = ""
    · simp [filteredTaches, passesFilters, hst]
    · have hsb : (st == "") = false := by simpa using hst
      simp [filteredTaches, passesFilters, hst, hsb, hstrict]
  · by_cases hp : p = ""
    · simp [filteredTaches, passesFilters, hp]
    · have hpb : (p == "") = false := by simpa using hp
      simp [filteredTaches, passesFilters, hp, hpb]
  · by_cases hp : p = "" <;> by_cases hst : st = ""
    · simp [filteredTaches, passesFilters, hp, hst]
    · have hsb : (st == "") = false := by simpa using hst
      simp [filteredTaches, passesFilters, hp, hst, hsb, hstrict]
    · have hpb : (p == "") = false := by simpa using hp
      simp [filteredTaches, passesFilters, hp, hst, hpb]
    · have hpb : (p == "") = false := by simpa using hp
      have hsb : (st == "") = false := by simpa using hst
      simp [filteredTaches, passesFilters, hp, hst, hpb, hsb, hstrict, List.filter_filter,
        Bool.and_comm]

/-- Filling the task form issues no request. -/
theorem editTacheFill_requests (h : Host) (s : State) (data : Record) :
    (editTacheFill h s data).2.requests = s.requests := by
  unfold editTacheFill
  simp only []
  split <;> rfl

/-! ### Percentages -/

/-- Rounding a non-negative quotient gives plus Infinity or a non-negative finite number. -/
theorem round_nat_cases (a d : Nat) :
    JsNum.round (a : Int) d = .inf false
      ∨ ∃ k : Nat, JsNum.round (a : Int) d = .fin (k : Int) := by
  rw [round_eq]
  set s := bitLen (a / d) - 53
  set m := d * 2 ^ s
  set up : Nat := (if 2 * (a % m) < m then a / m else if m < 2 * (a % m) then a / m + 1
          else if (a / m) % 2 = 0 then a / m else a / m + 1)
  by_cases hc : overflowBound ≤ up * 2 ^ s
  · rw [if_pos hc]
    exact Or.inl rfl
  · rw [if_neg hc]
    exact Or.inr ⟨_, rfl⟩

/-- Division of a finite non-negative number by a finite positive number, as a rounding. -/
theorem div_nat (v m : Nat) (hm : 0 < m) :
    JsNum.div (.fin (v : Int)) (.fin (m : Int)) = JsNum.round ((v * unit : Nat) : Int) m := by
  have hne : ¬ ((m : Int) = 0) := by omega
  have hpos : ¬ ((m : Int) < 0) := by omega
  have : ((v : Int) * (unit : Int)) = ((v * unit : Nat) : Int) := by push_cast; rfl
  simp only [JsNum.div, hne, hpos, if_false, Int.natAbs_ofNat, this]

/-- Multiplication of a finite non-negative number by one hundred, as a rounding. -/
theorem mul_hundred_nat (k : Nat) :
    JsNum.mul (.fin (k : Int)) .hundred = JsNum.round ((k * 100 : Nat) : Int) 1 := by
  have hU : 0 < unit := by exact_mod_cast unit_pos
  have h1 : ((k : Int) * (100 * (unit : Int))) = ((k * 100 * unit : Nat) : Int) := by
    rw [Nat.cast_mul, Nat.cast_mul, mul_assoc]
    rfl
  have e : 1 * unit = unit := Nat.one_mul unit
  calc JsNum.mul (.fin (k : Int)) .hundred
      = JsNum.round ((k * 100 * unit : Nat) : Int) unit := by
        simp only [JsNum.mul, JsNum.hundred, h1]
    _ = JsNum.round ((k * 100 * unit : Nat) : Int) (1 * unit) := by rw [e]
    _ = JsNum.round ((k * 100 : Nat) : Int) 1 := round_scale (k * 100) 1 unit hU

/-- The rounded percentage before it is capped: plus Infinity or a whole number. -/
theorem pct_range (v m : Nat) (hm : 0 < m) :
    (((JsNum.fin (v : Int)).div (.fin (m : Int))).mul .hundred).mathRound = .inf false
      ∨ ∃ R : Nat, (((JsNum.fin (v : Int)).div (.fin (m : Int))).mul .hundred).mathRound
          = .fin ((R * unit : Nat) : Int) := by
  have hU : 0 < unit := by exact_mod_cast unit_pos
  have hne : ¬ ((100 : Int) * (unit : Int) = 0) := by
    have : (0 : Int) < (unit : Int) := by exact_mod_cast hU
    omega
  have hpos : ¬ ((100 : Int) * (unit : Int) < 0) := by
    have : (0 : Int) < (unit : Int) := by exact_mod_cast hU
    omega
  have hinf : ((JsNum.inf false).mul .hundred).mathRound = .inf false := by
    simp [JsNum.mul, JsNum.hundred, hne, hpos, JsNum.mathRound]
  rw [div_nat v m hm]
  rcases round_nat_cases (v * unit) m with h1 | ⟨k, h1⟩
  · rw [h1]
    exact Or.inl hinf
  · rw [h1, mul_hundred_nat]
    rcases round_nat_cases (k * 100) 1 with h2 | ⟨k2, h2⟩
    · rw [h2]
      exact Or.inl rfl
    · rw [h2]
      obtain ⟨N, hN, _⟩ := mathRound_nat k2
      exact Or.inr ⟨N, hN⟩

/-- Under a bound on the quotient, the rounded percentage is a whole number within one half,
plus the rounding error of the two floating operations, of the exact percentage. -/
theorem pct_accurate (v m : Nat) (hm : 0 < m) (hb : (v : ℚ) / (m : ℚ) ≤ 2 ^ 40) :
    ∃ R : Nat, (((JsNum.fin (v : Int)).div (.fin (m : Int))).mul .hundred).mathRound
        = .fin ((R * unit : Nat) : Int)
      ∧ |(R : ℚ) - 100 * (v : ℚ) / (m : ℚ)|
          ≤ 1 / 2 + (100 * (v : ℚ) / (m : ℚ) + 1) / 2 ^ 50 := by
  have hU := unit_pos
  have hη := unit_large
  have hmq : (0 : ℚ) < (m : ℚ) := by exact_mod_cast hm
  have hη0 : (0 : ℚ) ≤ 1 / (2 * (unit : ℚ)) := div_nonneg (by norm_num) (by linarith)
  set η : ℚ := 1 / (2 * (unit : ℚ)) with hηdef
  set X : ℚ := (v : ℚ) / (m : ℚ) with hX
  have hX0 : 0 ≤ X := div_nonneg (Nat.cast_nonneg _) hmq.le
  have h53 : ∀ x : ℚ, x / 2 ^ 53 = x * (1 / 9007199254740992) := fun x => by norm_num; ring
  have hη1 : η ≤ 1 / 1606938044258990275541962092341162602522202993782792835301376 := by
    have : (2 : ℚ) ^ 200 = 1606938044258990275541962092341162602522202993782792835301376 := by
      norm_num
    rw [← this]; exact hη
  -- val / max
  obtain ⟨k1, hk1, hb1⟩ := round_val (v * unit) m hm X
    (by rw [Nat.cast_mul, hX]; field_simp)
    (by linarith [show (2 : ℚ) ^ 40 ≤ 2 ^ 100 by norm_num])
  set t1 : ℚ := (k1 : ℚ) / (unit : ℚ) with ht1
  have ht10 : 0 ≤ t1 := div_nonneg (Nat.cast_nonneg _) hU.le
  rw [h53] at hb1
  have hb1' := abs_le.mp hb1
  have h40 : (2 : ℚ) ^ 40 = 1099511627776 := by norm_num
  rw [h40] at hb
  -- ... * 100
  obtain ⟨k2, hk2, hb2⟩ := round_val (k1 * 100) 1 (by norm_num) (100 * t1)
    (by rw [Nat.cast_mul, ht1]; field_simp; ring)
    (by
      have : (2 : ℚ) ^ 100 = 1267650600228229401496703205376 := by norm_num
      rw [this]; linarith)
  set t2 : ℚ := (k2 : ℚ) / (unit : ℚ) with ht2
  rw [h53] at hb2
  have hb2' := abs_le.mp hb2
  -- Math.round
  obtain ⟨R, hR, hlo, hhi⟩ := mathRound_nat k2
  refine ⟨R, ?_, ?_⟩
  · rw [div_nat v m hm, hk1, mul_hundred_nat, hk2, hR]
  · have e : 100 * (v : ℚ) / (m : ℚ) = 100 * X := by rw [hX]; ring
    have h50 : ∀ x : ℚ, x / 2 ^ 50 = x * (1 / 1125899906842624) := fun x => by norm_num; ring
    rw [e, h50]
    rw [abs_le]
    constructor <;> linarith [hb1'.1, hb1'.2, hb2'.1, hb2'.2]

/-- Capping a whole number at one hundred. -/
theorem min_hundred (R : Nat) :
    JsNum.min (.fin ((R * unit : Nat) : Int)) .hundred = .fin ((min R 100 * unit : Nat) : Int)
      ∧ JsNum.min (.inf false) .hundred = .fin ((100 * unit : Nat) : Int) := by
  have hU : 0 < unit := by exact_mod_cast unit_pos
  have hh : JsNum.hundred = .fin ((100 * unit : Nat) : Int) := by
    rw [Nat.cast_mul]; rfl
  constructor
  · by_cases hR : 100 < R
    · have hlt : ((100 * unit : Nat) : Int) < ((R * unit : Nat) : Int) := by
        exact_mod_cast Nat.mul_lt_mul_of_pos_right hR hU
      have hmin : min R 100 = 100 := by omega
      rw [hh, hmin]
      simp only [JsNum.min, JsNum.gt, hlt, decide_True, if_true]
    · have hlt : ¬ ((100 * unit : Nat) : Int) < ((R * unit : Nat) : Int) := by
        have : R * unit ≤ 100 * unit := Nat.mul_le_mul_right unit (by omega)
        intro hc
        have hc2 : 100 * unit < R * unit := by exact_mod_cast hc
        omega
      have hmin : min R 100 = R := by omega
      rw [hh, hmin]
      simp only [JsNum.min, JsNum.gt, hlt, decide_False, if_false]
      simp
  · rw [hh]
    rfl

/-- The class of a whole percentage: `alert` from 80, `warning` from 60 to 79. -/
theorem pctClass_nat (N : Nat) :
    pctClass (.fin ((N * unit : Nat) : Int))
      = if 80 ≤ N then "alert" else if 60 ≤ N then "warning" else "" := by
  have hU : 0 < unit := by exact_mod_cast unit_pos
  have key : ∀ c : Nat, (((c : Int) * (unit : Int)) ≤ ((N * unit : Nat) : Int)) ↔ c ≤ N := by
    intro c
    have e : ((c : Int) * (unit : Int)) = ((c * unit : Nat) : Int) := by rw [Nat.cast_mul]
    rw [e, Int.ofNat_le]
    exact ⟨fun hle => Nat.le_of_mul_le_mul_right hle hU, fun hle => Nat.mul_le_mul_right unit hle⟩
  have k80 := key 80
  have k60 := key 60
  simp only [Nat.cast_ofNat] at k80 k60
  unfold pctClass
  simp only [JsNum.ge, k80, k60]
  by_cases h80 : 80 ≤ N
  · simp [h80]
  · by_cases h60 : 60 ≤ N
    · simp [h80, h60]
    · simp [h80, h60]

/-- The text of a whole number below `2 ^ 53` is its decimal writing. -/
theorem toJsString_nat (h : Host) (N : Nat) (hN : N < 2 ^ 53) :
    JsNum.toJsString h (.fin ((N * unit : Nat) : Int)) = toString N := by
  have hU : 0 < unit := by exact_mod_cast unit_pos
  have hUi : ((unit : Nat) : Int) ≠ 0 := by
    have : (0 : Int) < (unit : Int) := by exact_mod_cast hU
    omega
  have e : ((N * unit : Nat) : Int) = (N : Int) * (unit : Int) := by rw [Nat.cast_mul]
  have hmod : ((N : Int) * (unit : Int)) % (unit : Int) = 0 := Int.mul_emod_left _ _
  have hdiv : ((N : Int) * (unit : Int)) / (unit : Int) = (N : Int) :=
    Int.mul_ediv_cancel _ hUi
  unfold JsNum.toJsString
  rw [e]
  simp only [hmod, hdiv, Int.natAbs_ofNat, hN, and_self, if_true]
  rfl

/-! ### The VAT rate of the edit form -/

/-- The number written `n / d`, for a non-negative quotient at most `2 ^ 100`, is finite and
within the rounding error of `n / d`. -/
theorem ofRatio_val (n d : Nat) (hd : 0 < d) (hb : (n : ℚ) / (d : ℚ) ≤ 2 ^ 100) :
    ∃ k : Nat, JsNum.ofRatio (n : Int) d = .fin (k : Int)
      ∧ |(k : ℚ) / (unit : ℚ) - (n : ℚ) / (d : ℚ)|
          ≤ 1 / (2 * (unit : ℚ)) + (n : ℚ) / (d : ℚ) / 2 ^ 53 := by
  have hU := unit_pos
  have hdq : (0 : ℚ) < (d : ℚ) := by exact_mod_cast hd
  obtain ⟨k, hk, hkb⟩ := round_val (n * unit) d hd ((n : ℚ) / (d : ℚ))
    (by rw [Nat.cast_mul]; field_simp) hb
  refine ⟨k, ?_, hkb⟩
  unfold JsNum.ofRatio
  rw [← hk, Nat.cast_mul]

/-- Subtracting one from a finite number that is at least one, as a rounding. -/
theorem sub_one_nat (q : Nat) (hq : unit ≤ q) :
    (JsNum.fin (q : Int)).sub .one = JsNum.round ((q - unit : Nat) : Int) 1 := by
  have e : (q : Int) + -(unit : Int) = ((q - unit : Nat) : Int) := by
    rw [Int.ofNat_sub hq]; rfl
  simp only [JsNum.sub, JsNum.one, JsNum.neg, JsNum.add, e]

/-- Multiplication of a finite non-negative number by one thousand, as a rounding. -/
theorem mul_thousand_nat (k : Nat) :
    JsNum.mul (.fin (k : Int)) .thousand = JsNum.round ((k * 1000 : Nat) : Int) 1 := by
  have hU : 0 < unit := by exact_mod_cast unit_pos
  have h1 : ((k : Int) * (1000 * (unit : Int))) = ((k * 1000 * unit : Nat) : Int) := by
    rw [Nat.cast_mul, Nat.cast_mul, mul_assoc]
    rfl
  have e : 1 * unit = unit := Nat.one_mul unit
  calc JsNum.mul (.fin (k : Int)) .thousand
      = JsNum.round ((k * 1000 * unit : Nat) : Int) unit := by
        simp only [JsNum.mul, JsNum.thousand, h1]
    _ = JsNum.round ((k * 1000 * unit : Nat) : Int) (1 * unit) := by rw [e]
    _ = JsNum.round ((k * 1000 : Nat) : Int) 1 := round_scale (k * 1000) 1 unit hU

/-- Division of a whole number by ten gives the number written with one decimal. -/
theorem div_ten_nat (R : Nat) :
    JsNum.div (.fin ((R * unit : Nat) : Int)) .ten = JsNum.ofRatio (R : Int) 10 := by
  have hU : 0 < unit := by exact_mod_cast unit_pos
  have hne : ¬ ((10 : Int) * (unit : Int) = 0) := by
    have : (0 : Int) < (unit : Int) := by exact_mod_cast hU
    omega
  have hpos : ¬ ((10 : Int) * (unit : Int) < 0) := by
    have : (0 : Int) < (unit : Int) := by exact_mod_cast hU
    omega
  have hab : ((10 : Int) * (unit : Int)).natAbs = 10 * unit := by
    have : ((10 : Int) * (unit : Int)) = ((10 * unit : Nat) : Int) := by
      rw [Nat.cast_mul]; rfl
    rw [this, Int.natAbs_ofNat]
  have h1 : (((R * unit : Nat) : Int) * (unit : Int)) = ((R * unit * unit : Nat) : Int) := by
    rw [Nat.cast_mul (R * unit) unit]
  simp only [JsNum.div, JsNum.ten, hne, hpos, if_false, hab, h1]
  rw [round_scale (R * unit) 10 unit hU]
  unfold JsNum.ofRatio
  rw [Nat.cast_mul]

/-- The quotient `ttc / ht` that `editBC` forms from an HT of at least 10.01 and from the TTC
computed with a VAT rate of `m / 10` percent (at most 100) is finite and within 0.0004998 of
`1 + m / 1000`. -/
theorem quotient_bound (hN m : Nat)
    (hlo : (1001 : ℚ) / 100 ≤ (hN : ℚ) / (unit : ℚ)) (hhi : (hN : ℚ) / (unit : ℚ) ≤ 2 ^ 40)
    (hm2 : m ≤ 1000) :
    0 < hN ∧ ∃ qN : Nat,
      (ttcOf (.fin (hN : Int)) (JsNum.ofRatio (m : Int) 10)).div (.fin (hN : Int))
          = .fin (qN : Int)
        ∧ |(qN : ℚ) / (unit : ℚ) - (1 + (m : ℚ) / 1000)| ≤ 4998 / 10000000 := by
  have hU := unit_pos
  have hη := unit_large
  have hη0 : (0 : ℚ) ≤ 1 / (2 * (unit : ℚ)) := div_nonneg (by norm_num) (by linarith)
  set η : ℚ := 1 / (2 * (unit : ℚ)) with hηdef
  have hη1 : η ≤ 1 / 1606938044258990275541962092341162602522202993782792835301376 := by
    have : (2 : ℚ) ^ 200 = 1606938044258990275541962092341162602522202993782792835301376 := by
      norm_num
    rw [← this]; exact hη
  have h53 : ∀ x : ℚ, x / 2 ^ 53 = x * (1 / 9007199254740992) := fun x => by norm_num; ring
  have h50 : ∀ x : ℚ, x / 2 ^ 50 = x * (1 / 1125899906842624) := fun x => by norm_num; ring
  have h40 : (2 : ℚ) ^ 40 = 1099511627776 := by norm_num
  have h100 : (2 : ℚ) ^ 100 = 1267650600228229401496703205376 := by norm_num
  have h20 : (2 : ℚ) ^ 20 = 1048576 := by norm_num
  set H : ℚ := (hN : ℚ) / (unit : ℚ) with hH
  have hHpos : 0 < H := by linarith
  have hm0q : (0 : ℚ) ≤ (m : ℚ) := Nat.cast_nonneg _
  have hm2q : (m : ℚ) ≤ 1000 := by exact_mod_cast hm2
  have hhNq : (0 : ℚ) < (hN : ℚ) := by
    rcases div_pos_iff.mp hHpos with ⟨h1, _⟩ | ⟨_, h2⟩
    · exact h1
    · linarith
  have hhNpos : 0 < hN := by exact_mod_cast hhNq
  refine ⟨hhNpos, ?_⟩
  -- the VAT rate
  obtain ⟨vN, hv, hvb⟩ := ofRatio_val m 10 (by norm_num)
    (by rw [h100]; push_cast; linarith)
  set V : ℚ := (vN : ℚ) / (unit : ℚ) with hV
  have hV0 : 0 ≤ V := div_nonneg (Nat.cast_nonneg _) hU.le
  rw [h53] at hvb
  have hvb' := abs_le.mp hvb
  push_cast at hvb'
  have hV1 : V ≤ 101 := by linarith [hvb'.2]
  -- the TTC
  obtain ⟨n, hn, hnb⟩ := ttcOf_spec hN vN hhi (by rw [h20]; linarith)
  rw [← hH, ← hV, h50] at hnb
  have hnb' := abs_le.mp hnb
  set W : ℚ := H * V with hW
  have hW0 : 0 ≤ W := mul_nonneg hHpos.le hV0
  have hW1 : W ≤ 101 * H := by
    have := mul_le_mul_of_nonneg_left hV1 hHpos.le
    rw [hW]; linarith
  have hE : H * (1 + V / 100) * 100 = 100 * H + W := by rw [hW]; ring
  rw [hE] at hnb'
  rw [h40] at hhi
  obtain ⟨tN, ht, htb⟩ := ofRatio_val n 100 (by norm_num)
    (by rw [h100]; push_cast; linarith [hnb'.2])
  set T : ℚ := (tN : ℚ) / (unit : ℚ) with hT
  rw [h53] at htb
  have htb' := abs_le.mp htb
  push_cast at htb'
  -- ttc / ht
  set Y : ℚ := T / H with hY
  have hYlo : 1 + V / 100 - 4996 / 10000000 ≤ Y := by
    rw [hY, le_div_iff₀ hHpos]
    have e : (1 + V / 100 - 4996 / 10000000) * H = H + W / 100 - 4996 / 10000000 * H := by
      rw [hW]; ring
    rw [e]
    linarith [hnb'.1, htb'.1]
  have hYhi : Y ≤ 1 + V / 100 + 4996 / 10000000 := by
    rw [hY, div_le_iff₀ hHpos]
    have e : (1 + V / 100 + 4996 / 10000000) * H = H + W / 100 + 4996 / 10000000 * H := by
      rw [hW]; ring
    rw [e]
    linarith [hnb'.2, htb'.2]
  obtain ⟨qN, hq, hqb⟩ := round_val (tN * unit) hN hhNpos Y
    (by
      rw [Nat.cast_mul, hY, hT, hH]
      field_simp)
    (by rw [h100]; linarith)
  rw [h53] at hqb
  have hqb' := abs_le.mp hqb
  refine ⟨qN, ?_, ?_⟩
  · rw [hv, hn, ht, div_nat tN hN hhNpos, hq]
  · rw [abs_le]
    constructor
    · linarith [hqb'.1, hvb'.1]
    · linarith [hqb'.2, hvb'.2]

/-- The number written `m / 10` is neither zero nor NaN when `1 ≤ m ≤ 1000`. -/
theorem ofRatio_tenth_truthy (m : Nat) (hm1 : 1 ≤ m) (hm2 : m ≤ 1000) :
    (JsNum.ofRatio (m : Int) 10).truthy = true := by
  have hU := unit_pos
  have hη := unit_large
  have h100 : (2 : ℚ) ^ 100 = 1267650600228229401496703205376 := by norm_num
  have h53 : ∀ x : ℚ, x / 2 ^ 53 = x * (1 / 9007199254740992) := fun x => by norm_num; ring
  have hm1q : (1 : ℚ) ≤ (m : ℚ) := by exact_mod_cast hm1
  have hm2q : (m : ℚ) ≤ 1000 := by exact_mod_cast hm2
  have h200 : (2 : ℚ) ^ 200 = 1606938044258990275541962092341162602522202993782792835301376 := by
    norm_num
  rw [h200] at hη
  obtain ⟨vN, hv, hvb⟩ := ofRatio_val m 10 (by norm_num)
    (by rw [h100]; push_cast; linarith)
  rw [h53] at hvb
  have hvb' := abs_le.mp hvb
  push_cast at hvb'
  have hVpos : (0 : ℚ) < (vN : ℚ) / (unit : ℚ) := by linarith [hvb'.1]
  have hvq : (0 : ℚ) < (vN : ℚ) := by
    rcases div_pos_iff.mp hVpos with ⟨h1, _⟩ | ⟨_, h2⟩
    · exact h1
    · linarith
  have hvpos : 0 < vN := by exact_mod_cast hvq
  have hne : ¬ ((vN : Int) = 0) := by omega
  rw [hv]
  simp [JsNum.truthy, hne]

/-- `setVal` of `editBC` writes one select and nothing else. -/
theorem setValIfPresent_frame (h : Host) (s : State) (id : String) (val : JVal) :
    (setValIfPresent h s id val).value = s.value
      ∧ (setValIfPresent h s id val).requests = s.requests
      ∧ (setValIfPresent h s id val).isOpen = s.isOpen
      ∧ (setValIfPresent h s id val).text = s.text := by
  unfold setValIfPresent
  split <;> exact ⟨rfl, rfl, rfl, rfl⟩

/-- The VAT field after `editBCFill` holds the text of the derived rate. -/
theorem editBCFill_tva (h : Host) (s : State) (id : JVal) (bc : Record) :
    (editBCFill h s id bc).value "edit-bc-tva"
        = inputValueOf h (.num (derivedTva
            ((parseFloat ((Record.get bc "montant_ht").toJsString h)).or .zero)
            ((parseFloat ((Record.get bc "montant_ttc").toJsString h)).or .zero)))
      ∧ (editBCFill h s id bc).isOpen "modal-edit-bc" = true := by
  unfold editBCFill
  simp only [openModal, setText, setValIfPresent_frame, setValue, upd]
  simp

/-- On a 2xx response with an object body `editBC` fills the form from the response. -/
theorem editBC_ok (h : Host) (s : State) (id : JVal) (status : Nat) (bc : Payload)
    (hok : statusOk status = true) :
    editBC h s id (.response status (.obj bc))
      = editBCFill h
          { s with
            requests := s.requests
              ++ [requestOf s ("/bon_commande/" ++ id.toJsString h) noOpts] }
          id bc.fields := by
  simp only [editBC, apiFetch_ok h s _ _ status bc hok]

/-- Rounding the opposite of a positive dividend gives the opposite of the rounding. -/
theorem round_neg_nat (a d : Nat) (ha : 0 < a) :
    JsNum.round (-(a : Int)) d = (JsNum.round (a : Int) d).neg := by
  have hneg : (-(a : Int)) < 0 := by omega
  have hpos : ¬ ((a : Int) < 0) := by omega
  have hab : (-(a : Int)).natAbs = a := by
    rw [Int.natAbs_neg, Int.natAbs_ofNat]
  unfold JsNum.round
  simp only [hab, Int.natAbs_ofNat, hneg, hpos, if_true, if_false, decide_True, decide_False]
  set s := bitLen (a / d) - 53
  set m := d * 2 ^ s
  set up : Nat := (if 2 * (a % m) < m then a / m else if m < 2 * (a % m) then a / m + 1
          else if (a / m) % 2 = 0 then a / m else a / m + 1)
  by_cases hc : overflowBound ≤ up * 2 ^ s
  · rw [if_pos hc, if_pos hc]
    rfl
  · rw [if_neg hc, if_neg hc]
    rfl

/-- Subtracting one from a finite non-negative number below one gives the opposite of a
rounding. -/
theorem sub_one_neg (q : Nat) (hq : q < unit) :
    (JsNum.fin (q : Int)).sub .one = (JsNum.round ((unit - q : Nat) : Int) 1).neg := by
  have e : (q : Int) + -(unit : Int) = -((unit - q : Nat) : Int) := by
    rw [Int.ofNat_sub hq.le]; ring
  have hpos : 0 < unit - q := Nat.sub_pos_of_lt hq
  have hl : (JsNum.fin (q : Int)).sub .one = JsNum.round (-((unit - q : Nat) : Int)) 1 := by
    simp only [JsNum.sub, JsNum.one, JsNum.neg, JsNum.add, e]
  rw [hl]
  exact round_neg_nat (unit - q) 1 hpos

/-- Multiplication of a finite negative number by one thousand gives the opposite of a
rounding. -/
theorem mul_thousand_neg (k : Nat) (hk : 0 < k) :
    JsNum.mul (.fin (-(k : Int))) .thousand = (JsNum.round ((k * 1000 : Nat) : Int) 1).neg := by
  have hU : 0 < unit := by exact_mod_cast unit_pos
  have h1 : (-(k : Int) * (1000 * (unit : Int))) = -((k * 1000 * unit : Nat) : Int) := by
    rw [Nat.cast_mul, Nat.cast_mul, neg_mul, mul_assoc]
    rfl
  have e : 1 * unit = unit := Nat.one_mul unit
  have hpos : 0 < k * 1000 * unit := Nat.mul_pos (Nat.mul_pos hk (by norm_num)) hU
  calc JsNum.mul (.fin (-(k : Int))) .thousand
      = JsNum.round (-((k * 1000 * unit : Nat) : Int)) unit := by
        simp only [JsNum.mul, JsNum.thousand, h1]
    _ = (JsNum.round ((k * 1000 * unit : Nat) : Int) unit).neg := round_neg_nat _ _ hpos
    _ = (JsNum.round ((k * 1000 * unit : Nat) : Int) (1 * unit)).neg := by rw [e]
    _ = (JsNum.round ((k * 1000 : Nat) : Int) 1).neg := by
        rw [round_scale (k * 1000) 1 unit hU]

/-- `Math.round` of a finite number between minus one half and zero is zero. -/
theorem mathRound_small_neg (p : Nat) (hp : (p : ℚ) / (unit : ℚ) ≤ 1 / 2) :
    JsNum.mathRound (.fin (-(p : Int))) = .fin ((0 * unit : Nat) : Int) := by
  obtain ⟨he, hh⟩ := unit_even
  have hU := unit_pos
  have hpq : (p : ℚ) ≤ (unit : ℚ) / 2 := by
    have := (div_le_iff₀ hU).mp hp
    linarith
  generalize hH : unit / 2 = H at he hh
  have hUq : (unit : ℚ) = 2 * (H : ℚ) := by exact_mod_cast he
  have hpH : p ≤ H := by
    have : (p : ℚ) ≤ (H : ℚ) := by linarith
    exact_mod_cast this
  have hUi : (unit : Int) = 2 * (H : Int) := by exact_mod_cast he
  have hz : (-(p : Int) + (H : Int)) / (unit : Int) = 0 := by
    apply Int.ediv_eq_zero_of_lt
    · omega
    · omega
  simp only [JsNum.mathRound, hH, hz, zero_mul, Nat.cast_zero]



/-- From a quotient that is at least one and within 0.0004998 of `1 + m / 1000`, with
`m ≤ 1000`, the expression `Math.round((q - 1) * 1000) / 10` is the number written
`m / 10`. -/
theorem derived_from_quotient_ge (qN m : Nat) (hqu : unit ≤ qN) (hm2 : m ≤ 1000)
    (hqb : |(qN : ℚ) / (unit : ℚ) - (1 + (m : ℚ) / 1000)| ≤ 4998 / 10000000) :
    ((((JsNum.fin (qN : Int)).sub .one).mul .thousand).mathRound).div .ten
      = JsNum.ofRatio (m : Int) 10 := by
  have hU := unit_pos
  have hη := unit_large
  have hη0 : (0 : ℚ) ≤ 1 / (2 * (unit : ℚ)) := div_nonneg (by norm_num) (by linarith)
  set η : ℚ := 1 / (2 * (unit : ℚ)) with hηdef
  have hη1 : η ≤ 1 / 1606938044258990275541962092341162602522202993782792835301376 := by
    have : (2 : ℚ) ^ 200 = 1606938044258990275541962092341162602522202993782792835301376 := by
      norm_num
    rw [← this]; exact hη
  have h53 : ∀ x : ℚ, x / 2 ^ 53 = x * (1 / 9007199254740992) := fun x => by norm_num; ring
  have h100 : (2 : ℚ) ^ 100 = 1267650600228229401496703205376 := by norm_num
  have hm0q : (0 : ℚ) ≤ (m : ℚ) := Nat.cast_nonneg _
  have hm2q : (m : ℚ) ≤ 1000 := by exact_mod_cast hm2
  set Q : ℚ := (qN : ℚ) / (unit : ℚ) with hQ
  have hqb' := abs_le.mp hqb
  have hQ1 : 1 ≤ Q := by
    rw [hQ, le_div_iff₀ hU]
    have : (unit : ℚ) ≤ (qN : ℚ) := by exact_mod_cast hqu
    linarith
  obtain ⟨sN, hs, hsb⟩ := round_val (qN - unit) 1 (by norm_num) (Q - 1)
    (by
      rw [Nat.cast_sub hqu, hQ]
      field_simp)
    (by rw [h100]; linarith [hqb'.2])
  set S : ℚ := (sN : ℚ) / (unit : ℚ) with hS
  rw [h53] at hsb
  have hsb' := abs_le.mp hsb
  obtain ⟨pN, hp, hpb⟩ := round_val (sN * 1000) 1 (by norm_num) (1000 * S)
    (by rw [Nat.cast_mul, hS]; field_simp; ring)
    (by rw [h100]; linarith [hsb'.2, hqb'.2])
  set P : ℚ := (pN : ℚ) / (unit : ℚ) with hP
  rw [h53] at hpb
  have hpb' := abs_le.mp hpb
  obtain ⟨R, hR, hRlo, hRhi⟩ := mathRound_nat pN
  rw [← hP] at hRlo hRhi
  have hRm : R = m := by
    have h1 : (R : ℚ) < (m : ℚ) + 1 := by
      linarith [hpb'.2, hsb'.2, hqb'.2]
    have h2 : (m : ℚ) < (R : ℚ) + 1 := by
      linarith [hpb'.1, hsb'.1, hqb'.1]
    have h1' : R < m + 1 := by exact_mod_cast h1
    have h2' : m < R + 1 := by exact_mod_cast h2
    omega
  rw [sub_one_nat qN hqu, hs, mul_thousand_nat, hp, hR, div_ten_nat, hRm]

/-- From a quotient below one and within 0.0004998 of one, the expression
`Math.round((q - 1) * 1000) / 10` is zero. -/
theorem derived_from_quotient_lt (qN : Nat) (hql : qN < unit)
    (hqb : |(qN : ℚ) / (unit : ℚ) - 1| ≤ 4998 / 10000000) :
    ((((JsNum.fin (qN : Int)).sub .one).mul .thousand).mathRound).div .ten
      = JsNum.ofRatio ((0 : Nat) : Int) 10 := by
  have hU := unit_pos
  have hη := unit_large
  have hη0 : (0 : ℚ) ≤ 1 / (2 * (unit : ℚ)) := div_nonneg (by norm_num) (by linarith)
  set η : ℚ := 1 / (2 * (unit : ℚ)) with hηdef
  have hη1 : η ≤ 1 / 1606938044258990275541962092341162602522202993782792835301376 := by
    have : (2 : ℚ) ^ 200 = 1606938044258990275541962092341162602522202993782792835301376 := by
      norm_num
    rw [← this]; exact hη
  have h53 : ∀ x : ℚ, x / 2 ^ 53 = x * (1 / 9007199254740992) := fun x => by norm_num; ring
  have h100 : (2 : ℚ) ^ 100 = 1267650600228229401496703205376 := by norm_num
  set Q : ℚ := (qN : ℚ) / (unit : ℚ) with hQ
  have hqb' := abs_le.mp hqb
  have hQ1 : Q < 1 := by
    rw [hQ, div_lt_iff₀ hU]
    have : (qN : ℚ) < (unit : ℚ) := by exact_mod_cast hql
    linarith
  -- 1 - q
  have hapos : 0 < unit - qN := Nat.sub_pos_of_lt hql
  have haq : (1 : ℚ) ≤ ((unit - qN : Nat) : ℚ) := by exact_mod_cast hapos
  obtain ⟨sN, hs, hsb⟩ := round_val (unit - qN) 1 (by norm_num) (1 - Q)
    (by
      rw [Nat.cast_sub hql.le, hQ]
      field_simp)
    (by rw [h100]; linarith [hqb'.1])
  set S : ℚ := (sN : ℚ) / (unit : ℚ) with hS
  rw [h53] at hsb
  have hsb' := abs_le.mp hsb
  have hA : 2 * η ≤ 1 - Q := by
    have e1 : (1 : ℚ) - Q = ((unit - qN : Nat) : ℚ) / (unit : ℚ) := by
      rw [Nat.cast_sub hql.le, hQ]
      field_simp
    have e2 : 2 * η = 1 / (unit : ℚ) := by
      rw [hηdef]
      field_simp
    rw [e1, e2]
    exact div_le_div_of_nonneg_right haq hU.le
  have hSpos : 0 < S := by linarith [hsb'.1]
  have hsq : (0 : ℚ) < (sN : ℚ) := by
    rcases div_pos_iff.mp hSpos with ⟨h1, _⟩ | ⟨_, h2⟩
    · exact h1
    · linarith
  have hspos : 0 < sN := by exact_mod_cast hsq
  -- ... * 1000
  obtain ⟨pN, hp, hpb⟩ := round_val (sN * 1000) 1 (by norm_num) (1000 * S)
    (by rw [Nat.cast_mul, hS]; field_simp; ring)
    (by rw [h100]; linarith [hsb'.2, hqb'.1])
  rw [h53] at hpb
  have hpb' := abs_le.mp hpb
  have hP : (pN : ℚ) / (unit : ℚ) ≤ 1 / 2 := by
    linarith [hpb'.2, hsb'.2, hqb'.1]
  rw [sub_one_neg qN hql, hs, JsNum.neg, mul_thousand_neg sN hspos, hp, JsNum.neg,
    mathRound_small_neg pN hP, div_ten_nat]

/-- From a quotient within 0.0004998 of `1 + m / 1000`, with `m ≤ 1000`, the expression
`Math.round((q - 1) * 1000) / 10` is the number written `m / 10`. -/
theorem derived_from_quotient (qN m : Nat) (hm2 : m ≤ 1000)
    (hqb : |(qN : ℚ) / (unit : ℚ) - (1 + (m : ℚ) / 1000)| ≤ 4998 / 10000000) :
    ((((JsNum.fin (qN : Int)).sub .one).mul .thousand).mathRound).div .ten
      = JsNum.ofRatio (m : Int) 10 := by
  by_cases hq : unit ≤ qN
  · exact derived_from_quotient_ge qN m hq hm2 hqb
  · have hql : qN < unit := Nat.lt_of_not_le hq
    have hU := unit_pos
    have hqb' := abs_le.mp hqb
    have hQ1 : (qN : ℚ) / (unit : ℚ) < 1 := by
      rw [div_lt_iff₀ hU]
      have : (qN : ℚ) < (unit : ℚ) := by exact_mod_cast hql
      linarith
    have hm : m = 0 := by
      have h1 : (m : ℚ) < 1 := by linarith [hqb'.1]
      have h1' : m < 1 := by exact_mod_cast h1
      omega
    subst hm
    apply derived_from_quotient_lt qN hql
    simpa using hqb

/-- For an HT of at least 10.01 and a VAT rate written with one decimal, between 0 and 100,
the rate derived from the HT and from the TTC computed with that rate is the rate itself. -/
theorem derivedTva_round_trip (hN m : Nat)
    (hlo : (1001 : ℚ) / 100 ≤ (hN : ℚ) / (unit : ℚ)) (hhi : (hN : ℚ) / (unit : ℚ) ≤ 2 ^ 40)
    (hm2 : m ≤ 1000) :
    derivedTva (.fin (hN : Int)) (ttcOf (.fin (hN : Int)) (JsNum.ofRatio (m : Int) 10))
      = JsNum.ofRatio (m : Int) 10 := by
  obtain ⟨hpos, qN, hq, hqb⟩ := quotient_bound hN m hlo hhi hm2
  have hgt : JsNum.gt (.fin (hN : Int)) .zero = true := by
    have : (0 : Int) < (hN : Int) := by exact_mod_cast hpos
    simp [JsNum.gt, JsNum.zero, this]
  unfold derivedTva
  rw [hgt, if_pos rfl, hq]
  exact derived_from_quotient qN m hm2 hqb

/-- The number written `m / 10` is finite when `m ≤ 1000`. -/
theorem ofRatio_tenth_fin (m : Nat) (hm2 : m ≤ 1000) :
    ∃ v : Nat, JsNum.ofRatio (m : Int) 10 = .fin (v : Int) := by
  have h100 : (2 : ℚ) ^ 100 = 1267650600228229401496703205376 := by norm_num
  have hm2q : (m : ℚ) ≤ 1000 := by exact_mod_cast hm2
  have hm0q : (0 : ℚ) ≤ (m : ℚ) := Nat.cast_nonneg _
  obtain ⟨vN, hv, -⟩ := ofRatio_val m 10 (by norm_num)
    (by rw [h100]; push_cast; linarith)
  exact ⟨vN, hv⟩

/-- A finite number is kept by `|| 0`. -/
theorem or_zero_fin (k : Int) : (JsNum.fin k).or .zero = .fin k := by
  unfold JsNum.or JsNum.truthy JsNum.zero
  by_cases hk : k = 0
  · simp [hk]
  · simp [hk]

/-- A value whose text parses, after `|| 0`, to a positive number is truthy, and its text
parses to that number. -/
theorem truthy_of_parse_pos (h : Host) (v : JVal) (k : Int) (hk : 0 < k)
    (hp : (parseFloat (v.toJsString h)).or .zero = .fin k) :
    v.truthy = true ∧ parseFloat (v.toJsString h) = .fin k := by
  have hne : k ≠ 0 := by omega
  have hnan : ∀ text : String, parseFloat text = .nan →
      (parseFloat text).or .zero = .fin k → False := by
    intro text ht hq
    rw [ht] at hq
    simp [JsNum.or, JsNum.truthy, JsNum.zero] at hq
    exact hne hq.symm
  have hzero : ∀ text : String, parseFloat text = .fin 0 →
      (parseFloat text).or .zero = .fin k → False := by
    intro text ht hq
    rw [ht] at hq
    simp [JsNum.or, JsNum.truthy, JsNum.zero] at hq
    exact hne hq.symm
  have hsame : parseFloat (v.toJsString h) = .fin k := by
    unfold JsNum.or at hp
    by_cases ht : (parseFloat (v.toJsString h)).truthy = true
    · rw [if_pos ht] at hp
      exact hp
    · rw [if_neg ht] at hp
      simp [JsNum.zero] at hp
      exact absurd hp.symm hne
  refine ⟨?_, hsame⟩
  rcases v with _ | _ | b | x | s
  · exact (hnan "undefined" (by decide!) hp).elim
  · exact (hnan "null" (by decide!) hp).elim
  · cases b
    · exact (hnan "false" (by decide!) hp).elim
    · rfl
  · rcases x with j | _ | n
    · by_cases hj : j = 0
      · subst hj
        have e : JsNum.toJsString h (.fin 0) = "0" := by
          have h0 := toJsString_nat h 0 (by norm_num)
          rw [Nat.zero_mul] at h0
          exact h0
        have hp0 : (parseFloat "0").or .zero = .fin k := by
          rw [← e]
          exact hp
        exact (hzero "0" (by decide!) hp0).elim
      · simp [JVal.truthy, hj]
    · exact (hnan "NaN" (by decide!) hp).elim
    · rfl
  · by_cases hs : s = ""
    · subst hs
      exact (hnan "" (by decide!) hp).elim
    · simp [JVal.truthy, hs]

/-- The HT field after `editBCFill` holds the text of the stored HT amount, or nothing when
that amount is falsy. -/
theorem editBCFill_ht (h : Host) (s : State) (id : JVal) (bc : Record) :
    (editBCFill h s id bc).value "edit-bc-montant-ht"
        = inputValueOf h ((Record.get bc "montant_ht").or (.str "")) := by
  unfold editBCFill
  simp only [openModal, setText, setValIfPresent_frame, setValue, upd]
  simp

/-- The text an input takes from a truthy value is the text of the value. -/
theorem inputValueOf_truthy (h : Host) (v : JVal) (hv : v.truthy = true) :
    inputValueOf h (v.or (.str "")) = v.toJsString h := by
  unfold JVal.or
  rw [if_pos hv]
  cases v <;> first | rfl | simp [JVal.truthy] at hv

/-- The amounts `saveBC` sends are computed from the HT and VAT fields. -/
theorem saveBCBody_amounts (s : State) :
    Record.get (saveBCBody s) "montant_ht"
        = .num ((parseFloat (s.value "edit-bc-montant-ht")).or .zero)
      ∧ Record.get (saveBCBody s) "montant_ttc"
        = .num (ttcOf ((parseFloat (s.value "edit-bc-montant-ht")).or .zero)
            ((parseFloat (s.value "edit-bc-tva")).or .twenty)) := by
  constructor <;> simp [saveBCBody, Record.get, List.lookup]

/-- A whole number up to 100 written with one decimal, as `10 k / 10`, is the number `k`. -/
theorem whole_rate_exact :
    ∀ k, k ≤ 100 → JsNum.ofRatio ((10 * k : Nat) : Int) 10 = .fin ((k * unit : Nat) : Int) := by
  decide!

/-- The decimal writing of a whole number up to 100 parses to that number. -/
theorem whole_rate_parses :
    ∀ k, k ≤ 100 → parseFloat (toString k) = .fin ((k * unit : Nat) : Int) := by
  decide!

/-- The text of a whole VAT rate up to 100 parses back to the rate, whatever the host. -/
theorem whole_rate_text (h : Host) (m : Nat) (hm2 : m ≤ 1000) (hw : m % 10 = 0) :
    parseFloat (JsNum.toJsString h (JsNum.ofRatio (m : Int) 10)) = JsNum.ofRatio (m : Int) 10 := by
  have hk : m / 10 ≤ 100 := by omega
  have hm : m = 10 * (m / 10) := by omega
  have h53 : m / 10 < 2 ^ 53 := by
    have : (100 : Nat) < 2 ^ 53 := by norm_num
    omega
  rw [hm, whole_rate_exact (m / 10) hk, toJsString_nat h (m / 10) h53]
  exact whole_rate_parses (m / 10) hk

/-! ### Tasks fetched on a cache miss -/

/-- A 2xx response whose body is `null` or a falsy value makes `apiFetch` return that value;
the only change of state is the request logged. -/
theorem apiFetch_ok_empty (h : Host) (s : State) (path : String) (opts : FetchOpts)
    (status : Nat) (hok : statusOk status = true) :
    apiFetch h s path opts (.response status .null)
        = (.ok .null, { s with requests := s.requests ++ [requestOf s path opts] })
      ∧ apiFetch h s path opts (.response status .falsy)
        = (.ok .falsy, { s with requests := s.requests ++ [requestOf s path opts] }) := by
  obtain ⟨h1, h3⟩ := statusOk_ne status hok
  constructor <;> simp [apiFetch, h1, h3, hok]

/-- When the due date of the task is falsy or a text, `editTacheFill` returns normally, opens
the modal and fills every field of the form from the task. -/
theorem editTacheFill_ok (h : Host) (s : State) (data : Record)
    (hdate : (Record.get data "date_echeance").truthy = false
      ∨ ∃ d, Record.get data "date_echeance" = .str d) :
    (editTacheFill h s data).1 = .ok ()
      ∧ (editTacheFill h s data).2.isOpen "modal-edit-tache" = true
      ∧ (editTacheFill h s data).2.value "edit-tache-id" = inputValueOf h (Record.get data "id")
      ∧ (editTacheFill h s data).2.value "edit-tache-titre"
        = inputValueOf h ((Record.get data "titre").or (.str ""))
      ∧ ((editTacheFill h s data).2.selects "edit-tache-projet")
        = (s.selects "edit-tache-projet").setValue
            (((Record.get data "projet_id").or (.str "")).toJsString h)
      ∧ (editTacheFill h s data).2.value "edit-tache-statut"
        = inputValueOf h ((Record.get data "statut").or (.str "A faire"))
      ∧ (editTacheFill h s data).2.value "edit-tache-priorite"
        = inputValueOf h ((Record.get data "priorite").or (.str ""))
      ∧ (editTacheFill h s data).2.value "edit-tache-echeance"
        = (match Record.get data "date_echeance" with
          | .str d => String.mk (d.toList.takeWhile (fun c => c != 'T'))
          | _ => "")
      ∧ (editTacheFill h s data).2.value "edit-tache-heures"
        = inputValueOf h ((Record.get data "estimation_heures").nullish (.str ""))
      ∧ (editTacheFill h s data).2.value "edit-tache-avancement"
        = inputValueOf h ((Record.get data "avancement").nullish (.str "")) := by
  rcases hdate with hf | ⟨d, hd⟩
  · have hm : (match Record.get data "date_echeance" with
          | .str d => String.mk (d.toList.takeWhile (fun c => c != 'T'))
          | _ => "") = "" := by
      rcases hv : Record.get data "date_echeance" with _ | _ | b | x | t
      · rfl
      · rfl
      · rfl
      · rfl
      · rw [hv] at hf
        have : t = "" := by simpa [JVal.truthy] using hf
        subst this
        rfl
    rw [hm]
    simp [editTacheFill, hf, setValue, setSelect, openModal, upd, inputValueOf, JVal.toJsString]
  · by_cases ht : (JVal.str d).truthy = true
    · simp [editTacheFill, hd, ht, setValue, setSelect, openModal, upd, inputValueOf, JVal.toJsString]
    · have hd0 : d = "" := by simpa [JVal.truthy] using ht
      subst hd0
      simp [editTacheFill, hd, JVal.truthy, setValue, setSelect, openModal, upd, inputValueOf, JVal.toJsString]

/-- When the due date of the task is truthy and not a text, `editTacheFill` throws a
`TypeError` before the modal is opened. -/
theorem editTacheFill_throws (h : Host) (s : State) (data : Record)
    (ht : (Record.get data "date_echeance").truthy = true)
    (hns : ∀ d, Record.get data "date_echeance" ≠ .str d) :
    (editTacheFill h s data).1 = .error .typeError
      ∧ (editTacheFill h s data).2.isOpen = s.isOpen := by
  rcases hv : Record.get data "date_echeance" with _ | _ | b | x | t
  · rw [hv] at ht; simp [JVal.truthy] at ht
  · rw [hv] at ht; simp [JVal.truthy] at ht
  · rw [hv] at ht
    simp [editTacheFill, hv, ht, setValue, setSelect]
  · rw [hv] at ht
    simp [editTacheFill, hv, ht, setValue, setSelect]
  · exact absurd hv (hns t)

/-! ### Claims -/

/-- C1: whatever the path and the options, a response with status 401 makes `apiFetch` remove
the stored credential, show the login gate and fail with the error
`Session expirée, veuillez vous reconnecter`; no payload is returned. -/
theorem apiFetch_status_401 (h : Host) (s : State) (path : String) (opts : FetchOpts)
    (body : Body) :
    (apiFetch h s path opts (.response 401 body)).1
        = .error (.error "Session expirée, veuillez vous reconnecter")
      ∧ getToken (apiFetch h s path opts (.response 401 body)).2 = none
      ∧ (apiFetch h s path opts (.response 401 body)).2.display "login-overlay" = "flex" := by
  simp [apiFetch, removeToken, showLoginOverlay, getToken, upd]

/-- C3: when the gateway call of `initRefs` fails, with whatever error, `initRefs` itself
completes without failing, every category of the snapshot `_refs` is as it was before the
call, and the error is passed to `console.warn` and nowhere else. -/
theorem initRefs_failure_keeps_snapshot (h : Host) (s : State) (net : FetchResult) (e : JsError)
    (hfail : (apiFetch h s "/referentiels" noOpts net).1 = .error e) :
    (initRefs h s net).1 = .ok ()
      ∧ (initRefs h s net).2.refs = s.refs
      ∧ (∀ key, (initRefs h s net).2.refs.get key = s.refs.get key)
      ∧ (initRefs h s net).2.warnings = s.warnings ++ [e] := by
  obtain ⟨hr, hw, -, -⟩ := apiFetch_frame h s "/referentiels" noOpts net
  unfold initRefs
  rcases hres : apiFetch h s "/referentiels" noOpts net with ⟨r, s1⟩
  rw [hres] at hfail hr hw
  simp only [] at hfail hr hw
  subst hfail
  simp only [warn, hr, hw]
  exact ⟨trivial, trivial, fun _ => trivial, trivial⟩

/-- Witness for C3: a network failure of the reference request at page load. -/
theorem initRefs_failure_keeps_snapshot_witness :
    (apiFetch sampleHost startState "/referentiels" noOpts (.failed "Failed to fetch")).1
        = .error (.error "Failed to fetch")
      ∧ ((initRefs sampleHost startState (.failed "Failed to fetch")).1 = .ok ()
        ∧ (initRefs sampleHost startState (.failed "Failed to fetch")).2.refs = startState.refs
        ∧ (∀ key, (initRefs sampleHost startState (.failed "Failed to fetch")).2.refs.get key
            = startState.refs.get key)
        ∧ (initRefs sampleHost startState (.failed "Failed to fetch")).2.warnings
            = startState.warnings ++ [.error "Failed to fetch"]) :=
  ⟨rfl, initRefs_failure_keeps_snapshot sampleHost startState (.failed "Failed to fetch")
    (.error "Failed to fetch") rfl⟩

/-- C6, as stated, fails: after a successful refresh whose response carries one service, the
snapshot has no category `services` (the property is `undefined`), so it is not the sequence
of the response. -/
theorem initRefs_services_not_in_snapshot :
    ¬ (∀ key ∈ refCategories,
        (initRefs sampleHost startState (.response 200 (.obj servicesOnly))).2.refs.get key
          = some (servicesOnly.listOr key)) := by
  intro hall
  have hs := hall "services" (by simp [refCategories])
  rw [(initRefs_ok_state sampleHost startState 200 servicesOnly (by decide)).2.1] at hs
  simp [Refs.get] at hs

/-- C6 (amended): after a successful refresh, each of the six categories fournisseurs,
entites, projets, lignes, applications and contrats of the snapshot is the sequence under the
same key of the response (empty when the response has no such key), whatever it held before;
the services of the response are not stored in the snapshot, whose property `services` stays
undefined. -/
theorem initRefs_replaces_six_categories (h : Host) (s : State) (status : Nat) (p : Payload)
    (hok : statusOk status = true) :
    (∀ key ∈ ["fournisseurs", "entites", "projets", "lignes", "applications", "contrats"],
        (initRefs h s (.response status (.obj p))).2.refs.get key = some (p.listOr key))
      ∧ (initRefs h s (.response status (.obj p))).2.refs.get "services" = none := by
  rw [(initRefs_ok_state h s status p hok).2.1]
  constructor
  · intro key hkey
    simp only [List.mem_cons, List.mem_singleton, List.not_mem_nil, or_false] at hkey
    rcases hkey with rfl | rfl | rfl | rfl | rfl | rfl <;> simp [Refs.get, refsOf]
  · simp [Refs.get]

/-- Witness for C6 (amended): a response with status 200 carrying one service. -/
theorem initRefs_replaces_six_categories_witness :
    statusOk 200 = true
      ∧ ((∀ key ∈ ["fournisseurs", "entites", "projets", "lignes", "applications", "contrats"],
          (initRefs sampleHost startState (.response 200 (.obj servicesOnly))).2.refs.get key
            = some (servicesOnly.listOr key))
        ∧ (initRefs sampleHost startState (.response 200 (.obj servicesOnly))).2.refs.get
            "services" = none) :=
  ⟨by decide, initRefs_replaces_six_categories sampleHost startState 200 servicesOnly (by decide)⟩

/-- C7, as stated, fails: contract 7 is selected in `edit-bc-contrat` and is still among the
contracts of the new snapshot, yet after the refresh the select shows its first option and its
value is empty. -/
theorem initRefs_drops_selection :
    (contratSevenChosen.selects "edit-bc-contrat").value = "7"
      ∧ (∃ item ∈ (refsOf contratSevenOnly).contrats,
          (Record.get item "id").toJsString sampleHost = "7")
      ∧ ((initRefs sampleHost contratSevenChosen
            (.response 200 (.obj contratSevenOnly))).2.selects "edit-bc-contrat").value ≠ "7" := by
  refine ⟨by decide, ⟨_, List.mem_singleton.mpr rfl, seven_toJsString⟩, ?_⟩
  rw [initRefs_fills sampleHost contratSevenChosen 200 contratSevenOnly (by decide)
    contratSevenChosen_ready "edit-bc-contrat" (refsOf contratSevenOnly).contrats
    (.fn (cLabel sampleHost)) (by simp [refFills]) rfl]
  simp [Select.value, contratSevenChosen, upd]

/-- C7 (amended): after a successful refresh of a document whose selects have their first
option, every select repopulated by `initRefs` has its retained first option selected, so
that its value is the value of that option whatever was selected before; an id selected
before the refresh is the value afterwards only when it is the value of the first option. -/
theorem initRefs_selects_first_option (h : Host) (s : State) (status : Nat) (p : Payload)
    (hok : statusOk status = true) (hready : SelectsReady s refSelectIds)
    (id : String) (hid : id ∈ refSelectIds) (hp : s.present id = true) :
    ((initRefs h s (.response status (.obj p))).2.selects id).selected = some 0
      ∧ ((initRefs h s (.response status (.obj p))).2.selects id).options.head?
          = (s.selects id).options.head?
      ∧ ((initRefs h s (.response status (.obj p))).2.selects id).value
          = (((s.selects id).options.head?).map SelectOption.value).getD "" := by
  obtain ⟨items, lab, hm⟩ := refFills_of_mem h (refsOf p) (p.listOr "services") id hid
  rw [initRefs_fills h s status p hok hready id items lab hm hp]
  have hne := hready id hid hp
  cases hopt : (s.selects id).options with
  | nil => exact absurd hopt hne
  | cons first rest => simp [Select.value]

/-- Witness for C7 (amended): the select `edit-bc-contrat` with contract 7 chosen. -/
theorem initRefs_selects_first_option_witness :
    statusOk 200 = true ∧ SelectsReady contratSevenChosen refSelectIds
      ∧ "edit-bc-contrat" ∈ refSelectIds ∧ contratSevenChosen.present "edit-bc-contrat" = true
      ∧ (((initRefs sampleHost contratSevenChosen
              (.response 200 (.obj contratSevenOnly))).2.selects "edit-bc-contrat").selected
            = some 0
        ∧ ((initRefs sampleHost contratSevenChosen
              (.response 200 (.obj contratSevenOnly))).2.selects "edit-bc-contrat").options.head?
            = (contratSevenChosen.selects "edit-bc-contrat").options.head?
        ∧ ((initRefs sampleHost contratSevenChosen
              (.response 200 (.obj contratSevenOnly))).2.selects "edit-bc-contrat").value
            = (((contratSevenChosen.selects "edit-bc-contrat").options.head?).map
                SelectOption.value).getD "") :=
  ⟨by decide, contratSevenChosen_ready, by simp [refSelectIds], rfl,
    initRefs_selects_first_option sampleHost contratSevenChosen 200 contratSevenOnly (by decide)
      contratSevenChosen_ready "edit-bc-contrat" (by simp [refSelectIds]) rfl⟩

/-- C8: in a document whose selects have their first option, take a select bound to a
category whose first option is the empty default and in which an id is selected.  If the
refreshed category no longer contains that id, then after the refresh the selection is that
first option (index 0, empty value) and no option of the select carries the old id. -/
theorem initRefs_resets_stale_selection (h : Host) (s : State) (status : Nat) (p : Payload)
    (hok : statusOk status = true) (hready : SelectsReady s refSelectIds)
    (id : String) (items : List Record) (lab : LabelFn)
    (hm : (id, items, lab) ∈ refFills h (refsOf p) (p.listOr "services"))
    (hp : s.present id = true)
    (lbl : String) (rest : List SelectOption)
    (hdef : (s.selects id).options = ⟨"", lbl⟩ :: rest)
    (hsel : (s.selects id).value ≠ "")
    (hgone : ∀ item ∈ items, (Record.get item "id").toJsString h ≠ (s.selects id).value) :
    ((initRefs h s (.response status (.obj p))).2.selects id).selected = some 0
      ∧ ((initRefs h s (.response status (.obj p))).2.selects id).options.head?
          = some ⟨"", lbl⟩
      ∧ ((initRefs h s (.response status (.obj p))).2.selects id).value = ""
      ∧ ∀ o ∈ ((initRefs h s (.response status (.obj p))).2.selects id).options,
          o.value ≠ (s.selects id).value := by
  rw [initRefs_fills h s status p hok hready id items lab hm hp, hdef]
  refine ⟨rfl, by simp, by simp [Select.value], ?_⟩
  intro o ho
  simp only [List.take_succ_cons, List.take_zero, List.singleton_append, List.mem_cons,
    itemOptions, List.mem_map] at ho
  rcases ho with rfl | ⟨item, hitem, rfl⟩
  · exact fun heq => hsel heq.symm
  · exact hgone item hitem

/-- Witness for C8: contract 7 is selected in `edit-bc-contrat` and the refreshed contracts are
contract 8 alone. -/
theorem initRefs_resets_stale_selection_witness :
    statusOk 200 = true ∧ SelectsReady contratSevenChosen refSelectIds
      ∧ (contratSevenChosen.selects "edit-bc-contrat").value = "7"
      ∧ (((initRefs sampleHost contratSevenChosen
              (.response 200 (.obj contratEightOnly))).2.selects "edit-bc-contrat").selected
            = some 0
        ∧ ((initRefs sampleHost contratSevenChosen
              (.response 200 (.obj contratEightOnly))).2.selects "edit-bc-contrat").options.head?
            = some ⟨"", "-- Aucun --"⟩
        ∧ ((initRefs sampleHost contratSevenChosen
              (.response 200 (.obj contratEightOnly))).2.selects "edit-bc-contrat").value = ""
        ∧ ∀ o ∈ ((initRefs sampleHost contratSevenChosen
              (.response 200 (.obj contratEightOnly))).2.selects "edit-bc-contrat").options,
            o.value ≠ (contratSevenChosen.selects "edit-bc-contrat").value) :=
  ⟨by decide, contratSevenChosen_ready, by decide,
    initRefs_resets_stale_selection sampleHost contratSevenChosen 200 contratEightOnly
      (by decide) contratSevenChosen_ready "edit-bc-contrat" (refsOf contratEightOnly).contrats
      (.fn (cLabel sampleHost)) (by simp [refFills]) rfl "-- Aucun --" [⟨"7", "C-7"⟩] rfl
      (by decide)
      (by
        intro item hitem
        rw [List.mem_singleton.mp hitem]
        have h8 := eight_toJsString
        have h7 : (contratSevenChosen.selects "edit-bc-contrat").value = "7" := by decide
        rw [h7]
        show JVal.toJsString sampleHost (JVal.num (JsNum.ofInt 8)) ≠ "7"
        rw [h8]
        decide)⟩

/-- C9: two successive successful refreshes that receive the same response leave the same
snapshot and the same selects (options and selection) as the first one alone; and when the
selects of the document had their first option, every select filled by `initRefs` holds that
first option followed by exactly one option per item of its category, in item order. -/
theorem initRefs_idempotent (h : Host) (s : State) (status : Nat) (p : Payload)
    (hok : statusOk status = true) :
    (initRefs h (initRefs h s (.response status (.obj p))).2 (.response status (.obj p))).2.refs
        = (initRefs h s (.response status (.obj p))).2.refs
      ∧ (initRefs h (initRefs h s (.response status (.obj p))).2
            (.response status (.obj p))).2.selects
          = (initRefs h s (.response status (.obj p))).2.selects
      ∧ (SelectsReady s refSelectIds →
          ∀ id items lab, (id, items, lab) ∈ refFills h (refsOf p) (p.listOr "services") →
            s.present id = true →
            ((initRefs h (initRefs h s (.response status (.obj p))).2
                (.response status (.obj p))).2.selects id).options
              = (s.selects id).options.take 1 ++ itemOptions h items "id" lab
            ∧ ((initRefs h (initRefs h s (.response status (.obj p))).2
                (.response status (.obj p))).2.selects id).options.length
              = 1 + items.length) := by
  obtain ⟨-, hr1, hp1, hs1⟩ := initRefs_ok_state h s status p hok
  obtain ⟨-, hr2, -, hs2⟩ :=
    initRefs_ok_state h (initRefs h s (.response status (.obj p))).2 status p hok
  have hidem := fillAll_idem h (refFills h (refsOf p) (p.listOr "services"))
    { s with
      requests := s.requests ++ [requestOf s "/referentiels" noOpts]
      refs := refsOf p }
    { (initRefs h s (.response status (.obj p))).2 with
      requests := (initRefs h s (.response status (.obj p))).2.requests
        ++ [requestOf (initRefs h s (.response status (.obj p))).2 "/referentiels" noOpts]
      refs := refsOf p }
    (by rw [refFills_ids]; exact refSelectIds_nodup)
    (by rw [fillAll_present]; exact hp1)
    hs1
  have hsel : (initRefs h (initRefs h s (.response status (.obj p))).2
      (.response status (.obj p))).2.selects
        = (initRefs h s (.response status (.obj p))).2.selects := by
    rw [hs2]; exact hidem.1
  refine ⟨by rw [hr2, hr1], hsel, ?_⟩
  intro hready id items lab hm hp
  rw [hsel, initRefs_fills h s status p hok hready id items lab hm hp]
  have hne := hready id (by rw [← refFills_ids h (refsOf p) (p.listOr "services")];
                            exact List.mem_map_of_mem Prod.fst hm) hp
  refine ⟨rfl, ?_⟩
  cases hopt : (s.selects id).options with
  | nil => exact absurd hopt hne
  | cons first rest => simp [itemOptions]; omega

/-- Witness for C9: two refreshes of the document in which contract 7 is chosen, both
receiving contract 7 alone. -/
theorem initRefs_idempotent_witness :
    statusOk 200 = true ∧ SelectsReady contratSevenChosen refSelectIds
      ∧ (initRefs sampleHost (initRefs sampleHost contratSevenChosen
            (.response 200 (.obj contratSevenOnly))).2
            (.response 200 (.obj contratSevenOnly))).2.refs
          = (initRefs sampleHost contratSevenChosen
              (.response 200 (.obj contratSevenOnly))).2.refs
      ∧ ((initRefs sampleHost (initRefs sampleHost contratSevenChosen
            (.response 200 (.obj contratSevenOnly))).2
            (.response 200 (.obj contratSevenOnly))).2.selects "edit-bc-contrat").options.length
          = 1 + (refsOf contratSevenOnly).contrats.length :=
  ⟨by decide, contratSevenChosen_ready,
    (initRefs_idempotent sampleHost contratSevenChosen 200 contratSevenOnly (by decide)).1,
    ((initRefs_idempotent sampleHost contratSevenChosen 200 contratSevenOnly (by decide)).2.2
      contratSevenChosen_ready "edit-bc-contrat" (refsOf contratSevenOnly).contrats
      (.fn (cLabel sampleHost)) (by simp [refFills]) rfl).2⟩

/-- C4, as stated, fails for tasks: with task 5 absent from a task cache that holds tasks 1
and 2, `editTache(5)` issues the request `GET /api/tache/5` and, when the server returns the
task, opens the edit modal. -/
theorem editTache_miss_fetches :
    (∀ r ∈ cachesLoaded.cache.taches,
        (Record.get r "id").strictEq (.num (JsNum.ofInt 5)) = false)
      ∧ (editTache sampleHost cachesLoaded (.num (JsNum.ofInt 5))
            (.response 200 (.obj tacheFive))).2.requests
          = [⟨"/api/tache/5", "GET", [("Content-Type", "application/json")], none⟩]
      ∧ (editTache sampleHost cachesLoaded (.num (JsNum.ofInt 5))
            (.response 200 (.obj tacheFive))).2.isOpen "modal-edit-tache" = true := by
  refine ⟨?_, ?_, ?_⟩ <;> decide!

/-- C4 (amended): for projects, contracts, contacts, suppliers and budget lines, editing an id
absent from the list cache only shows the banner telling the user to reload: the call returns
normally, no modal is opened and no request is issued.  For tasks, `editTache` instead issues
the request `GET /tache/<id>`.  When that request fails, or succeeds with a body that is
`null` or falsy, it shows `Tâche introuvable`, opens no modal and returns normally.  When the
request succeeds with an object, the form is filled from that object and the modal is opened,
provided the due date of the object is falsy or a text; with any other due date the call
throws a `TypeError` and opens no modal. -/
theorem edit_cache_miss (h : Host) (s : State) (id : JVal) :
    ((∀ r ∈ s.cache.projets, (Record.get r "id").strictEq id = false) →
        editProjet h s id = (.ok (), showMsg s "Données projet non chargées, rechargez" false))
      ∧ ((∀ r ∈ s.cache.contrats, (Record.get r "id").strictEq id = false) →
        editContrat h s id = (.ok (), showMsg s "Données non chargées, rechargez" false))
      ∧ ((∀ r ∈ s.cache.contacts, (Record.get r "id").strictEq id = false) →
        editContact h s id = (.ok (), showMsg s "Données non chargées, rechargez" false))
      ∧ ((∀ r ∈ s.cache.fournisseurs, (Record.get r "id").strictEq id = false) →
        editFournisseur h s id = (.ok (), showMsg s "Données non chargées, rechargez" false))
      ∧ ((∀ r ∈ s.lignesCache, (Record.get r "id").strictEq id = false) →
        editLigne h s id = (.ok (), showMsg s "Rechargez la liste avant de modifier" false))
      ∧ (∀ (msg : String), (showMsg s msg false).isOpen = s.isOpen
          ∧ (showMsg s msg false).requests = s.requests
          ∧ (showMsg s msg false).text "msg" = msg)
      ∧ ((∀ r ∈ s.cache.taches, (Record.get r "id").strictEq id = false) →
        (∀ net : FetchResult,
          (editTache h s id net).2.requests
              = s.requests ++ [requestOf s ("/tache/" ++ id.toJsString h) noOpts]
            ∧ ∀ e, (apiFetch h s ("/tache/" ++ id.toJsString h) noOpts net).1 = .error e →
                (editTache h s id net).1 = .ok ()
                ∧ (editTache h s id net).2.text "msg" = "Tâche introuvable"
                ∧ (editTache h s id net).2.isOpen = s.isOpen)
        ∧ (∀ status body, statusOk status = true → (body = .null ∨ body = .falsy) →
            (editTache h s id (.response status body)).1 = .ok ()
              ∧ (editTache h s id (.response status body)).2.text "msg" = "Tâche introuvable"
              ∧ (editTache h s id (.response status body)).2.isOpen = s.isOpen)
        ∧ (∀ status (data : Payload), statusOk status = true →
            ((data.get "date_echeance").truthy = false
                ∨ ∃ d, data.get "date_echeance" = .str d) →
            (editTache h s id (.response status (.obj data))).1 = .ok ()
              ∧ (editTache h s id (.response status (.obj data))).2.isOpen "modal-edit-tache"
                = true
              ∧ (editTache h s id (.response status (.obj data))).2.value "edit-tache-id"
                = inputValueOf h (data.get "id")
              ∧ (editTache h s id (.response status (.obj data))).2.value "edit-tache-titre"
                = inputValueOf h ((data.get "titre").or (.str ""))
              ∧ ((editTache h s id (.response status (.obj data))).2.selects
                  "edit-tache-projet")
                = (s.selects "edit-tache-projet").setValue
                    (((data.get "projet_id").or (.str "")).toJsString h)
              ∧ (editTache h s id (.response status (.obj data))).2.value "edit-tache-statut"
                = inputValueOf h ((data.get "statut").or (.str "A faire"))
              ∧ (editTache h s id (.response status (.obj data))).2.value "edit-tache-priorite"
                = inputValueOf h ((data.get "priorite").or (.str ""))
              ∧ (editTache h s id (.response status (.obj data))).2.value "edit-tache-echeance"
                = (match data.get "date_echeance" with
                  | .str d => String.mk (d.toList.takeWhile (fun c => c != 'T'))
                  | _ => "")
              ∧ (editTache h s id (.response status (.obj data))).2.value "edit-tache-heures"
                = inputValueOf h ((data.get "estimation_heures").nullish (.str ""))
              ∧ (editTache h s id (.response status (.obj data))).2.value
                  "edit-tache-avancement"
                = inputValueOf h ((data.get "avancement").nullish (.str "")))
        ∧ (∀ status (data : Payload), statusOk status = true →
            (data.get "date_echeance").truthy = true →
            (∀ d, data.get "date_echeance" ≠ .str d) →
            (editTache h s id (.response status (.obj data))).1 = .error .typeError
              ∧ (editTache h s id (.response status (.obj data))).2.isOpen = s.isOpen)) := by
  refine ⟨?_, ?_, ?_, ?_, ?_, ?_, ?_⟩
  · intro habs; simp [editProjet, findById_eq_none _ _ habs]
  · intro habs; simp [editContrat, findById_eq_none _ _ habs]
  · intro habs; simp [editContact, findById_eq_none _ _ habs]
  · intro habs; simp [editFournisseur, findById_eq_none _ _ habs]
  · intro habs; simp [editLigne, findById_eq_none _ _ habs]
  · intro msg
    exact ⟨rfl, rfl, (showMsg_frame s msg false).2.2.1⟩
  · intro habs
    have hmiss := findById_eq_none _ _ habs
    refine ⟨?_, ?_, ?_, ?_⟩
    · intro net
      obtain ⟨hreq, -, -, -, hopen, -, -, -⟩ :=
        apiFetch_logs_request h s ("/tache/" ++ id.toJsString h) noOpts net
      simp only [editTache, hmiss]
      rcases hres : apiFetch h s ("/tache/" ++ id.toJsString h) noOpts net with ⟨r, s1⟩
      rw [hres] at hreq hopen
      simp only [] at hreq hopen
      constructor
      · cases r with
        | error e => simpa [showMsg] using hreq
        | ok d =>
          cases d with
          | null => simpa [showMsg] using hreq
          | falsy => simpa [showMsg] using hreq
          | obj p =>
            show (editTacheFill h s1 p.fields).2.requests = _
            rw [editTacheFill_requests]
            exact hreq
      · intro e he
        subst he
        simp only []
        exact ⟨trivial, (showMsg_frame s1 _ false).2.2.1, hopen⟩
    · intro status body hok hbody
      obtain ⟨hn, hf⟩ := apiFetch_ok_empty h s ("/tache/" ++ id.toJsString h) noOpts status hok
      rcases hbody with rfl | rfl
      · simp only [editTache, hmiss, hn]
        exact ⟨trivial, (showMsg_frame _ _ false).2.2.1, rfl⟩
      · simp only [editTache, hmiss, hf]
        exact ⟨trivial, (showMsg_frame _ _ false).2.2.1, rfl⟩
    · intro status data hok hdate
      have he : editTache h s id (.response status (.obj data))
          = editTacheFill h
              { s with
                requests := s.requests
                  ++ [requestOf s ("/tache/" ++ id.toJsString h) noOpts] }
              data.fields := by
        simp only [editTache, hmiss, apiFetch_ok h s _ _ status data hok]
      rw [he]
      exact editTacheFill_ok h _ data.fields hdate
    · intro status data hok ht hns
      have he : editTache h s id (.response status (.obj data))
          = editTacheFill h
              { s with
                requests := s.requests
                  ++ [requestOf s ("/tache/" ++ id.toJsString h) noOpts] }
              data.fields := by
        simp only [editTache, hmiss, apiFetch_ok h s _ _ status data hok]
      rw [he]
      exact editTacheFill_throws h _ data.fields ht hns

/-- Witness for C4 (amended): after every list has been loaded, id 5 is in none of the caches.
Editing project, contract, contact, supplier or budget line 5 only shows the banner; editing
task 5 shows `Tâche introuvable` when the request fails and when the server answers `null`,
fills the form and opens the modal when the server returns the task, and throws when the due
date of the returned task is a number. -/
theorem edit_cache_miss_witness :
    ((∀ r ∈ cachesLoaded.cache.projets,
          (Record.get r "id").strictEq (.num (JsNum.ofInt 5)) = false)
        ∧ (∀ r ∈ cachesLoaded.cache.contrats,
          (Record.get r "id").strictEq (.num (JsNum.ofInt 5)) = false)
        ∧ (∀ r ∈ cachesLoaded.cache.contacts,
          (Record.get r "id").strictEq (.num (JsNum.ofInt 5)) = false)
        ∧ (∀ r ∈ cachesLoaded.cache.fournisseurs,
          (Record.get r "id").strictEq (.num (JsNum.ofInt 5)) = false)
        ∧ (∀ r ∈ cachesLoaded.lignesCache,
          (Record.get r "id").strictEq (.num (JsNum.ofInt 5)) = false)
        ∧ (∀ r ∈ cachesLoaded.cache.taches,
          (Record.get r "id").strictEq (.num (JsNum.ofInt 5)) = false))
      ∧ editProjet sampleHost cachesLoaded (.num (JsNum.ofInt 5))
          = (.ok (), showMsg cachesLoaded "Données projet non chargées, rechargez" false)
      ∧ editContrat sampleHost cachesLoaded (.num (JsNum.ofInt 5))
          = (.ok (), showMsg cachesLoaded "Données non chargées, rechargez" false)
      ∧ editContact sampleHost cachesLoaded (.num (JsNum.ofInt 5))
          = (.ok (), showMsg cachesLoaded "Données non chargées, rechargez" false)
      ∧ editFournisseur sampleHost cachesLoaded (.num (JsNum.ofInt 5))
          = (.ok (), showMsg cachesLoaded "Données non chargées, rechargez" false)
      ∧ editLigne sampleHost cachesLoaded (.num (JsNum.ofInt 5))
          = (.ok (), showMsg cachesLoaded "Rechargez la liste avant de modifier" false)
      ∧ (editTache sampleHost cachesLoaded (.num (JsNum.ofInt 5))
            (.failed "Failed to fetch")).2.text "msg" = "Tâche introuvable"
      ∧ (editTache sampleHost cachesLoaded (.num (JsNum.ofInt 5))
            (.response 200 .null)).2.text "msg" = "Tâche introuvable"
      ∧ (editTache sampleHost cachesLoaded (.num (JsNum.ofInt 5))
            (.response 200 .falsy)).2.isOpen = cachesLoaded.isOpen
      ∧ (editTache sampleHost cachesLoaded (.num (JsNum.ofInt 5))
            (.response 200 (.obj tacheFive))).2.isOpen "modal-edit-tache" = true
      ∧ (editTache sampleHost cachesLoaded (.num (JsNum.ofInt 5))
            (.response 200 (.obj tacheFive))).2.value "edit-tache-titre"
          = inputValueOf sampleHost ((tacheFive.get "titre").or (.str ""))
      ∧ (editTache sampleHost cachesLoaded (.num (JsNum.ofInt 5))
            (.response 200 (.obj tacheFiveNumericDate))).1 = .error .typeError :=
  ⟨⟨by decide!, by decide!, by decide!, by decide!, by decide!, by decide!⟩,
    (edit_cache_miss sampleHost cachesLoaded (.num (JsNum.ofInt 5))).1 (by decide!),
    (edit_cache_miss sampleHost cachesLoaded (.num (JsNum.ofInt 5))).2.1 (by decide!),
    (edit_cache_miss sampleHost cachesLoaded (.num (JsNum.ofInt 5))).2.2.1 (by decide!),
    (edit_cache_miss sampleHost cachesLoaded (.num (JsNum.ofInt 5))).2.2.2.1 (by decide!),
    (edit_cache_miss sampleHost cachesLoaded (.num (JsNum.ofInt 5))).2.2.2.2.1 (by decide!),
    ((((edit_cache_miss sampleHost cachesLoaded (.num (JsNum.ofInt 5))).2.2.2.2.2.2
      (by decide!)).1 (.failed "Failed to fetch")).2 (.error "Failed to fetch") rfl).2.1,
    (((edit_cache_miss sampleHost cachesLoaded (.num (JsNum.ofInt 5))).2.2.2.2.2.2
      (by decide!)).2.1 200 .null (by decide) (Or.inl rfl)).2.1,
    (((edit_cache_miss sampleHost cachesLoaded (.num (JsNum.ofInt 5))).2.2.2.2.2.2
      (by decide!)).2.1 200 .falsy (by decide) (Or.inr rfl)).2.2,
    (((edit_cache_miss sampleHost cachesLoaded (.num (JsNum.ofInt 5))).2.2.2.2.2.2
      (by decide!)).2.2.1 200 tacheFive (by decide) (Or.inl (by decide))).2.1,
    (((edit_cache_miss sampleHost cachesLoaded (.num (JsNum.ofInt 5))).2.2.2.2.2.2
      (by decide!)).2.2.1 200 tacheFive (by decide) (Or.inl (by decide))).2.2.2.1,
    (((edit_cache_miss sampleHost cachesLoaded (.num (JsNum.ofInt 5))).2.2.2.2.2.2
      (by decide!)).2.2.2 200 tacheFiveNumericDate (by decide) (by decide!)
        (fun d hd => by
          have e : tacheFiveNumericDate.get "date_echeance" = .num (JsNum.ofInt 20260101) := by
            decide!
          rw [e] at hd
          cases hd)).1⟩

/-- C5: whenever the allocation request issued by `confirmImputer` succeeds (2xx response whose
`success` is truthy), `confirmImputer` returns normally, starts `loadBC` and then `initRefs`,
and itself changes no record of the reference snapshot nor of any cache. -/
theorem confirmImputer_success (h : Host) (s : State) (status : Nat) (res : Payload)
    (hsel : (s.selects "imputer-ligne").value ≠ "")
    (hok : statusOk status = true) (hsucc : (res.get "success").truthy = true) :
    (confirmImputer h s (.response status (.obj res))).1 = .ok ()
      ∧ (confirmImputer h s (.response status (.obj res))).2.spawned
          = s.spawned ++ [.loadBC, .initRefs]
      ∧ (confirmImputer h s (.response status (.obj res))).2.refs = s.refs
      ∧ (confirmImputer h s (.response status (.obj res))).2.lignesCache = s.lignesCache
      ∧ (confirmImputer h s (.response status (.obj res))).2.cache = s.cache
      ∧ (confirmImputer h s (.response status (.obj res))).2.budgetsList = s.budgetsList
      ∧ (confirmImputer h s (.response status (.obj res))).2.requests
          = s.requests ++ [requestOf s
              ("/bon_commande/" ++ s.currentBcId.toJsString h ++ "/imputer")
              ⟨some "POST",
                some [("ligne_id", .num (parseInt (s.selects "imputer-ligne").value))], none⟩] := by
  simp [confirmImputer, hsel, apiFetch_ok h s _ _ status res hok, guardedResult, hsucc, spawn,
    closeModal, showMsg]

/-- Witness for C5: purchase order 12 allocated to budget line 3. -/
theorem confirmImputer_success_witness :
    (imputerOpen.selects "imputer-ligne").value ≠ "" ∧ statusOk 200 = true
      ∧ (successPayload.get "success").truthy = true
      ∧ (confirmImputer sampleHost imputerOpen (.response 200 (.obj successPayload))).2.spawned
          = imputerOpen.spawned ++ [.loadBC, .initRefs]
      ∧ (confirmImputer sampleHost imputerOpen (.response 200 (.obj successPayload))).2.refs
          = imputerOpen.refs :=
  ⟨by decide, by decide, by decide,
    (confirmImputer_success sampleHost imputerOpen 200 successPayload (by decide) (by decide)
      (by decide)).2.1,
    (confirmImputer_success sampleHost imputerOpen 200 successPayload (by decide) (by decide)
      (by decide)).2.2.1⟩

/-- C10 at its failing inputs: with a valid budget-line form and an error response of the
server, `saveLigne` ends in a rejection that nothing handles and shows no banner; so do
`saveMembreEquipe` and `deleteMembreEquipe` on a network failure; `saveContrat`, on the same
error response, returns normally with the server's message in the banner and its modal still
open. -/
theorem unguarded_actions_reject :
    (saveLigne sampleHost ligneFormFilled (.response 500 refusedBody)).1
        = .error (.error "Budget clôturé")
      ∧ (saveLigne sampleHost ligneFormFilled (.response 500 refusedBody)).2.text "msg" = ""
      ∧ (saveLigne sampleHost ligneFormFilled (.response 500 refusedBody)).2.display "msg" = ""
      ∧ (saveMembreEquipe sampleHost membreFormFilled (.num (JsNum.ofInt 4))
            (.failed "Failed to fetch")).1 = .error (.error "Failed to fetch")
      ∧ (saveMembreEquipe sampleHost membreFormFilled (.num (JsNum.ofInt 4))
            (.failed "Failed to fetch")).2.display "msg" = ""
      ∧ (deleteMembreEquipe sampleHost startState (.num (JsNum.ofInt 4)) (.num (JsNum.ofInt 9))
            true (.failed "Failed to fetch")).1 = .error (.error "Failed to fetch")
      ∧ (deleteMembreEquipe sampleHost startState (.num (JsNum.ofInt 4)) (.num (JsNum.ofInt 9))
            true (.failed "Failed to fetch")).2.display "msg" = ""
      ∧ (saveContrat sampleHost contratFormFilled (.response 500 refusedBody)).1 = .ok ()
      ∧ (saveContrat sampleHost contratFormFilled (.response 500 refusedBody)).2.text "msg"
          = "Budget clôturé"
      ∧ (saveContrat sampleHost contratFormFilled (.response 500 refusedBody)).2.isOpen
          "modal-edit-contrat" = true := by
  refine ⟨?_, ?_, ?_, ?_, ?_, ?_, ?_, ?_, ?_, ?_⟩ <;> decide!

/-- C2, as stated, fails: with HT `9` and VAT `5.5` (both exact in binary64) the exact amount
is 9.495, which rounds to 9.50 with a half cent going up as well as going to the even cent,
but `updateTtcPreview` computes the number 9.49, because the floating product
`9 * 1.055 * 100` is 949.4999999999999. -/
theorem previewTtc_nine :
    (parseFloat (bcFormNine.value "edit-bc-montant-ht")).toRat = 9
      ∧ (parseFloat (bcFormNine.value "edit-bc-tva")).toRat = 11 / 2
      ∧ specTtcCents 9 (11 / 2) = 950
      ∧ specTtcCentsEven 9 (11 / 2) = 950
      ∧ previewTtc bcFormNine = JsNum.ofRatio 949 100
      ∧ previewTtc bcFormNine ≠ JsNum.ofRatio (specTtcCents 9 (11 / 2)) 100 := by
  have hU := unit_pos
  have h9 : parseFloat (bcFormNine.value "edit-bc-montant-ht")
      = .fin ((9 * unit : Nat) : Int) := by decide!
  have h55 : parseFloat (bcFormNine.value "edit-bc-tva")
      = .fin ((11 * (unit / 2) : Nat) : Int) := by decide!
  have hhalf : ((unit / 2 : Nat) : ℚ) = (unit : ℚ) / 2 := by
    have h2 : ((unit : Nat) : ℚ) = 2 * ((unit / 2 : Nat) : ℚ) := by exact_mod_cast unit_even.1
    linarith
  have hx : (9 : ℚ) * (1 + 11 / 2 / 100) * 100 = 1899 / 2 := by norm_num
  have hfloor : ⌊(1899 / 2 : ℚ)⌋ = 949 := by
    rw [Int.floor_eq_iff]; norm_num
  have hspec : specTtcCents 9 (11 / 2) = 950 := by
    unfold specTtcCents
    rw [hx, Int.floor_eq_iff]; norm_num
  have hprev : previewTtc bcFormNine = JsNum.ofRatio 949 100 := by decide!
  refine ⟨?_, ?_, hspec, ?_, hprev, ?_⟩
  · rw [h9, JsNum.toRat, Int.cast_natCast, Nat.cast_mul, mul_div_assoc, div_self hU.ne']
    norm_num
  · rw [h55, JsNum.toRat, Int.cast_natCast, Nat.cast_mul, hhalf]
    field_simp
    ring
  · unfold specTtcCentsEven
    simp only [hx, hfloor]
    norm_num
  · rw [hprev, hspec]; decide!

/-- C2 (amended): when the HT and VAT fields hold finite non-negative numbers, at most `2 ^ 40`
and `2 ^ 20`, the TTC that `updateTtcPreview` computes, writes to the hidden field and shows is
the binary64 number nearest to `n / 100` for a whole number of cents `n` that differs from the
exact `100 × ht × (1 + vat/100)` by at most one half plus the fraction `2 ^ (-50)` of that
amount plus one: it is the exact amount rounded to 2 decimals unless that amount lies within
the floating-point error of a half cent.  In particular HT `100` with VAT `20` gives 120.00
and HT `133.33` with VAT `5.5` gives 140.66. -/
theorem previewTtc_rounds (s : State) (ht tva : Nat)
    (hht : parseFloat (s.value "edit-bc-montant-ht") = .fin (ht : Int))
    (htva : parseFloat (s.value "edit-bc-tva") = .fin (tva : Int))
    (hb1 : (ht : ℚ) / (unit : ℚ) ≤ 2 ^ 40) (hb2 : (tva : ℚ) / (unit : ℚ) ≤ 2 ^ 20) :
    (∃ n : Nat, previewTtc s = JsNum.ofRatio (n : Int) 100
        ∧ |(n : ℚ) - exactCents ht tva| ≤ 1 / 2 + (exactCents ht tva + 1) / 2 ^ 50)
      ∧ (∀ h : Host,
          (updateTtcPreview h s).value "edit-bc-montant-ttc"
              = inputValueOf h (.num (previewTtc s))
            ∧ (updateTtcPreview h s).text "edit-bc-ttc-preview"
              = h.toLocaleStringFr (previewTtc s) 2 none ++ " €")
      ∧ previewTtc bcFormHundred = JsNum.ofRatio 12000 100
      ∧ previewTtc bcFormDecimal = JsNum.ofRatio 14066 100 := by
  refine ⟨?_, ?_, by decide!, by decide!⟩
  · have hor : ∀ k : Int, (JsNum.fin k).or .zero = .fin k := by
      intro k
      by_cases hk : k = 0
      · simp [JsNum.or, JsNum.truthy, JsNum.zero, hk]
      · simp [JsNum.or, JsNum.truthy, hk]
    obtain ⟨n, hn, hb⟩ := ttcOf_spec ht tva hb1 hb2
    exact ⟨n, by rw [previewTtc, hht, htva, hor, hor]; exact hn, hb⟩
  · intro h
    simp [updateTtcPreview, setValue, setText, upd]

/-- Witness for C2 (amended): the form with HT `100` and VAT `20`. -/
theorem previewTtc_rounds_witness :
    parseFloat (bcFormHundred.value "edit-bc-montant-ht") = .fin ((100 * unit : Nat) : Int)
      ∧ parseFloat (bcFormHundred.value "edit-bc-tva") = .fin ((20 * unit : Nat) : Int)
      ∧ ((100 * unit : Nat) : ℚ) / (unit : ℚ) ≤ 2 ^ 40
      ∧ ((20 * unit : Nat) : ℚ) / (unit : ℚ) ≤ 2 ^ 20
      ∧ (∃ n : Nat, previewTtc bcFormHundred = JsNum.ofRatio (n : Int) 100
          ∧ |(n : ℚ) - exactCents (100 * unit) (20 * unit)|
              ≤ 1 / 2 + (exactCents (100 * unit) (20 * unit) + 1) / 2 ^ 50) :=
  ⟨by decide!, by decide!,
    by rw [Nat.cast_mul, mul_div_assoc, div_self unit_pos.ne']; norm_num,
    by rw [Nat.cast_mul, mul_div_assoc, div_self unit_pos.ne']; norm_num,
    (previewTtc_rounds bcFormHundred (100 * unit) (20 * unit) (by decide!) (by decide!)
      (by rw [Nat.cast_mul, mul_div_assoc, div_self unit_pos.ne']; norm_num)
      (by rw [Nat.cast_mul, mul_div_assoc, div_self unit_pos.ne']; norm_num)).1⟩

/-- C11 at its failing inputs: with a valid budget-line form, `saveLigne` issues `GET /ligne`
without body when the form carries no id and `GET /ligne/7` without body when it carries the
id 7, because the method is passed where `apiFetch` expects its options and the body is a
third argument `apiFetch` does not have; `saveContrat`, written with an options object, issues
`PUT /contrat/42` with its fields as body. -/
theorem saveLigne_request_is_get :
    (saveLigne sampleHost ligneFormFilled (.response 200 (.obj successPayload))).2.requests
        = [⟨"/api/ligne", "GET", [("Content-Type", "application/json")], none⟩]
      ∧ (saveLigne sampleHost ligneFormEdit (.response 200 (.obj successPayload))).2.requests
        = [⟨"/api/ligne/7", "GET", [("Content-Type", "application/json")], none⟩]
      ∧ (saveContrat sampleHost contratFormFilled (.response 200 (.obj successPayload))).2.requests
        = [⟨"/api/contrat/42", "PUT", [("Content-Type", "application/json")],
            some (saveContratBody contratFormFilled)⟩] := by
  refine ⟨?_, ?_, ?_⟩ <;> decide!

/-- C15 at its failing input: a response with status 500 whose body is the JSON value `null`
makes `apiFetch` fail with the `TypeError` raised by reading `err.error`, not with an error
whose message is `HTTP 500`. -/
theorem apiFetch_null_error_body :
    (apiFetch sampleHost startState "/budget" noOpts (.response 500 .null)).1
        = .error .typeError
      ∧ (apiFetch sampleHost startState "/budget" noOpts (.response 500 .null)).1
        ≠ .error (.error "HTTP 500") := by
  constructor <;> decide

/-- C16: a response with status 403 makes `apiFetch` fail with the error
`Accès interdit — droits insuffisants` and leaves the storage and the login gate as they
are; whatever the outcome of the request, the storage and the login gate are unchanged unless
the status is 401. -/
theorem apiFetch_session_only_on_401 (h : Host) (s : State) (path : String) (opts : FetchOpts) :
    (∀ body, (apiFetch h s path opts (.response 403 body)).1
          = .error (.error "Accès interdit — droits insuffisants")
        ∧ (apiFetch h s path opts (.response 403 body)).2.storage = s.storage
        ∧ (apiFetch h s path opts (.response 403 body)).2.display = s.display
        ∧ (apiFetch h s path opts (.response 403 body)).2.value = s.value)
      ∧ (∀ net, (∀ body, net ≠ .response 401 body) →
          (apiFetch h s path opts net).2.storage = s.storage
            ∧ (apiFetch h s path opts net).2.display = s.display
            ∧ (apiFetch h s path opts net).2.value = s.value) := by
  constructor
  · intro body
    simp [apiFetch]
  · intro net hnet
    unfold apiFetch
    cases net with
    | failed m => exact ⟨rfl, rfl, rfl⟩
    | response status body =>
      have h401 : status ≠ 401 := fun he => hnet body (by rw [he])
      simp only [h401, if_false]
      split
      · exact ⟨rfl, rfl, rfl⟩
      · split
        · cases body <;> exact ⟨rfl, rfl, rfl⟩
        · cases body <;> exact ⟨rfl, rfl, rfl⟩

/-- Witness for C16: a refusal with status 403 and a server error, with the credential `abc`
stored. -/
theorem apiFetch_session_only_on_401_witness :
    (apiFetch sampleHost loggedIn "/budget" noOpts (.response 403 refusedBody)).1
        = .error (.error "Accès interdit — droits insuffisants")
      ∧ (apiFetch sampleHost loggedIn "/budget" noOpts (.response 403 refusedBody)).2.storage
          = loggedIn.storage
      ∧ (∀ body, FetchResult.response 500 refusedBody ≠ .response 401 body)
      ∧ (apiFetch sampleHost loggedIn "/budget" noOpts (.response 500 refusedBody)).2.storage
          = loggedIn.storage
      ∧ (apiFetch sampleHost loggedIn "/budget" noOpts (.response 500 refusedBody)).2.display
          = loggedIn.display :=
  ⟨((apiFetch_session_only_on_401 sampleHost loggedIn "/budget" noOpts).1 refusedBody).1,
    ((apiFetch_session_only_on_401 sampleHost loggedIn "/budget" noOpts).1 refusedBody).2.1,
    fun body he => by injection he with h1 _; exact absurd h1 (by decide),
    ((apiFetch_session_only_on_401 sampleHost loggedIn "/budget" noOpts).2
      (.response 500 refusedBody)
      (fun body he => by injection he with h1 _; exact absurd h1 (by decide))).1,
    ((apiFetch_session_only_on_401 sampleHost loggedIn "/budget" noOpts).2
      (.response 500 refusedBody)
      (fun body he => by injection he with h1 _; exact absurd h1 (by decide))).2.1⟩

/-- C17: when the options set no headers of their own, the request `apiFetch` issues targets
`/api` followed by the path; with a (non-empty) credential stored its headers are the content
type and `Authorization: Bearer <credential>`; with no credential stored (or an empty one) its
headers are the content type alone, without `Authorization`. -/
theorem apiFetch_request (h : Host) (s : State) (path : String) (opts : FetchOpts)
    (net : FetchResult) (hno : opts.headers = none) :
    (apiFetch h s path opts net).2.requests = s.requests ++ [requestOf s path opts]
      ∧ (requestOf s path opts).url = "/api" ++ path
      ∧ (∀ t, getToken s = some t → t ≠ "" →
          (requestOf s path opts).headers
            = [("Content-Type", "application/json"), ("Authorization", "Bearer " ++ t)])
      ∧ ((getToken s = none ∨ getToken s = some "") →
          (requestOf s path opts).headers = [("Content-Type", "application/json")]
            ∧ ∀ x ∈ (requestOf s path opts).headers, x.1 ≠ "Authorization") := by
  refine ⟨(apiFetch_logs_request h s path opts net).1, rfl, ?_, ?_⟩
  · intro t ht hne
    simp [requestOf, hno, authHeaders, ht, hne]
  · intro hnone
    have hh : (requestOf s path opts).headers = [("Content-Type", "application/json")] := by
      rcases hnone with ht | ht <;> simp [requestOf, hno, authHeaders, ht]
    refine ⟨hh, ?_⟩
    intro x hx
    rw [hh, List.mem_singleton] at hx
    rw [hx]
    decide

/-- Witness for C17: `apiFetch('/budget')` with the credential `abc` stored. -/
theorem apiFetch_request_witness :
    noOpts.headers = none ∧ getToken loggedIn = some "abc"
      ∧ (apiFetch sampleHost loggedIn "/budget" noOpts (.failed "Failed to fetch")).2.requests
          = loggedIn.requests ++ [requestOf loggedIn "/budget" noOpts]
      ∧ (requestOf loggedIn "/budget" noOpts).headers
          = [("Content-Type", "application/json"), ("Authorization", "Bearer " ++ "abc")] :=
  ⟨rfl, by decide,
    (apiFetch_request sampleHost loggedIn "/budget" noOpts (.failed "Failed to fetch") rfl).1,
    (apiFetch_request sampleHost loggedIn "/budget" noOpts (.failed "Failed to fetch")
      rfl).2.2.1 "abc" (by decide) (by decide)⟩

/-- C18: the label `cLabel` of a contract record is `numero – objet` when the number and the
object are both present, the number alone when the object is missing or empty, and
`Contrat #<id>` when the number is missing or empty; it is the label function of the contract
select `edit-bc-contrat` in `initRefs`. -/
theorem cLabel_spec (h : Host) (c : Record) (r : Refs) (services : List Record) :
    ((Record.get c "numero_contrat").truthy = true → (Record.get c "objet").truthy = true →
        cLabel h c = .str ((Record.get c "numero_contrat").toJsString h ++ " – "
          ++ (Record.get c "objet").toJsString h))
      ∧ ((Record.get c "numero_contrat").truthy = true → (Record.get c "objet").truthy = false →
        cLabel h c = .str ((Record.get c "numero_contrat").toJsString h))
      ∧ ((Record.get c "numero_contrat").truthy = false →
        cLabel h c = .str ("Contrat #" ++ (Record.get c "id").toJsString h))
      ∧ ("edit-bc-contrat", r.contrats, LabelFn.fn (cLabel h)) ∈ refFills h r services := by
  refine ⟨?_, ?_, ?_, ?_⟩
  · intro hn ho
    simp [cLabel, hn, ho, String.append_assoc]
  · intro hn ho
    simp [cLabel, hn, ho]
  · intro hn
    simp [cLabel, hn]
  · simp [refFills]

/-- Witness for C18: the three forms of the label on sample contracts. -/
theorem cLabel_spec_witness :
    cLabel sampleHost contratFull = .str "C-2024-01 – Maintenance"
      ∧ cLabel sampleHost contratNumberOnly = .str "C-2024-01"
      ∧ cLabel sampleHost contratObjectOnly = .str "Contrat #7" :=
  ⟨(cLabel_spec sampleHost contratFull startState.refs []).1 (by decide) (by decide),
    (cLabel_spec sampleHost contratNumberOnly startState.refs []).2.1 (by decide) (by decide),
    ((cLabel_spec sampleHost contratObjectOnly startState.refs []).2.2.1 (by decide)).trans
      (by decide!)⟩

/-- C19: the label `lLabel` of a budget-line record is its `libelle`, or `Ligne #<id>` when
the `libelle` is missing or empty, followed by ` — Solde: `, the balance and ` €`; the
balance is `montant_solde` (zero when missing or falsy) formatted by the locale with exactly
two fraction digits, so `fmt` never yields its `-` placeholder here; it is the label function
of the three line selects of `initRefs`. -/
theorem lLabel_spec (h : Host) (l : Record) (r : Refs) (services : List Record) :
    lLabel h l
        = .str ((if (Record.get l "libelle").truthy then (Record.get l "libelle").toJsString h
              else "Ligne #" ++ (Record.get l "id").toJsString h)
            ++ " — Solde: "
            ++ h.toLocaleStringFr
                (if (Record.get l "montant_solde").truthy
                  then toNumber h (Record.get l "montant_solde") else .fin 0) 2 (some 2)
            ++ " €")
      ∧ ("bc-ligne", r.lignes, LabelFn.fn (lLabel h)) ∈ refFills h r services
      ∧ ("edit-bc-ligne", r.lignes, LabelFn.fn (lLabel h)) ∈ refFills h r services
      ∧ ("imputer-ligne", r.lignes, LabelFn.fn (lLabel h)) ∈ refFills h r services := by
  refine ⟨?_, ?_, ?_, ?_⟩
  · unfold lLabel
    simp only [fmt_or_zero]
    by_cases hl : (Record.get l "libelle").truthy = true
    · simp [JVal.or, hl]
    · simp [JVal.or, hl, JVal.toJsString]
  · simp [refFills]
  · simp [refFills]
  · simp [refFills]

/-- C20: the labels `eLabel`, `pLabel` and `sLabel` of an entity, project or service record
are `code – nom` when the code is present and non-empty and the `nom` property alone
otherwise; the label `fLabel` of a supplier record is its `nom` property. -/
theorem code_name_labels (h : Host) (x : Record) :
    ((Record.get x "code").truthy = true →
        eLabel h x = .str ((Record.get x "code").toJsString h ++ " – "
            ++ (Record.get x "nom").toJsString h)
          ∧ pLabel h x = eLabel h x ∧ sLabel h x = eLabel h x)
      ∧ ((Record.get x "code").truthy = false →
        eLabel h x = Record.get x "nom" ∧ pLabel h x = Record.get x "nom"
          ∧ sLabel h x = Record.get x "nom")
      ∧ fLabel x = Record.get x "nom" := by
  refine ⟨?_, ?_, rfl⟩
  · intro hc
    simp [eLabel, pLabel, sLabel, hc]
  · intro hc
    simp [eLabel, pLabel, sLabel, hc]

/-- Witness for C20: an entity with the code `DSI` and an entity with an empty code. -/
theorem code_name_labels_witness :
    eLabel sampleHost entiteCoded = .str "DSI – Direction SI"
      ∧ sLabel sampleHost entiteUncoded = .str "Mairie" :=
  ⟨((code_name_labels sampleHost entiteCoded).1 (by decide)).1,
    ((code_name_labels sampleHost entiteUncoded).2.1 (by decide)).2.2⟩

/-- C14: `decodeToken` returns a value on every token.  The value is `null` when the token
has no second dot-separated segment, when that segment (with `-` and `_` replaced by `+` and
`/`) is not base64 for `atob`, and when the decoded text is not JSON; otherwise it is what
`JSON.parse` makes of the decoded text: the claims when it is an object, and `null` or a
falsy value when the text is the JSON of one.  Whatever the `try` block throws gives `null`,
and a token `a.b.c` yields the same value whatever its signature segment `c`. -/
theorem decodeToken_spec (h : Host) (t : String) :
    ((jsSplit '.' t.toList)[1]? = none → decodeToken h t = .null)
      ∧ (∀ seg, (jsSplit '.' t.toList)[1]? = some seg →
          atob (replaceAll '_' '/' (replaceAll '-' '+' seg)) = none → decodeToken h t = .null)
      ∧ (∀ seg text m, (jsSplit '.' t.toList)[1]? = some seg →
          atob (replaceAll '_' '/' (replaceAll '-' '+' seg)) = some text →
          h.jsonParse (String.mk text) = .invalid m → decodeToken h t = .null)
      ∧ (∀ seg text p, (jsSplit '.' t.toList)[1]? = some seg →
          atob (replaceAll '_' '/' (replaceAll '-' '+' seg)) = some text →
          h.jsonParse (String.mk text) = .obj p → decodeToken h t = .obj p)
      ∧ (∀ e, decodeTokenBody h t = .error e → decodeToken h t = .null)
      ∧ (∀ a b c c2 : List Char, '.' ∉ a → '.' ∉ b →
          decodeToken h (String.mk (a ++ '.' :: (b ++ '.' :: c)))
            = decodeToken h (String.mk (a ++ '.' :: (b ++ '.' :: c2))))
      ∧ (∀ seg text, (jsSplit '.' t.toList)[1]? = some seg →
          atob (replaceAll '_' '/' (replaceAll '-' '+' seg)) = some text →
          (h.jsonParse (String.mk text) = .null → decodeToken h t = .null)
            ∧ (h.jsonParse (String.mk text) = .falsy → decodeToken h t = .falsy)) := by
  refine ⟨?_, ?_, ?_, ?_, ?_, ?_, ?_⟩
  · intro hnone
    unfold decodeToken decodeTokenBody
    rw [hnone]
  · intro seg hseg hat
    rw [decodeToken_of_segment h t seg hseg, hat]
  · intro seg text m hseg hat hparse
    rw [decodeToken_of_segment h t seg hseg, hat]
    simp only [hparse]
  · intro seg text p hseg hat hparse
    rw [decodeToken_of_segment h t seg hseg, hat]
    simp only [hparse]
  · intro e he
    unfold decodeToken
    rw [he]
  · intro a b c c2 ha hb
    rw [decodeToken_of_segment h _ b (jsSplit_second a b c ha hb),
      decodeToken_of_segment h _ b (jsSplit_second a b c2 ha hb)]
  · intro seg text hseg hat
    rw [decodeToken_of_segment h t seg hseg, hat]
    constructor
    · intro hparse
      simp only [hparse]
    · intro hparse
      simp only [hparse]

/-- Witness for C14: a token without dot, a token whose second segment is not base64, a token
whose claims are not JSON, and the sample token, whose claims are returned. -/
theorem decodeToken_spec_witness :
    decodeToken sampleHost "abc" = .null
      ∧ decodeToken sampleHost "a.b.c" = .null
      ∧ decodeToken sampleHost "a.bm90IGpzb24.c" = .null
      ∧ decodeToken sampleHost tokenFresh = .obj claimsFresh
      ∧ decodeToken sampleHost "a.bnVsbA.c" = decodeToken sampleHost "a.bnVsbA.zzz" :=
  ⟨(decodeToken_spec sampleHost "abc").1 (by decide),
    (decodeToken_spec sampleHost "a.b.c").2.1 ['b'] (by decide) (by decide),
    (decodeToken_spec sampleHost "a.bm90IGpzb24.c").2.2.1 "bm90IGpzb24".toList "not json".toList
      "Unexpected token" (by decide) (by decide!) (by decide!),
    (decodeToken_spec sampleHost tokenFresh).2.2.2.1
      "eyJleHAiOjIwMDAwMDAwMDAsInJvbGUiOiJhZG1pbiIsInByZW5vbSI6IkFkYSIsIm5vbSI6Ik1hcnRpbiJ9".toList
      "\x7b\"exp\":2000000000,\"role\":\"admin\",\"prenom\":\"Ada\",\"nom\":\"Martin\"\x7d".toList
      claimsFresh (by decide!) (by decide!) (by decide!),
    (decodeToken_spec sampleHost "").2.2.2.2.2.1 ['a'] "bnVsbA".toList ['c'] "zzz".toList
      (by decide) (by decide)⟩

/-- C13: at page load the login gate is hidden, the credential kept and the reference data
requested exactly when a non-empty credential is stored, `decodeToken` gives claims for it and
`exp * 1000` is greater than the current time.  With any other non-empty credential (one that
decodes to `null`, to a falsy value, or to claims whose `exp * 1000` is not greater than the
current time) the credential is removed and the login gate is shown; with no credential (or
an empty one) the login gate is shown and the storage is left as it is. -/
theorem startup_unlocks_iff (h : Host) (s : State) (now : JsNum) :
    (∀ t p, getToken s = some t → t ≠ "" → decodeToken h t = .obj p →
        JsNum.gt (JsNum.mul (toNumber h (p.get "exp")) JsNum.thousand) now = true →
        (startup h s now).display "login-overlay" = "none"
          ∧ (startup h s now).storage = s.storage
          ∧ (startup h s now).spawned
              = s.spawned ++ [.initRefs, .loadDashboard, .loadNotifications])
      ∧ (∀ t, getToken s = some t → t ≠ "" →
          (decodeToken h t = .null ∨ decodeToken h t = .falsy
            ∨ ∃ p, decodeToken h t = .obj p
                ∧ JsNum.gt (JsNum.mul (toNumber h (p.get "exp")) JsNum.thousand) now = false) →
          getToken (startup h s now) = none
            ∧ (startup h s now).display "login-overlay" = "flex"
            ∧ (startup h s now).value "login-pass" = ""
            ∧ (startup h s now).spawned = s.spawned)
      ∧ ((getToken s = none ∨ getToken s = some "") →
          (startup h s now).storage = s.storage
            ∧ (startup h s now).display "login-overlay" = "flex"
            ∧ (startup h s now).value "login-pass" = ""
            ∧ (startup h s now).spawned = s.spawned)
      ∧ ((startup h s now).display "login-overlay" = "none" ↔
          ∃ t p, getToken s = some t ∧ t ≠ "" ∧ decodeToken h t = .obj p
            ∧ JsNum.gt (JsNum.mul (toNumber h (p.get "exp")) JsNum.thousand) now = true) := by
  have hvalid : ∀ t p, getToken s = some t → t ≠ "" → decodeToken h t = .obj p →
      JsNum.gt (JsNum.mul (toNumber h (p.get "exp")) JsNum.thousand) now = true →
      startup h s now
        = spawn (spawn (spawn (applyRoleUI h (hideLoginOverlay s) p) .initRefs) .loadDashboard)
            .loadNotifications := by
    intro t p ht hne hdec hgt
    simp [startup, ht, hne, hdec, hgt]
  have hpurge : ∀ t, getToken s = some t → t ≠ "" →
      (decodeToken h t = .null ∨ decodeToken h t = .falsy
        ∨ ∃ p, decodeToken h t = .obj p
            ∧ JsNum.gt (JsNum.mul (toNumber h (p.get "exp")) JsNum.thousand) now = false) →
      startup h s now = showLoginOverlay (removeToken s) := by
    intro t ht hne hcase
    rcases hcase with hdec | hdec | ⟨p, hdec, hgt⟩
    · simp [startup, ht, hne, hdec]
    · simp [startup, ht, hne, hdec]
    · simp [startup, ht, hne, hdec, hgt]
  have hnone : (getToken s = none ∨ getToken s = some "") →
      startup h s now = showLoginOverlay s := by
    intro hcase
    rcases hcase with ht | ht <;> simp [startup, ht]
  refine ⟨?_, ?_, ?_, ?_⟩
  · intro t p ht hne hdec hgt
    rw [hvalid t p ht hne hdec hgt]
    have hf := applyRoleUI_frame h (hideLoginOverlay s) p
    refine ⟨?_, ?_, ?_⟩
    · show (applyRoleUI h (hideLoginOverlay s) p).display "login-overlay" = "none"
      rw [hf.2.1]
      simp [hideLoginOverlay, upd]
    · show (applyRoleUI h (hideLoginOverlay s) p).storage = s.storage
      rw [hf.1]
      rfl
    · show (applyRoleUI h (hideLoginOverlay s) p).spawned ++ [Call.initRefs]
          ++ [Call.loadDashboard] ++ [Call.loadNotifications] = _
      rw [hf.2.2.1]
      simp [hideLoginOverlay]
  · intro t ht hne hcase
    rw [hpurge t ht hne hcase]
    simp [showLoginOverlay, removeToken, getToken, upd]
  · intro hcase
    rw [hnone hcase]
    simp [showLoginOverlay, upd]
  · constructor
    · intro hdisp
      rcases ht : getToken s with _ | t
      · rw [hnone (Or.inl ht)] at hdisp
        simp [showLoginOverlay, upd] at hdisp
      · by_cases hne : t = ""
        · rw [hnone (Or.inr (by rw [ht, hne]))] at hdisp
          simp [showLoginOverlay, upd] at hdisp
        · rcases hdec : decodeToken h t with _ | _ | p
          · rw [hpurge t ht hne (Or.inl hdec)] at hdisp
            simp [showLoginOverlay, removeToken, upd] at hdisp
          · rw [hpurge t ht hne (Or.inr (Or.inl hdec))] at hdisp
            simp [showLoginOverlay, removeToken, upd] at hdisp
          · rcases hgt : JsNum.gt (JsNum.mul (toNumber h (p.get "exp")) JsNum.thousand) now
            · rw [hpurge t ht hne (Or.inr (Or.inr ⟨p, hdec, hgt⟩))] at hdisp
              simp [showLoginOverlay, removeToken, upd] at hdisp
            · exact ⟨t, p, rfl, hne, hdec, hgt⟩
    · rintro ⟨t, p, ht, hne, hdec, hgt⟩
      rw [hvalid t p ht hne hdec hgt]
      show (applyRoleUI h (hideLoginOverlay s) p).display "login-overlay" = "none"
      rw [(applyRoleUI_frame h (hideLoginOverlay s) p).2.1]
      simp [hideLoginOverlay, upd]

/-- Witness for C13: the sample token, valid until 2033, unlocks the page in 2026; the token
expired in 2001 is removed. -/
theorem startup_unlocks_iff_witness :
    ((startup sampleHost sessionFresh nowSample).display "login-overlay" = "none"
        ∧ (startup sampleHost sessionFresh nowSample).storage = sessionFresh.storage
        ∧ (startup sampleHost sessionFresh nowSample).spawned
            = sessionFresh.spawned ++ [.initRefs, .loadDashboard, .loadNotifications])
      ∧ (getToken (startup sampleHost sessionExpired nowSample) = none
        ∧ (startup sampleHost sessionExpired nowSample).display "login-overlay" = "flex"
        ∧ (startup sampleHost sessionExpired nowSample).value "login-pass" = ""
        ∧ (startup sampleHost sessionExpired nowSample).spawned = sessionExpired.spawned) :=
  ⟨(startup_unlocks_iff sampleHost sessionFresh nowSample).1 tokenFresh claimsFresh
      (by decide) (by decide) (by decide!) (by decide!),
    (startup_unlocks_iff sampleHost sessionExpired nowSample).2.1 tokenExpired
      (by decide) (by decide) (Or.inr (Or.inr ⟨claimsExpired, by decide!, by decide!⟩))⟩

/-- C12, counterexample: with the status filter `VALIDE` and the search text `serveur`, a
returned list holding a draft order for licences is rendered as it is: the table body is the
row of that order.  The filters only appear in the query of the list request. -/
theorem loadBC_keeps_draft :
    bcFiltered.value "bc-filter-statut" = "VALIDE" ∧ bcFiltered.value "bc-search" = "serveur"
      ∧ Record.get bcDraft "statut" = .str "BROUILLON"
      ∧ (loadBC sampleHost bcFiltered (.response 200 (.obj bcListDraft))
          (.response 200 (.obj bcStatsEmpty))).text "bc-tbody" = bcRow sampleHost bcDraft
      ∧ bcRow sampleHost bcDraft ≠ ""
      ∧ (loadBC sampleHost bcFiltered (.response 200 (.obj bcListDraft))
          (.response 200 (.obj bcStatsEmpty))).requests.map Request.url
        = ["/api/bon_commande?statut=VALIDE&search=serveur", "/api/bon_commande/stats"] := by
  refine ⟨by decide, by decide, by decide, ?_, ?_, ?_⟩ <;> decide!

/-- C12, amended: `loadBC` sends the status filter and the search text, when they are not
empty, as the parameters `statut` and `search` of its list request, and does not filter the
returned list: when both requests succeed with an object body, the table body is the
concatenation of the rows of all the orders of the returned list, in order. -/
theorem loadBC_renders_returned_list (h : Host) (s : State) (status1 status2 : Nat)
    (d stats : Payload) (hok1 : statusOk status1 = true) (hok2 : statusOk status2 = true) :
    (loadBC h s (.response status1 (.obj d)) (.response status2 (.obj stats))).text "bc-tbody"
        = String.join ((d.listOr "list").map (bcRow h))
      ∧ (loadBC h s (.response status1 (.obj d)) (.response status2 (.obj stats))).requests
        = s.requests ++ [requestOf s ("/bon_commande?" ++ urlSearchParams (bcParams s)) noOpts,
            requestOf s "/bon_commande/stats" noOpts]
      ∧ (s.present "bc-filter-statut" = true → s.value "bc-filter-statut" ≠ "" →
          ("statut", s.value "bc-filter-statut") ∈ bcParams s)
      ∧ (s.present "bc-search" = true → s.value "bc-search" ≠ "" →
          ("search", s.value "bc-search") ∈ bcParams s) := by
  refine ⟨?_, ?_, ?_, ?_⟩
  · simp [loadBC, settle_ok, hok1, hok2, setText, upd]
  · simp [loadBC, settle_ok, hok1, hok2, setText]
  · intro hp hv
    simp [bcParams, optionalValue, hp, hv]
  · intro hp hv
    simp [bcParams, optionalValue, hp, hv]

/-- Witness for C12: the filtered view and the response holding the draft order. -/
theorem loadBC_renders_returned_list_witness :
    (loadBC sampleHost bcFiltered (.response 200 (.obj bcListDraft))
        (.response 200 (.obj bcStatsEmpty))).text "bc-tbody"
        = String.join ((bcListDraft.listOr "list").map (bcRow sampleHost))
      ∧ ("statut", bcFiltered.value "bc-filter-statut") ∈ bcParams bcFiltered
      ∧ ("search", bcFiltered.value "bc-search") ∈ bcParams bcFiltered :=
  ⟨(loadBC_renders_returned_list sampleHost bcFiltered 200 200 bcListDraft bcStatsEmpty
      (by decide) (by decide)).1,
    (loadBC_renders_returned_list sampleHost bcFiltered 200 200 bcListDraft bcStatsEmpty
      (by decide) (by decide)).2.2.1 (by decide) (by decide),
    (loadBC_renders_returned_list sampleHost bcFiltered 200 200 bcListDraft bcStatsEmpty
      (by decide) (by decide)).2.2.2 (by decide) (by decide)⟩

/-- C25: after `setToken(t)`, `getToken()` returns `t`; after `removeToken()`, `getToken()`
returns nothing; `getToken` depends on the storage entry `bmp_jwt` alone, and `setToken` and
`removeToken` change that entry alone: every other stored key, and everything outside the
storage, is left as it was. -/
theorem token_round_trip (s : State) (t : String) :
    getToken (setToken s t) = some t
      ∧ getToken (removeToken s) = none
      ∧ getToken (removeToken (setToken s t)) = none
      ∧ TOKEN_KEY = "bmp_jwt"
      ∧ (∀ k, k ≠ TOKEN_KEY →
          (setToken s t).storage k = s.storage k ∧ (removeToken s).storage k = s.storage k)
      ∧ (∀ s2 : State, s2.storage TOKEN_KEY = s.storage TOKEN_KEY → getToken s2 = getToken s)
      ∧ { setToken s t with storage := s.storage } = s
      ∧ { removeToken s with storage := s.storage } = s := by
  refine ⟨?_, ?_, ?_, rfl, ?_, ?_, rfl, rfl⟩
  · simp [getToken, setToken, upd]
  · simp [getToken, removeToken, upd]
  · simp [getToken, removeToken, upd]
  · intro k hk
    simp [setToken, removeToken, upd, hk]
  · intro s2 h2
    exact h2

/-- Witness for C25: storing the sample token over the credential `abc` leaves the key
`theme` as it was. -/
theorem token_round_trip_witness :
    "theme" ≠ TOKEN_KEY
      ∧ (setToken loggedIn tokenFresh).storage "theme" = loggedIn.storage "theme"
      ∧ (removeToken loggedIn).storage "theme" = loggedIn.storage "theme"
      ∧ getToken (setToken loggedIn tokenFresh) = some tokenFresh :=
  ⟨by decide, ((token_round_trip loggedIn tokenFresh).2.2.2.2.1 "theme" (by decide)).1,
    ((token_round_trip loggedIn tokenFresh).2.2.2.2.1 "theme" (by decide)).2,
    (token_round_trip loggedIn tokenFresh).1⟩

/-- C24, counterexample: after `openImputer(7)` and `closeModal('modal-imputer-bc')`, or a
click on the overlay of that dialog, the dialog is closed and `_currentBcId` is still 7, not
`null`. -/
theorem slot_survives_close :
    (closeModal (openImputer sampleHost startState (.num (JsNum.ofInt 7)))
        "modal-imputer-bc").currentBcId = .num (JsNum.ofInt 7)
      ∧ (closeModal (openImputer sampleHost startState (.num (JsNum.ofInt 7)))
        "modal-imputer-bc").currentBcId ≠ .null
      ∧ (closeModal (openImputer sampleHost startState (.num (JsNum.ofInt 7)))
        "modal-imputer-bc").isOpen "modal-imputer-bc" = false
      ∧ (overlayClick (openImputer sampleHost startState (.num (JsNum.ofInt 7)))
        "modal-imputer-bc" true).currentBcId ≠ .null
      ∧ (overlayClick (openImputer sampleHost startState (.num (JsNum.ofInt 7)))
        "modal-imputer-bc" true).isOpen "modal-imputer-bc" = false := by
  refine ⟨rfl, ?_, ?_, ?_, ?_⟩
  · show JVal.num (JsNum.ofInt 7) ≠ .null
    intro he
    cases he
  · simp [closeModal, upd]
  · show JVal.num (JsNum.ofInt 7) ≠ .null
    intro he
    cases he
  · simp [overlayClick, upd]

/-- C24, amended: each opening operation (`openVoterBudget`, `openImputer`,
`openReconduire`) overwrites its own selection slot with the id passed and leaves the two
other slots as they are; `closeModal` and a click on an overlay close the dialog and leave
the three slots as they are, so a slot keeps its id until the next opening. -/
theorem slots_overwritten_not_cleared (h : Host) (s : State) (id amount : JVal)
    (modal : String) (onOverlay : Bool) :
    ((openVoterBudget h s id amount).currentBudgetId = id
        ∧ (openVoterBudget h s id amount).currentBcId = s.currentBcId
        ∧ (openVoterBudget h s id amount).currentContratId = s.currentContratId)
      ∧ ((openImputer h s id).currentBcId = id
        ∧ (openImputer h s id).currentBudgetId = s.currentBudgetId
        ∧ (openImputer h s id).currentContratId = s.currentContratId)
      ∧ ((openReconduire h s id).currentContratId = id
        ∧ (openReconduire h s id).currentBudgetId = s.currentBudgetId
        ∧ (openReconduire h s id).currentBcId = s.currentBcId)
      ∧ ((closeModal s modal).currentBudgetId = s.currentBudgetId
        ∧ (closeModal s modal).currentBcId = s.currentBcId
        ∧ (closeModal s modal).currentContratId = s.currentContratId
        ∧ (closeModal s modal).isOpen modal = false)
      ∧ ((overlayClick s modal onOverlay).currentBudgetId = s.currentBudgetId
        ∧ (overlayClick s modal onOverlay).currentBcId = s.currentBcId
        ∧ (overlayClick s modal onOverlay).currentContratId = s.currentContratId)
      ∧ (openImputer h (closeModal (openImputer h s amount) modal) id).currentBcId = id := by
  refine ⟨⟨rfl, rfl, rfl⟩, ⟨rfl, rfl, rfl⟩, ⟨rfl, rfl, rfl⟩, ⟨rfl, rfl, rfl, ?_⟩, ?_, rfl⟩
  · simp [closeModal, upd]
  · cases onOverlay <;> exact ⟨rfl, rfl, rfl⟩

/-- C22: `addBC` and `saveBC` with an empty order number, or with an order number and an
empty object, and `confirmImputer` with no budget line selected, return normally after
showing their message: no request is issued, no call is started, and the caches, the
snapshot, the selection slots and the modals are left as they were. -/
theorem validation_before_request (h : Host) (s : State) (net : FetchResult) :
    (s.value "bc-numero" = "" →
        (addBC h s net).1 = .ok () ∧ MessageOnly s (addBC h s net).2 "Le N° BC est obligatoire")
      ∧ (s.value "bc-numero" ≠ "" → s.value "bc-objet" = "" →
        (addBC h s net).1 = .ok () ∧ MessageOnly s (addBC h s net).2 "L'objet est obligatoire")
      ∧ (s.value "edit-bc-numero" = "" →
        (saveBC h s net).1 = .ok ()
          ∧ MessageOnly s (saveBC h s net).2 "Le N° BC est obligatoire")
      ∧ (s.value "edit-bc-numero" ≠ "" → s.value "edit-bc-objet" = "" →
        (saveBC h s net).1 = .ok ()
          ∧ MessageOnly s (saveBC h s net).2 "L'objet est obligatoire")
      ∧ ((s.selects "imputer-ligne").value = "" →
        (confirmImputer h s net).1 = .ok ()
          ∧ MessageOnly s (confirmImputer h s net).2 "Sélectionnez une ligne budgétaire") := by
  refine ⟨?_, ?_, ?_, ?_, ?_⟩
  · intro hn
    have hb : (Record.get (addBCBody s) "numero_bc").truthy = false := by
      simp [addBCBody, Record.get, List.lookup, JVal.truthy, hn]
    simp only [addBC, hb]
    exact ⟨rfl, showMsg_messageOnly s _ false⟩
  · intro hn ho
    have hb : (Record.get (addBCBody s) "numero_bc").truthy = true := by
      simp [addBCBody, Record.get, List.lookup, JVal.truthy, hn]
    have hb2 : (Record.get (addBCBody s) "objet").truthy = false := by
      simp [addBCBody, Record.get, List.lookup, JVal.truthy, ho]
    simp only [addBC, hb, hb2]
    exact ⟨rfl, showMsg_messageOnly s _ false⟩
  · intro hn
    have hb : (Record.get (saveBCBody s) "numero_bc").truthy = false := by
      simp [saveBCBody, Record.get, List.lookup, JVal.truthy, hn]
    simp only [saveBC, hb]
    exact ⟨rfl, showMsg_messageOnly s _ false⟩
  · intro hn ho
    have hb : (Record.get (saveBCBody s) "numero_bc").truthy = true := by
      simp [saveBCBody, Record.get, List.lookup, JVal.truthy, hn]
    have hb2 : (Record.get (saveBCBody s) "objet").truthy = false := by
      simp [saveBCBody, Record.get, List.lookup, JVal.truthy, ho]
    simp only [saveBC, hb, hb2]
    exact ⟨rfl, showMsg_messageOnly s _ false⟩
  · intro hl
    simp only [confirmImputer, hl]
    exact ⟨rfl, showMsg_messageOnly s _ false⟩

/-- Witness for C22: the three actions on the page as loaded, where every field is empty and
no line is selected. -/
theorem validation_before_request_witness :
    startState.value "bc-numero" = "" ∧ (startState.selects "imputer-ligne").value = ""
      ∧ MessageOnly startState (addBC sampleHost startState (.failed "Failed to fetch")).2
          "Le N° BC est obligatoire"
      ∧ MessageOnly startState (saveBC sampleHost startState (.failed "Failed to fetch")).2
          "Le N° BC est obligatoire"
      ∧ MessageOnly startState
          (confirmImputer sampleHost startState (.failed "Failed to fetch")).2
          "Sélectionnez une ligne budgétaire" :=
  ⟨rfl, by decide,
    ((validation_before_request sampleHost startState (.failed "Failed to fetch")).1 rfl).2,
    ((validation_before_request sampleHost startState (.failed "Failed to fetch")).2.2.1 rfl).2,
    ((validation_before_request sampleHost startState (.failed "Failed to fetch")).2.2.2.2
      (by decide)).2⟩

/-- C23: on a `change` event of the select `imputer-ligne`, the readout `imputer-info` shows
the voted, committed and balance amounts of the first line of `_refs.lignes` whose id, as a
text, equals the selected value; it is emptied when no line matches, which is the case of the
empty default option as soon as no line has an empty id.  No request is issued, no call is
started and the snapshot is not changed. -/
theorem readout_from_snapshot (h : Host) (s : State) :
    (∀ l, findLigne h s (s.selects "imputer-ligne").value = some l →
        (onChange h s "imputer-ligne").text "imputer-info"
            = "Voté: <strong>" ++ fmt h (Record.get l "montant_vote")
              ++ " €</strong> —\n                Engagé: <strong>"
              ++ fmt h (Record.get l "montant_engage")
              ++ " €</strong> —\n                Solde: <strong>"
              ++ fmt h (Record.get l "montant_solde") ++ " €</strong>"
          ∧ l ∈ s.refs.lignes
          ∧ (Record.get l "id").toJsString h = (s.selects "imputer-ligne").value)
      ∧ (findLigne h s (s.selects "imputer-ligne").value = none →
        (onChange h s "imputer-ligne").text "imputer-info" = "")
      ∧ ((∀ l ∈ s.refs.lignes,
            (Record.get l "id").toJsString h ≠ (s.selects "imputer-ligne").value) →
        (onChange h s "imputer-ligne").text "imputer-info" = "")
      ∧ (∀ pre l post, s.refs.lignes = pre ++ l :: post →
          (∀ x ∈ pre, (Record.get x "id").toJsString h ≠ (s.selects "imputer-ligne").value) →
          (Record.get l "id").toJsString h = (s.selects "imputer-ligne").value →
          findLigne h s (s.selects "imputer-ligne").value = some l)
      ∧ (onChange h s "imputer-ligne").requests = s.requests
      ∧ (onChange h s "imputer-ligne").spawned = s.spawned
      ∧ (onChange h s "imputer-ligne").refs = s.refs := by
  have hne : ("imputer-ligne" : String) ≠ "edit-bc-ligne" := by decide
  refine ⟨?_, ?_, ?_, ?_, ?_, ?_, ?_⟩
  · intro l hl
    refine ⟨?_, ?_, ?_⟩
    · simp [onChange, hl, hne, setText, upd, imputerReadout]
    · exact List.mem_of_find?_eq_some hl
    · have := List.find?_some hl
      simpa using this
  · intro hl
    simp [onChange, hl, hne, setText, upd]
  · intro hall
    have hl : findLigne h s (s.selects "imputer-ligne").value = none := by
      unfold findLigne
      rw [List.find?_eq_none]
      intro x hx
      simpa using hall x hx
    simp [onChange, hl, hne, setText, upd]
  · intro pre l post hsplit hpre hl
    unfold findLigne
    rw [hsplit, List.find?_append]
    have hnone : List.find? (fun l => (Record.get l "id").toJsString h
        == (s.selects "imputer-ligne").value) pre = none := by
      rw [List.find?_eq_none]
      intro x hx
      simpa using hpre x hx
    simp [hnone, hl]
  · simp only [onChange, hne, if_true, if_false]
    split <;> rfl
  · simp only [onChange, hne, if_true, if_false]
    split <;> rfl
  · simp only [onChange, hne, if_true, if_false]
    split <;> rfl

/-- Witness for C23: line 3 chosen in the allocation dialog, the snapshot holding line 3. -/
theorem readout_from_snapshot_witness :
    findLigne sampleHost imputerChosen (imputerChosen.selects "imputer-ligne").value
        = some ligneThree
      ∧ (onChange sampleHost imputerChosen "imputer-ligne").text "imputer-info"
        = "Voté: <strong>" ++ fmt sampleHost (Record.get ligneThree "montant_vote")
            ++ " €</strong> —\n                Engagé: <strong>"
            ++ fmt sampleHost (Record.get ligneThree "montant_engage")
            ++ " €</strong> —\n                Solde: <strong>"
            ++ fmt sampleHost (Record.get ligneThree "montant_solde") ++ " €</strong>"
      ∧ (onChange sampleHost startState "imputer-ligne").text "imputer-info" = "" :=
  ⟨by decide!,
    ((readout_from_snapshot sampleHost imputerChosen).1 ligneThree (by decide!)).1,
    (readout_from_snapshot sampleHost startState).2.1 (by decide)⟩

/-- C26 at its failing input: with HT `100` and VAT `0` in the edit form, `updateTtcPreview`
computes the TTC 100 and writes `100` into the hidden TTC field, while `saveBC` sends
`montant_ttc` 120, because its VAT falls back to 20 where that of the preview falls back to
0. -/
theorem saveBC_ttc_differs_from_preview :
    previewTtc bcFormZeroVat = JsNum.ofInt 100
      ∧ (updateTtcPreview sampleHost bcFormZeroVat).value "edit-bc-montant-ttc" = "100"
      ∧ Record.get (saveBCBody bcFormZeroVat) "montant_ttc" = .num (JsNum.ofInt 120)
      ∧ (saveBC sampleHost bcFormZeroVat (.response 200 (.obj successPayload))).2.requests.map
          (fun r => (r.method, r.url, r.body.map fun b => Record.get b "montant_ttc"))
        = [("PUT", "/api/bon_commande/4", some (.num (JsNum.ofInt 120)))] := by
  refine ⟨?_, ?_, ?_, ?_⟩ <;> decide!

/-- C29: a purchase-order row ends with the buttons `Valider`, `Imputer` and `Suppr.`, each
present or replaced by the empty text.  `Valider` is present exactly when the status is
`BROUILLON` or `EN_ATTENTE`, `Imputer` exactly when it is `VALIDE`, and `Suppr.` exactly when
it is neither `IMPUTE` nor `SOLDE`; so `Valider` and `Imputer` are never both present, and an
order whose status is `IMPUTE` or `SOLDE` has no `Suppr.` button. -/
theorem bcRow_actions (h : Host) (b : Record) :
    bcRow h b = bcRowHead h b ++ bcValider h b ++ "\n                    " ++ bcImputer h b
        ++ "\n                    " ++ bcSuppr h b ++ "\n                </td>\n            </tr>"
      ∧ (bcValider h b ≠ "" ↔
          Record.get b "statut" = .str "BROUILLON" ∨ Record.get b "statut" = .str "EN_ATTENTE")
      ∧ (bcImputer h b ≠ "" ↔ Record.get b "statut" = .str "VALIDE")
      ∧ (bcSuppr h b ≠ "" ↔
          Record.get b "statut" ≠ .str "IMPUTE" ∧ Record.get b "statut" ≠ .str "SOLDE")
      ∧ ¬ (bcValider h b ≠ "" ∧ bcImputer h b ≠ "")
      ∧ ((Record.get b "statut" = .str "IMPUTE" ∨ Record.get b "statut" = .str "SOLDE") →
          bcSuppr h b = "") := by
  have hv : (bcValider h b ≠ "" ↔
      Record.get b "statut" = .str "BROUILLON" ∨ Record.get b "statut" = .str "EN_ATTENTE") := by
    unfold bcValider
    split
    · rename_i hc
      exact ⟨fun _ => hc, fun _ => by
        rw [String.append_assoc]
        exact append_ne_empty _ _ (by decide)⟩
    · rename_i hc
      exact ⟨fun hne => absurd rfl hne, fun hc2 => absurd hc2 hc⟩
  have hstrict : ∀ v : JVal, v.strictEq (.str "VALIDE") = true ↔ v = .str "VALIDE" := by
    intro v
    cases v <;> simp [JVal.strictEq]
  have hi : (bcImputer h b ≠ "" ↔ Record.get b "statut" = .str "VALIDE") := by
    unfold bcImputer
    split
    · rename_i hc
      exact ⟨fun _ => (hstrict _).mp hc, fun _ => by
        rw [String.append_assoc]
        exact append_ne_empty _ _ (by decide)⟩
    · rename_i hc
      exact ⟨fun hne => absurd rfl hne, fun hc2 => absurd ((hstrict _).mpr hc2) hc⟩
  have hs : (bcSuppr h b ≠ "" ↔
      Record.get b "statut" ≠ .str "IMPUTE" ∧ Record.get b "statut" ≠ .str "SOLDE") := by
    unfold bcSuppr
    split
    · rename_i hc
      exact ⟨fun _ => not_or.mp hc, fun _ => by
        rw [String.append_assoc]
        exact append_ne_empty _ _ (by decide)⟩
    · rename_i hc
      exact ⟨fun hne => absurd rfl hne, fun hc2 => absurd (not_or.mpr hc2) hc⟩
  refine ⟨rfl, hv, hi, hs, ?_, ?_⟩
  · rintro ⟨h1, h2⟩
    have e1 := hv.mp h1
    have e2 := hi.mp h2
    rw [e2] at e1
    rcases e1 with e | e <;> simp at e
  · intro hc
    by_contra hne
    have := hs.mp hne
    rcases hc with e | e
    · exact this.1 e
    · exact this.2 e

/-- Witness for C29: a charged order has no `Suppr.` button, a draft has `Valider` and a
validated order has `Imputer`. -/
theorem bcRow_actions_witness :
    bcSuppr sampleHost bcImpute = "" ∧ bcValider sampleHost bcDraft ≠ ""
      ∧ bcImputer sampleHost bcValide ≠ "" :=
  ⟨(bcRow_actions sampleHost bcImpute).2.2.2.2.2 (Or.inl (by decide)),
    (bcRow_actions sampleHost bcDraft).2.1.mpr (Or.inl (by decide)),
    (bcRow_actions sampleHost bcValide).2.2.1.mpr (by decide)⟩

/-- C21: after `loadContrats`, `loadProjets`, `loadFournisseurs` or `loadContacts` has
received a 2xx response with an object body, the corresponding cache is the list of the
response (empty when the response has none) whatever it held before, and the table body is
the concatenation of one row per record of the cache, in cache order; an edit of an id found
in that cache then returns normally, fills the form from the cached record and opens the
modal without issuing any request. -/
theorem list_load_replaces_cache (h : Host) (s : State) (status : Nat) (d : Payload)
    (hok : statusOk status = true) (id : JVal) (rec : Record) :
    ((loadContrats h s (.response status (.obj d))).cache.contrats = d.listOr "list"
        ∧ (loadContrats h s (.response status (.obj d))).text "contrats-tbody"
          = String.join
              ((loadContrats h s (.response status (.obj d))).cache.contrats.map (contratRow h))
        ∧ (findById (d.listOr "list") id = some rec →
          (editContrat h (loadContrats h s (.response status (.obj d))) id).1 = .ok ()
            ∧ (editContrat h (loadContrats h s (.response status (.obj d))) id).2.requests
              = (loadContrats h s (.response status (.obj d))).requests
            ∧ (editContrat h (loadContrats h s (.response status (.obj d))) id).2.isOpen
              "modal-edit-contrat" = true))
      ∧ ((loadProjets h s (.response status (.obj d))).cache.projets = d.listOr "list"
        ∧ (loadProjets h s (.response status (.obj d))).text "projets-tbody"
          = String.join
              ((loadProjets h s (.response status (.obj d))).cache.projets.map (projetRow h))
        ∧ (findById (d.listOr "list") id = some rec →
          (editProjet h (loadProjets h s (.response status (.obj d))) id).1 = .ok ()
            ∧ (editProjet h (loadProjets h s (.response status (.obj d))) id).2.requests
              = (loadProjets h s (.response status (.obj d))).requests
            ∧ (editProjet h (loadProjets h s (.response status (.obj d))) id).2.isOpen
              "modal-edit-projet" = true))
      ∧ ((loadFournisseurs h s (.response status (.obj d))).cache.fournisseurs
          = d.listOr "list"
        ∧ (loadFournisseurs h s (.response status (.obj d))).text "fournisseurs-tbody"
          = String.join
              ((loadFournisseurs h s (.response status (.obj d))).cache.fournisseurs.map
                (fournisseurRow h))
        ∧ (findById (d.listOr "list") id = some rec →
          (editFournisseur h (loadFournisseurs h s (.response status (.obj d))) id).1 = .ok ()
            ∧ (editFournisseur h (loadFournisseurs h s (.response status (.obj d))) id).2.requests
              = (loadFournisseurs h s (.response status (.obj d))).requests
            ∧ (editFournisseur h (loadFournisseurs h s (.response status (.obj d))) id).2.isOpen
              "modal-edit-fournisseur" = true))
      ∧ ((loadContacts h s (.response status (.obj d))).cache.contacts = d.listOr "list"
        ∧ (loadContacts h s (.response status (.obj d))).text "contacts-tbody"
          = String.join
              ((loadContacts h s (.response status (.obj d))).cache.contacts.map (contactRow h))
        ∧ (findById (d.listOr "list") id = some rec →
          (editContact h (loadContacts h s (.response status (.obj d))) id).1 = .ok ()
            ∧ (editContact h (loadContacts h s (.response status (.obj d))) id).2.requests
              = (loadContacts h s (.response status (.obj d))).requests
            ∧ (editContact h (loadContacts h s (.response status (.obj d))) id).2.isOpen
              "modal-edit-contact" = true))
      ∧ (d.lists.lookup "list" = none → d.listOr "list" = []) := by
  have hc : (loadContrats h s (.response status (.obj d))).cache.contrats = d.listOr "list" := by
    rw [loadContrats_ok h s status d hok]; rfl
  have hp : (loadProjets h s (.response status (.obj d))).cache.projets = d.listOr "list" := by
    rw [loadProjets_ok h s status d hok]; rfl
  have hf : (loadFournisseurs h s (.response status (.obj d))).cache.fournisseurs
      = d.listOr "list" := by
    rw [loadFournisseurs_ok h s status d hok]; rfl
  have hk : (loadContacts h s (.response status (.obj d))).cache.contacts = d.listOr "list" := by
    rw [loadContacts_ok h s status d hok]; rfl
  refine ⟨⟨hc, ?_, ?_⟩, ⟨hp, ?_, ?_⟩, ⟨hf, ?_, ?_⟩, ⟨hk, ?_, ?_⟩, ?_⟩
  · rw [hc, loadContrats_ok h s status d hok]
    simp [setText, upd]
  · intro hfind
    have := (edit_served_from_cache h (loadContrats h s (.response status (.obj d))) id rec).1
      (by rw [hc]; exact hfind)
    exact ⟨this.1, this.2.1, this.2.2.1⟩
  · rw [hp, loadProjets_ok h s status d hok]
    simp [setText, upd]
  · intro hfind
    have := (edit_served_from_cache h (loadProjets h s (.response status (.obj d))) id rec).2.1
      (by rw [hp]; exact hfind)
    exact ⟨this.1, this.2.1, this.2.2.1⟩
  · rw [hf, loadFournisseurs_ok h s status d hok]
    simp [setText, upd]
  · intro hfind
    have := (edit_served_from_cache h (loadFournisseurs h s (.response status (.obj d))) id
      rec).2.2.1 (by rw [hf]; exact hfind)
    exact ⟨this.1, this.2.1, this.2.2.1⟩
  · rw [hk, loadContacts_ok h s status d hok]
    simp [setText, upd]
  · intro hfind
    have := (edit_served_from_cache h (loadContacts h s (.response status (.obj d))) id
      rec).2.2.2 (by rw [hk]; exact hfind)
    exact ⟨this.1, this.2.1, this.2.2.1⟩
  · intro hnone
    simp [Payload.listOr, hnone]

/-- Witness for C21: the contract list holding contract 7 is loaded over an empty cache, and
contract 7 is then edited from the cache; the one request of the history is that of the
load. -/
theorem list_load_replaces_cache_witness :
    statusOk 200 = true
      ∧ findById (contratList.listOr "list") (.num (JsNum.ofInt 7)) = some contratFull
      ∧ (loadContrats sampleHost startState (.response 200 (.obj contratList))).cache.contrats
          = [contratFull]
      ∧ (editContrat sampleHost
            (loadContrats sampleHost startState (.response 200 (.obj contratList)))
            (.num (JsNum.ofInt 7))).2.requests
          = (loadContrats sampleHost startState (.response 200 (.obj contratList))).requests
      ∧ (editContrat sampleHost
            (loadContrats sampleHost startState (.response 200 (.obj contratList)))
            (.num (JsNum.ofInt 7))).2.isOpen "modal-edit-contrat" = true :=
  ⟨by decide, by decide!,
    (list_load_replaces_cache sampleHost startState 200 contratList (by decide)
      (.num (JsNum.ofInt 7)) contratFull).1.1,
    ((list_load_replaces_cache sampleHost startState 200 contratList (by decide)
      (.num (JsNum.ofInt 7)) contratFull).1.2.2 (by decide!)).2.1,
    ((list_load_replaces_cache sampleHost startState 200 contratList (by decide)
      (.num (JsNum.ofInt 7)) contratFull).1.2.2 (by decide!)).2.2⟩

/-- C28: after `loadTaches` has received a 2xx response with an object body, the task cache
is the complete list of the response, and the table body is the concatenation of the rows of
the tasks of that list, in their order, that pass every filter that is set: the text of
`projet_id` equals the chosen project, and `statut` equals the chosen status.  A task of the
list, shown or not, is then found by `editTache` in the cache: the form is filled from it
without any request. -/
theorem loadTaches_filters_view (h : Host) (s : State) (status : Nat) (d : Payload)
    (hok : statusOk status = true) (id : JVal) (rec : Record) (net : FetchResult) :
    (loadTaches h s (.response status (.obj d))).cache.taches = d.listOr "list"
      ∧ (loadTaches h s (.response status (.obj d))).text "taches-tbody"
        = String.join (((d.listOr "list").filter
            (passesFilters h
              (if s.present "tache-filter-projet"
                then some (s.selects "tache-filter-projet").value else none)
              (optionalValue s "tache-filter-statut"))).map (tacheRow h))
      ∧ (findById (d.listOr "list") id = some rec →
          editTache h (loadTaches h s (.response status (.obj d))) id net
              = editTacheFill h (loadTaches h s (.response status (.obj d))) rec
            ∧ (editTache h (loadTaches h s (.response status (.obj d))) id net).2.requests
              = (loadTaches h s (.response status (.obj d))).requests) := by
  have hc : (loadTaches h s (.response status (.obj d))).cache.taches = d.listOr "list" := by
    rw [loadTaches_ok h s status d hok]; rfl
  refine ⟨hc, ?_, ?_⟩
  · rw [loadTaches_ok h s status d hok, filteredTaches_eq_filter]
    simp [setText, upd]
  · intro hfind
    have he : editTache h (loadTaches h s (.response status (.obj d))) id net
        = editTacheFill h (loadTaches h s (.response status (.obj d))) rec := by
      unfold editTache
      rw [hc, hfind]
    exact ⟨he, by rw [he]; exact editTacheFill_requests h _ rec⟩

/-- Witness for C28: with project 1 chosen, the response holding a task of project 1 and a
task of project 2 renders the first task alone and caches both; the hidden task 2 is edited
from the cache, the one request of the history being that of the load. -/
theorem loadTaches_filters_view_witness :
    (loadTaches sampleHost tachesOfProjectOne (.response 200 (.obj tacheList))).cache.taches
        = [tacheOne, tacheTwo]
      ∧ (loadTaches sampleHost tachesOfProjectOne (.response 200 (.obj tacheList))).text
          "taches-tbody" = tacheRow sampleHost tacheOne
      ∧ (editTache sampleHost
            (loadTaches sampleHost tachesOfProjectOne (.response 200 (.obj tacheList)))
            (.num (JsNum.ofInt 2)) (.failed "Failed to fetch")).2.requests
          = (loadTaches sampleHost tachesOfProjectOne (.response 200 (.obj tacheList))).requests :=
  ⟨(loadTaches_filters_view sampleHost tachesOfProjectOne 200 tacheList (by decide)
      (.num (JsNum.ofInt 2)) tacheTwo (.failed "Failed to fetch")).1,
    ((loadTaches_filters_view sampleHost tachesOfProjectOne 200 tacheList (by decide)
      (.num (JsNum.ofInt 2)) tacheTwo (.failed "Failed to fetch")).2.1).trans (by decide!),
    ((loadTaches_filters_view sampleHost tachesOfProjectOne 200 tacheList (by decide)
      (.num (JsNum.ofInt 2)) tacheTwo (.failed "Failed to fetch")).2.2 (by decide!)).2⟩

/-- C30, counterexample: for `val` 23 and `max` 40 the exact percentage is 57.5, which the
specification rounds to 58; `progressBar` displays 57, because `23 / 40 * 100` evaluates in
binary64 to a number just below 57.5. -/
theorem progressBar_tie_rounds_down :
    specPct 23 40 = 58
      ∧ pctOf sampleHost (.num (JsNum.ofInt 23)) (.num (JsNum.ofInt 40)) = JsNum.ofInt 57
      ∧ progressBar sampleHost (.num (JsNum.ofInt 23)) (.num (JsNum.ofInt 40))
        = "<div class=\"progress-bar-wrap\" title=\"57%\">\n        "
          ++ "<div class=\"progress-bar-fill \" style=\"width:57%\"></div>\n    "
          ++ "</div><small>57%</small>" := by
  refine ⟨?_, ?_, ?_⟩
  · unfold specPct
    rw [show (100 * 23 / 40 + 1 / 2 : ℚ) = ((58 : ℤ) : ℚ) by norm_num, Int.floor_intCast]
    decide
  · decide!
  · decide!

/-- C30, amended: for finite `val ≥ 0` and `max > 0`, `progressBar` displays a whole
percentage `N` between 0 and 100 in its title, its width and its text, with the fill class
`alert` exactly when `N ≥ 80` and `warning` exactly when `60 ≤ N < 80`.  When `val / max` is
at most `2 ^ 40`, `N` is `min(R, 100)` for a whole number `R` that differs from the exact
`100 × val / max` by at most one half plus the fraction `2 ^ (-50)` of that percentage plus
one: it is the exact percentage rounded to the nearest integer unless that percentage lies
within the floating-point error of a half.  For a `max` that is 0, `undefined` or `null` the
result is `-`. -/
theorem progressBar_pct (h : Host) (v m : Nat) (hm : 0 < m) :
    (∃ N : Nat, N ≤ 100
        ∧ pctOf h (.num (.fin (v : Int))) (.num (.fin (m : Int))) = .fin ((N * unit : Nat) : Int)
        ∧ progressBar h (.num (.fin (v : Int))) (.num (.fin (m : Int)))
          = "<div class=\"progress-bar-wrap\" title=\"" ++ toString N
            ++ "%\">\n        <div class=\"progress-bar-fill "
            ++ (if 80 ≤ N then "alert" else if 60 ≤ N then "warning" else "")
            ++ "\" style=\"width:" ++ toString N ++ "%\"></div>\n    </div><small>"
            ++ toString N ++ "%</small>"
        ∧ ((v : ℚ) / (m : ℚ) ≤ 2 ^ 40 →
            ∃ R : Nat, N = min R 100
              ∧ |(R : ℚ) - 100 * (v : ℚ) / (m : ℚ)|
                  ≤ 1 / 2 + (100 * (v : ℚ) / (m : ℚ) + 1) / 2 ^ 50))
      ∧ (∀ val : JVal, progressBar h val (.num (.fin 0)) = "-"
          ∧ progressBar h val .undefined = "-" ∧ progressBar h val .null = "-") := by
  have hU : 0 < unit := by exact_mod_cast unit_pos
  constructor
  · have hcap : ∃ N : Nat, N ≤ 100
        ∧ pctOf h (.num (.fin (v : Int))) (.num (.fin (m : Int)))
            = .fin ((N * unit : Nat) : Int)
        ∧ ((v : ℚ) / (m : ℚ) ≤ 2 ^ 40 →
            ∃ R : Nat, N = min R 100
              ∧ |(R : ℚ) - 100 * (v : ℚ) / (m : ℚ)|
                  ≤ 1 / 2 + (100 * (v : ℚ) / (m : ℚ) + 1) / 2 ^ 50) := by
      unfold pctOf
      simp only [toNumber]
      rcases pct_range v m hm with hinf | ⟨R, hR⟩
      · refine ⟨100, le_refl _, ?_, ?_⟩
        · rw [hinf]
          exact (min_hundred 0).2
        · intro hb
          obtain ⟨R2, hR2, _⟩ := pct_accurate v m hm hb
          rw [hinf] at hR2
          cases hR2
      · refine ⟨min R 100, Nat.min_le_right _ _, ?_, ?_⟩
        · rw [hR]
          exact (min_hundred R).1
        · intro hb
          obtain ⟨R2, hR2, hacc⟩ := pct_accurate v m hm hb
          rw [hR] at hR2
          have heq : R * unit = R2 * unit := by
            have := JsNum.fin.inj hR2
            exact_mod_cast this
          have hRR : R = R2 := Nat.eq_of_mul_eq_mul_right hU heq
          exact ⟨R2, by rw [hRR], hacc⟩
    obtain ⟨N, hN, hp, hacc⟩ := hcap
    refine ⟨N, hN, hp, ?_, hacc⟩
    have hm0 : ¬ ((m : Int) = 0) := by omega
    have htr : (JVal.num (.fin (m : Int))).truthy = true := by
      simp [JVal.truthy, hm0]
    have hle : (JVal.num (.fin (m : Int))).looseEq h (.num .zero) = false := by
      simp [JVal.looseEq, toNumber, JVal.strictEq, JsNum.zero, hm0]
    have hs : JsNum.toJsString h (.fin ((N * unit : Nat) : Int)) = toString N :=
      toJsString_nat h N (by omega)
    unfold progressBar
    simp only [htr, hle, hp, hs, pctClass_nat]
    rfl
  · intro val
    refine ⟨?_, ?_, ?_⟩ <;> simp [progressBar, JVal.truthy]

/-- Witness for C30: 90 out of 100 is displayed as a whole percentage of at most 100. -/
theorem progressBar_pct_witness :
    0 < 100 * unit
      ∧ (∃ N : Nat, N ≤ 100
          ∧ pctOf sampleHost (.num (.fin ((90 * unit : Nat) : Int)))
              (.num (.fin ((100 * unit : Nat) : Int))) = .fin ((N * unit : Nat) : Int))
      ∧ progressBar sampleHost (.num (.fin ((90 * unit : Nat) : Int))) (.num (.fin 0)) = "-" :=
  ⟨Nat.mul_pos (by decide) (Nat.lt_of_lt_of_le unit_even.2 (Nat.div_le_self _ _)),
    (match (progressBar_pct sampleHost (90 * unit) (100 * unit)
        (Nat.mul_pos (by decide) (Nat.lt_of_lt_of_le unit_even.2 (Nat.div_le_self _ _)))).1 with
      | ⟨N, hN, hp, _⟩ => ⟨N, hN, hp⟩),
    ((progressBar_pct sampleHost (90 * unit) (100 * unit)
        (Nat.mul_pos (by decide) (Nat.lt_of_lt_of_le unit_even.2 (Nat.div_le_self _ _)))).2
      (.num (.fin ((90 * unit : Nat) : Int)))).1⟩

/-- C27, as stated, fails for small amounts: with HT 9 and VAT 5.5 the TTC computed on save
is 9.49, from which `editBC` derives the rate 5.4; with HT 1 and VAT 0.5 the TTC is 1, from
which the derived rate is 0. -/
theorem vat_not_recovered :
    ttcOf (JsNum.ofInt 9) (JsNum.ofRatio 55 10) = JsNum.ofRatio 949 100
      ∧ derivedTva (JsNum.ofInt 9) (JsNum.ofRatio 949 100) = JsNum.ofRatio 54 10
      ∧ JsNum.ofRatio 54 10 ≠ JsNum.ofRatio 55 10
      ∧ ttcOf (JsNum.ofInt 1) (JsNum.ofRatio 5 10) = JsNum.ofInt 1
      ∧ derivedTva (JsNum.ofInt 1) (JsNum.ofInt 1) = JsNum.ofInt 0
      ∧ JsNum.ofInt 0 ≠ JsNum.ofRatio 5 10 := by
  refine ⟨?_, ?_, ?_, ?_, ?_, ?_⟩ <;> decide!

/-- C27 (amended): for an HT amount between 10.01 and `2 ^ 40` and a VAT rate written with one
decimal between 0 and 100, when the stored TTC is the TTC computed on save from that HT and
that rate, the rate `editBC` derives from the stored amounts is the original rate.  On a 2xx
response carrying those amounts `editBC` writes the text of that rate to the VAT field and
the text of the stored HT to the HT field, and opens the modal.  When the rate is a whole
number, or the text the host prints for the rate parses back to the rate, the TTC that
`updateTtcPreview` computes from the unchanged form is the stored TTC, and so are, for a rate
of at least 0.1, the HT and the TTC that `saveBC` sends. -/
theorem vat_round_trip (h : Host) (s : State) (id : JVal) (status : Nat) (bc : Payload)
    (hN m : Nat) (hok : statusOk status = true)
    (hlo : (1001 : ℚ) / 100 ≤ (hN : ℚ) / (unit : ℚ)) (hhi : (hN : ℚ) / (unit : ℚ) ≤ 2 ^ 40)
    (hm2 : m ≤ 1000)
    (hht : (parseFloat ((bc.get "montant_ht").toJsString h)).or .zero = .fin (hN : Int))
    (httc : (parseFloat ((bc.get "montant_ttc").toJsString h)).or .zero
      = ttcOf (.fin (hN : Int)) (JsNum.ofRatio (m : Int) 10)) :
    derivedTva (.fin (hN : Int)) (ttcOf (.fin (hN : Int)) (JsNum.ofRatio (m : Int) 10))
        = JsNum.ofRatio (m : Int) 10
      ∧ (editBC h s id (.response status (.obj bc))).value "edit-bc-tva"
        = JsNum.toJsString h (JsNum.ofRatio (m : Int) 10)
      ∧ (editBC h s id (.response status (.obj bc))).value "edit-bc-montant-ht"
        = (bc.get "montant_ht").toJsString h
      ∧ (editBC h s id (.response status (.obj bc))).isOpen "modal-edit-bc" = true
      ∧ ((m % 10 = 0
            ∨ parseFloat (JsNum.toJsString h (JsNum.ofRatio (m : Int) 10))
              = JsNum.ofRatio (m : Int) 10) →
          previewTtc (editBC h s id (.response status (.obj bc)))
              = ttcOf (.fin (hN : Int)) (JsNum.ofRatio (m : Int) 10)
            ∧ (1 ≤ m →
              Record.get (saveBCBody (editBC h s id (.response status (.obj bc)))) "montant_ht"
                  = .num (.fin (hN : Int))
                ∧ Record.get (saveBCBody (editBC h s id (.response status (.obj bc))))
                    "montant_ttc"
                  = .num (ttcOf (.fin (hN : Int)) (JsNum.ofRatio (m : Int) 10)))) := by
  have hder := derivedTva_round_trip hN m hlo hhi hm2
  have hpos : (0 : Int) < (hN : Int) := by
    have := (quotient_bound hN m hlo hhi hm2).1
    exact_mod_cast this
  obtain ⟨htruthy, hparse⟩ := truthy_of_parse_pos h (bc.get "montant_ht") (hN : Int) hpos hht
  have htva : (editBC h s id (.response status (.obj bc))).value "edit-bc-tva"
      = JsNum.toJsString h (JsNum.ofRatio (m : Int) 10) := by
    rw [editBC_ok h s id status bc hok, (editBCFill_tva h _ id bc.fields).1]
    have e1 : Record.get bc.fields "montant_ht" = bc.get "montant_ht" := rfl
    have e2 : Record.get bc.fields "montant_ttc" = bc.get "montant_ttc" := rfl
    rw [e1, e2, hht, httc, hder]
    rfl
  have hhtf : (editBC h s id (.response status (.obj bc))).value "edit-bc-montant-ht"
      = (bc.get "montant_ht").toJsString h := by
    rw [editBC_ok h s id status bc hok, editBCFill_ht h _ id bc.fields]
    exact inputValueOf_truthy h _ htruthy
  refine ⟨hder, htva, hhtf, ?_, ?_⟩
  · rw [editBC_ok h s id status bc hok]
    exact (editBCFill_tva h _ id bc.fields).2
  · intro hcase
    have hrt : parseFloat (JsNum.toJsString h (JsNum.ofRatio (m : Int) 10))
        = JsNum.ofRatio (m : Int) 10 := by
      rcases hcase with hw | hrt
      · exact whole_rate_text h m hm2 hw
      · exact hrt
    obtain ⟨v, hv⟩ := ofRatio_tenth_fin m hm2
    have hp1 : (parseFloat ((editBC h s id (.response status (.obj bc))).value
        "edit-bc-montant-ht")).or .zero = .fin (hN : Int) := by
      rw [hhtf]; exact hht
    have hp2 : parseFloat ((editBC h s id (.response status (.obj bc))).value "edit-bc-tva")
        = JsNum.ofRatio (m : Int) 10 := by
      rw [htva]; exact hrt
    constructor
    · unfold previewTtc
      rw [hp1, hp2, hv, or_zero_fin]
    · intro hm1
      have htr := ofRatio_tenth_truthy m hm1 hm2
      obtain ⟨b1, b2⟩ := saveBCBody_amounts (editBC h s id (.response status (.obj bc)))
      rw [b1, b2, hp1, hp2]
      have e : (JsNum.ofRatio (m : Int) 10).or .twenty = JsNum.ofRatio (m : Int) 10 := by
        unfold JsNum.or
        rw [if_pos htr]
      rw [e]
      exact ⟨rfl, rfl⟩

/-- Witness for C27 (amended): order 4, stored with HT 100 and TTC 120, is opened with the
rate 20 in the VAT field and re-saved with TTC 120; order 8, stored with HT 100 and TTC 100,
is opened with the rate 0 in the VAT field, and the preview of the unchanged form is 100. -/
theorem vat_round_trip_witness :
    (statusOk 200 = true
        ∧ (1001 : ℚ) / 100 ≤ ((100 * unit : Nat) : ℚ) / (unit : ℚ)
        ∧ ((100 * unit : Nat) : ℚ) / (unit : ℚ) ≤ 2 ^ 40
        ∧ (parseFloat ((bcStoredHundred.get "montant_ht").toJsString sampleHost)).or .zero
          = .fin ((100 * unit : Nat) : Int)
        ∧ (parseFloat ((bcStoredHundred.get "montant_ttc").toJsString sampleHost)).or .zero
          = ttcOf (.fin ((100 * unit : Nat) : Int)) (JsNum.ofRatio ((200 : Nat) : Int) 10)
        ∧ (parseFloat ((bcStoredZeroVat.get "montant_ttc").toJsString sampleHost)).or .zero
          = ttcOf (.fin ((100 * unit : Nat) : Int)) (JsNum.ofRatio ((0 : Nat) : Int) 10)
        ∧ 200 % 10 = 0 ∧ 0 % 10 = 0)
      ∧ (editBC sampleHost startState (.num (JsNum.ofInt 4))
            (.response 200 (.obj bcStoredHundred))).value "edit-bc-tva" = "20"
      ∧ (editBC sampleHost startState (.num (JsNum.ofInt 4))
            (.response 200 (.obj bcStoredHundred))).value "edit-bc-montant-ht" = "100"
      ∧ Record.get (saveBCBody (editBC sampleHost startState (.num (JsNum.ofInt 4))
            (.response 200 (.obj bcStoredHundred)))) "montant_ttc" = .num (JsNum.ofInt 120)
      ∧ (editBC sampleHost startState (.num (JsNum.ofInt 8))
            (.response 200 (.obj bcStoredZeroVat))).value "edit-bc-tva" = "0"
      ∧ previewTtc (editBC sampleHost startState (.num (JsNum.ofInt 8))
            (.response 200 (.obj bcStoredZeroVat))) = JsNum.ofInt 100 :=
  ⟨⟨by decide,
      by rw [Nat.cast_mul, mul_div_assoc, div_self unit_pos.ne']; norm_num,
      by rw [Nat.cast_mul, mul_div_assoc, div_self unit_pos.ne']; norm_num,
      by decide!, by decide!, by decide!, by decide, by decide⟩,
    ((vat_round_trip sampleHost startState (.num (JsNum.ofInt 4)) 200 bcStoredHundred
      (100 * unit) 200 (by decide)
      (by rw [Nat.cast_mul, mul_div_assoc, div_self unit_pos.ne']; norm_num)
      (by rw [Nat.cast_mul, mul_div_assoc, div_self unit_pos.ne']; norm_num)
      (by decide) (by decide!) (by decide!)).2.1).trans (by decide!),
    ((vat_round_trip sampleHost startState (.num (JsNum.ofInt 4)) 200 bcStoredHundred
      (100 * unit) 200 (by decide)
      (by rw [Nat.cast_mul, mul_div_assoc, div_self unit_pos.ne']; norm_num)
      (by rw [Nat.cast_mul, mul_div_assoc, div_self unit_pos.ne']; norm_num)
      (by decide) (by decide!) (by decide!)).2.2.1).trans (by decide!),
    ((((vat_round_trip sampleHost startState (.num (JsNum.ofInt 4)) 200 bcStoredHundred
      (100 * unit) 200 (by decide)
      (by rw [Nat.cast_mul, mul_div_assoc, div_self unit_pos.ne']; norm_num)
      (by rw [Nat.cast_mul, mul_div_assoc, div_self unit_pos.ne']; norm_num)
      (by decide) (by decide!) (by decide!)).2.2.2.2 (Or.inl (by decide))).2 (by decide)).2).trans
        (by decide!),
    ((vat_round_trip sampleHost startState (.num (JsNum.ofInt 8)) 200 bcStoredZeroVat
      (100 * unit) 0 (by decide)
      (by rw [Nat.cast_mul, mul_div_assoc, div_self unit_pos.ne']; norm_num)
      (by rw [Nat.cast_mul, mul_div_assoc, div_self unit_pos.ne']; norm_num)
      (by decide) (by decide!) (by decide!)).2.1).trans (by decide!),
    (((vat_round_trip sampleHost startState (.num (JsNum.ofInt 8)) 200 bcStoredZeroVat
      (100 * unit) 0 (by decide)
      (by rw [Nat.cast_mul, mul_div_assoc, div_self unit_pos.ne']; norm_num)
      (by rw [Nat.cast_mul, mul_div_assoc, div_self unit_pos.ne']; norm_num)
      (by decide) (by decide!) (by decide!)).2.2.2.2 (Or.inl (by decide))).1).trans (by decide!)⟩

end BudgetManager
